import Mathlib

/-!
Verification of the data-batching and DAG-execution core of the
d3m-pipeline-regressor repository, as a shallow embedding in Lean 4.

The embedding follows `src/dna/data.py` (grouping, DAG string encoding,
`RandomSampler`, `GroupDataLoader`, `RNNDataLoader`) and
`src/dna/models/models.py` (`DNASiameseModule.recursive_get_output`).
Python's `random.Random` (CPython's Mersenne Twister together with its
integer seeding, `getrandbits`, `_randbelow`, `shuffle` and `randint`)
is embedded as executable functions on `Nat` so that loader behaviour
can be evaluated on concrete inputs exactly as the interpreter would.
-/

/-! ### JSON-like record model

The repository's records are JSON-compatible Python dicts.  Dicts are
insertion ordered (Python >= 3.7), hence the association-list model.
Numbers are modelled as integers, which is adequate for the exact
(bit-for-bit) equality questions posed by the spec.
-/

inductive Json where
  | str (s : String)
  | num (q : Int)
  | arr (elems : List Json)
  | obj (fields : List (String × Json))

namespace Json

mutual

def decEq : (a b : Json) → Decidable (a = b)
  | str a, str b =>
    if h : a = b then .isTrue (by rw [h]) else .isFalse (by simp [h])
  | str _, num _ => .isFalse (fun h => Json.noConfusion h)
  | str _, arr _ => .isFalse (fun h => Json.noConfusion h)
  | str _, obj _ => .isFalse (fun h => Json.noConfusion h)
  | num _, str _ => .isFalse (fun h => Json.noConfusion h)
  | num a, num b =>
    if h : a = b then .isTrue (by rw [h]) else .isFalse (by simp [h])
  | num _, arr _ => .isFalse (fun h => Json.noConfusion h)
  | num _, obj _ => .isFalse (fun h => Json.noConfusion h)
  | arr _, str _ => .isFalse (fun h => Json.noConfusion h)
  | arr _, num _ => .isFalse (fun h => Json.noConfusion h)
  | arr a, arr b => match decEqList a b with
    | .isTrue h => .isTrue (by rw [h])
    | .isFalse h => .isFalse (by simp [h])
  | arr _, obj _ => .isFalse (fun h => Json.noConfusion h)
  | obj _, str _ => .isFalse (fun h => Json.noConfusion h)
  | obj _, num _ => .isFalse (fun h => Json.noConfusion h)
  | obj _, arr _ => .isFalse (fun h => Json.noConfusion h)
  | obj a, obj b => match decEqFields a b with
    | .isTrue h => .isTrue (by rw [h])
    | .isFalse h => .isFalse (by simp [h])

def decEqList : (a b : List Json) → Decidable (a = b)
  | [], [] => .isTrue rfl
  | [], _ :: _ => .isFalse (fun h => List.noConfusion h)
  | _ :: _, [] => .isFalse (fun h => List.noConfusion h)
  | x :: xs, y :: ys => match decEq x y, decEqList xs ys with
    | .isTrue h1, .isTrue h2 => .isTrue (by rw [h1, h2])
    | .isFalse h1, _ => .isFalse (by simp [h1])
    | _, .isFalse h2 => .isFalse (by simp [h2])

def decEqFields : (a b : List (String × Json)) → Decidable (a = b)
  | [], [] => .isTrue rfl
  | [], _ :: _ => .isFalse (fun h => List.noConfusion h)
  | _ :: _, [] => .isFalse (fun h => List.noConfusion h)
  | (k, v) :: xs, (k', v') :: ys =>
    if hk : k = k' then
      match decEq v v', decEqFields xs ys with
      | .isTrue h1, .isTrue h2 => .isTrue (by rw [hk, h1, h2])
      | .isFalse h1, _ => .isFalse (by simp [h1])
      | _, .isFalse h2 => .isFalse (by simp [h2])
    else .isFalse (by simp [hk])

end

instance : DecidableEq Json := decEq

/-- Lookup of a field in an object's association list (Python `d[k]`,
first binding wins; parsed JSON objects have unique keys). -/
def lookupField : List (String × Json) → String → Option Json
  | [], _ => none
  | (k, v) :: rest, key => if k = key then some v else lookupField rest key

/-- `obj[key_part]` for one path component: a `KeyError`/`TypeError`
(missing key, or indexing a non-dict) is `none`. -/
def getKey : Json → String → Option Json
  | obj fields, key => lookupField fields key
  | _, _ => none

/-- Iterated indexing along a (already split) dotted path, as in the
`for key_part in group_key.split('.'): group = group[key_part]` loop of
`group_json_objects` (src/dna/data.py:36-37). -/
def getPath : Json → List String → Option Json
  | j, [] => some j
  | j, k :: ks => match j.getKey k with
    | none => none
    | some v => getPath v ks

end Json

/-! ### `group_json_objects` (src/dna/data.py:16-41) -/

/-- Accumulator loop of `group_key.split('.')`. -/
def splitDotsAux : List Char → List Char → List String
  | [], cur => [String.mk cur.reverse]
  | c :: rest, cur =>
    if c = '.' then String.mk cur.reverse :: splitDotsAux rest []
    else splitDotsAux rest (c :: cur)

/-- Python's `group_key.split('.')`: the dot-separated components (one
empty component for the empty string, matching `''.split('.')`). -/
def splitDots (s : String) : List String := splitDotsAux s.data []

/-- The effect of `grouped_objects[group] = []` (when absent) followed by
`grouped_objects[group].append(i)` on an insertion-ordered dict. -/
def addToGroup : List (Json × List Nat) → Json → Nat → List (Json × List Nat)
  | [], g, i => [(g, [i])]
  | (g', l) :: rest, g, i =>
    if g' = g then (g', l ++ [i]) :: rest else (g', l) :: addToGroup rest g i

/-- The `for i, obj in enumerate(json_objects)` loop of
`group_json_objects`, threading the index `i` and the accumulated dict.
`none` models the `KeyError`/`TypeError` raised on a record missing the
key path. -/
def groupLoop (keyParts : List String) :
    List Json → Nat → List (Json × List Nat) → Option (List (Json × List Nat))
  | [], _, acc => some acc
  | r :: rs, i, acc => match r.getPath keyParts with
    | none => none
    | some g => groupLoop keyParts rs (i + 1) (addToGroup acc g i)

/-- `group_json_objects(json_objects, group_key)` (src/dna/data.py:16-41):
groups record indices by the value at the dot-separated `group_key` path. -/
def group_json_objects (json_objects : List Json) (group_key : String) :
    Option (List (Json × List Nat)) :=
  groupLoop (splitDots group_key) json_objects 0 []

/-! ### `encode_dag` (src/dna/data.py:153-164)

The source computes
`''.join(''.join(str(edge) for edge in vertex) for vertex in dag)`. -/

/-- `encode_dag(dag)` for a DAG whose edge references are integers:
string concatenation of the decimal forms of all references, with no
separator between references or vertices. -/
def encode_dag (dag : List (List Nat)) : String :=
  String.join (dag.map (fun vertex => String.join (vertex.map toString)))

/-! ### CPython `random.Random`: MT19937

`RandomSampler` and `GroupDataLoader` (src/dna/data.py:250-381) draw all
their randomness from per-instance `random.Random()` objects.  The
following is a faithful executable embedding of CPython's generator:
MT19937 state initialisation (`init_genrand`, `init_by_array`, integer
seeding), word generation with tempering, `getrandbits`, `_randbelow`
(rejection sampling, given a fuel bound far beyond any draw made here),
`random.shuffle` (Fisher-Yates from the top), and
`randint(0, 2**32-1)`. -/

namespace PyRandom

/-- 2^32: MT19937 state words are 32-bit. -/
def W : Nat := 4294967296

/-- The 624-word state array, packed little-endian into one natural
number (word `i` occupies bits `32*i .. 32*i+31`); every array access of
the C reference implementation becomes shift/mask arithmetic. -/
structure MTState where
  mt : Nat
  mti : Nat
  deriving DecidableEq

/-- `mt[i]` of the packed state array. -/
def mtGet (mt i : Nat) : Nat := (mt >>> (32 * i)) % W

/-- `mt[i] = v` of the packed state array. -/
def mtSet (mt i v : Nat) : Nat :=
  mt % (1 <<< (32 * i)) + (v <<< (32 * i)) + ((mt >>> (32 * (i + 1))) <<< (32 * (i + 1)))

/-- `n`-fold iteration of a step function (the `for` loops of the C
reference implementation). -/
def iterN {σ : Type _} (f : σ → σ) : Nat → σ → σ
  | 0, s => s
  | n + 1, s => iterN f n (f s)

/-- One step of `init_genrand`, carrying `(i, mt[i-1], packed array)`:
`mt[i] = (1812433253 * (mt[i-1] ^ (mt[i-1] >> 30)) + i) mod 2^32`. -/
def igStep : Nat × Nat × Nat → Nat × Nat × Nat
  | (i, prev, acc) =>
    let v := (1812433253 * (prev ^^^ (prev >>> 30)) + i) % W
    (i + 1, v, acc + (v <<< (32 * i)))

/-- `init_genrand(s)` of the reference MT19937 implementation. -/
def initGenrand (s : Nat) : MTState :=
  ⟨(iterN igStep 623 (1, s % W, s % W)).2.2, 624⟩

/-- One step of the first mixing loop of `init_by_array`, carrying
`(i, j, packed array)`. -/
def ibaStep (key : List Nat) : Nat × Nat × Nat → Nat × Nat × Nat
  | (i, j, mt) =>
    let prev := mtGet mt (i - 1)
    let v := ((mtGet mt i ^^^ ((prev ^^^ (prev >>> 30)) * 1664525 % W))
      + key.getD j 0 + j) % W
    let mt' := mtSet mt i v
    let p := if 624 ≤ i + 1 then (1, mtSet mt' 0 (mtGet mt' 623)) else (i + 1, mt')
    (p.1, if key.length ≤ j + 1 then 0 else j + 1, p.2)

/-- One step of the second mixing loop of `init_by_array` (the `- i` is
32-bit wraparound subtraction), carrying `(i, packed array)`. -/
def iba2Step : Nat × Nat → Nat × Nat
  | (i, mt) =>
    let prev := mtGet mt (i - 1)
    let v := ((mtGet mt i ^^^ ((prev ^^^ (prev >>> 30)) * 1566083941 % W))
      + (W - i)) % W
    let mt' := mtSet mt i v
    if 624 ≤ i + 1 then (1, mtSet mt' 0 (mtGet mt' 623)) else (i + 1, mt')

/-- `init_by_array(key)` of the reference MT19937 implementation. -/
def initByArray (key : List Nat) : MTState :=
  let s1 := iterN (ibaStep key) (max 624 key.length) (1, 0, (initGenrand 19650218).mt)
  let s2 := iterN iba2Step 623 (s1.1, s1.2.2)
  ⟨mtSet s2.2 0 2147483648, 624⟩

/-- Little-endian base-2^32 digits of a natural number (the first
argument is fuel; `n` itself always suffices). -/
def natKeyFuel : Nat → Nat → List Nat
  | 0, _ => []
  | fuel + 1, n => if n = 0 then [] else (n % W) :: natKeyFuel fuel (n / W)

/-- CPython `random_seed` for a non-negative integer seed: the key is
the seed's base-2^32 digit list (`[0]` for seed 0). -/
def seedInt (n : Nat) : MTState :=
  initByArray (if n = 0 then [0] else natKeyFuel n n)

/-- One step of the state twist, carrying `(kk, packed array)`. -/
def twStep : Nat × Nat → Nat × Nat
  | (kk, mt) =>
    let y := (mtGet mt kk &&& 2147483648) ||| (mtGet mt ((kk + 1) % 624) &&& 2147483647)
    let v := mtGet mt ((kk + 397) % 624) ^^^ (y >>> 1) ^^^ (if y % 2 = 1 then 2567483615 else 0)
    (kk + 1, mtSet mt kk v)

/-- Full regeneration of the 624-word state. -/
def twist (mt : Nat) : Nat := (iterN twStep 624 (0, mt)).2

/-- MT19937 output tempering. -/
def temper (y0 : Nat) : Nat :=
  let y1 := y0 ^^^ (y0 >>> 11)
  let y2 := y1 ^^^ ((y1 <<< 7) &&& 2636928640)
  let y3 := y2 ^^^ ((y2 <<< 15) &&& 4022730752)
  y3 ^^^ (y3 >>> 18)

/-- `genrand_uint32`: one 32-bit output word, twisting when the 624
buffered words are exhausted. -/
def genrand (s : MTState) : Nat × MTState :=
  if 624 ≤ s.mti then (temper (mtGet (twist s.mt) 0), ⟨twist s.mt, 1⟩)
  else (temper (mtGet s.mt s.mti), ⟨s.mt, s.mti + 1⟩)

/-- `getrandbits(k)` for `k ≥ 1`: 32-bit words assembled little-endian,
the last word truncated to the remaining bits.  The first argument is
fuel; `k` itself always suffices since each word consumes 32 bits. -/
def getrandbitsFuel : Nat → Nat → MTState → Nat × MTState
  | 0, _, s => (0, s)
  | fuel + 1, k, s =>
    if k ≤ 32 then
      let p := genrand s
      (p.1 >>> (32 - k), p.2)
    else
      let p := genrand s
      let q := getrandbitsFuel fuel (k - 32) p.2
      (p.1 ||| (q.1 <<< 32), q.2)

/-- `getrandbits(k)`. -/
def getrandbits (k : Nat) (s : MTState) : Nat × MTState := getrandbitsFuel k k s

/-- `int.bit_length()` (the first argument is fuel; `n` suffices). -/
def bitLengthFuel : Nat → Nat → Nat
  | 0, _ => 0
  | fuel + 1, n => if n = 0 then 0 else bitLengthFuel fuel (n / 2) + 1

/-- `int.bit_length()`. -/
def bitLength (n : Nat) : Nat := bitLengthFuel n n

/-- Rejection loop of `_randbelow_with_getrandbits`.  The fuel bound is
never reached by any concrete stream evaluated in this development; on
exhaustion the result defaults to 0 (CPython would keep drawing). -/
def randbelowLoop (n k : Nat) : Nat → MTState → Nat × MTState
  | 0, s => (0, s)
  | fuel + 1, s =>
    let p := getrandbits k s
    if p.1 < n then p else randbelowLoop n k fuel p.2

/-- `Random._randbelow(n)`: uniform draw from `{0, …, n-1}`. -/
def randbelow (n : Nat) (s : MTState) : Nat × MTState :=
  randbelowLoop n (bitLength n) 100 s

/-- `randint(0, 2**32-1)` = `randrange(0, 2**32)` = `_randbelow(2**32)`,
as drawn by `GroupDataLoader._randint` (src/dna/data.py:350-351). -/
def randint32 (s : MTState) : Nat × MTState := randbelow 4294967296 s

/-- In-place swap of two list positions (`x[i], x[j] = x[j], x[i]`);
out-of-range indices leave the list unchanged (never hit by `shuffle`). -/
def listSwap {α : Type _} (x : List α) (i j : Nat) : List α :=
  match x[i]?, x[j]? with
  | some a, some b => (x.set i b).set j a
  | _, _ => x

/-- The `for i in reversed(range(1, len(x)))` loop of `random.shuffle`,
with `j = _randbelow(i+1)` and a swap at each step. -/
def shuffleLoop {α : Type _} : Nat → List α → MTState → List α × MTState
  | 0, x, s => (x, s)
  | i + 1, x, s =>
    let p := randbelow (i + 2) s
    shuffleLoop i (listSwap x (i + 1) p.1) p.2

/-- `random.shuffle(x)` under CPython's per-instance stream. -/
def shuffle {α : Type _} (x : List α) (s : MTState) : List α × MTState :=
  shuffleLoop (x.length - 1) x s

end PyRandom

/-! ### `RandomSampler` (src/dna/data.py:250-273)

A sampler owns `self._indices = list(range(n))` (shuffled in place on
every `__iter__`) and a private `random.Random` stream seeded at
construction. -/

structure RandomSampler where
  n : Nat
  indices : List Nat
  rng : PyRandom.MTState
  deriving DecidableEq

/-- `RandomSampler.__init__(n, seed)`. -/
def RandomSampler.make (n seed : Nat) : RandomSampler :=
  ⟨n, List.range n, PyRandom.seedInt seed⟩

/-- `RandomSampler.__iter__`: re-shuffles the persistent index list in
place using the sampler's own stream and returns the new order. -/
def RandomSampler.iter (s : RandomSampler) : List Nat × RandomSampler :=
  let p := PyRandom.shuffle s.indices s.rng
  (p.1, ⟨s.n, p.1, p.2⟩)

/-- Option-sequenced map (the failure-propagating list comprehensions
and `map`s of the Python source): `none` as soon as one element fails. -/
def mapOpt {α β : Type _} (f : α → Option β) : List α → Option (List β)
  | [] => some []
  | a :: l => match f a with
    | none => none
    | some b => (mapOpt f l).map (b :: ·)

/-! ### torch batching semantics

`GroupDataLoader._get_data_loader` (src/dna/data.py:336-348) wraps each
group's dataset in a `torch.utils.data.DataLoader(sampler, batch_size,
drop_last)`.  Per torch's documented `BatchSampler` semantics the index
stream of a pass is chunked into consecutive batches of `batch_size`,
the final undersized chunk kept only when `drop_last` is false, and the
loader length is `floor(n / bs)` resp. `ceil(n / bs)`. -/

/-- `len(DataLoader)`: `n // bs` when dropping the last incomplete
batch, else `ceil(n / bs)`. -/
def dlLen (n bs : Nat) (dropLast : Bool) : Nat :=
  if dropLast then n / bs else (n + bs - 1) / bs

/-- Consecutive chunks of size `bs` (fuel-structural; fuel `l.length`
suffices whenever `bs > 0`). -/
def chunkAux {α : Type _} (bs : Nat) : Nat → List α → List (List α)
  | 0, _ => []
  | _, [] => []
  | fuel + 1, x :: xs => ((x :: xs).take bs) :: chunkAux bs fuel ((x :: xs).drop bs)

/-- All consecutive `bs`-chunks of a list. -/
def chunkList {α : Type _} (bs : Nat) (l : List α) : List (List α) := chunkAux bs l.length l

/-- The index batches of one pass over a permutation of a group's
indices: all chunks, the trailing undersized one dropped when
`drop_last` is set. -/
def batchIndexLists (bs : Nat) (dropLast : Bool) (perm : List Nat) : List (List Nat) :=
  if dropLast then (chunkList bs perm).filter (fun c => c.length = bs)
  else chunkList bs perm

/-! ### `GroupDataLoader` (src/dna/data.py:276-381) -/

/-- Per-group state: the group's label, its records (in original data
order, as sliced out by `_init_dataloaders`), and &mdash; when shuffling
&mdash; its `RandomSampler`'s persistent `(indices, stream)` pair. -/
structure GroupInfo where
  label : Json
  records : List Json
  sampler : Option (List Nat × PyRandom.MTState)
  deriving DecidableEq

/-- Loader state after `__init__`: groups in insertion order, batching
configuration, and the shuffled flat label schedule `_group_batches`. -/
structure Loader where
  infos : List GroupInfo
  batchSize : Nat
  dropLast : Bool
  featuresKey : String
  targetKey : String
  groupBatches : List Json
  deriving DecidableEq

/-- The per-group loop of `_init_dataloaders`: for each group (in
insertion order) slice out its records and, when shuffling, construct
`RandomSampler(len(group_data), self._randint())`, advancing the
loader's master stream once per group.  (Indices produced by the
grouping are always in range, so the slicing drops nothing.) -/
def buildInfos (data : List Json) (sh : Bool) :
    List (Json × List Nat) → PyRandom.MTState → List GroupInfo × PyRandom.MTState
  | [], m => ([], m)
  | (g, idxs) :: rest, m =>
    let recs := idxs.filterMap (fun i => data[i]?)
    if sh then
      let p := PyRandom.randint32 m
      let q := buildInfos data sh rest p.2
      (⟨g, recs, some (List.range recs.length, PyRandom.seedInt p.1)⟩ :: q.1, q.2)
    else
      let q := buildInfos data sh rest m
      (⟨g, recs, none⟩ :: q.1, q.2)

/-- `_init_group_metadataloader`'s flat schedule before shuffling: each
group's label repeated once per batch that its dataloader yields. -/
def loaderSchedule (infos : List GroupInfo) (bs : Nat) (dropLast : Bool) : List Json :=
  (infos.map (fun gi => List.replicate (dlLen gi.records.length bs dropLast) gi.label)).flatten

/-- `GroupDataLoader.__init__`: group the data, seed the master stream,
build the per-group dataloaders (drawing one sampler seed per group),
then build and shuffle the flat label schedule with the master stream.
`none` models the `KeyError` raised on a record missing the group key. -/
def mkLoader (data : List Json) (groupKey featuresKey targetKey : String)
    (bs : Nat) (dropLast sh : Bool) (seed : Nat) : Option Loader :=
  match group_json_objects data groupKey with
  | none => none
  | some grouped =>
    let p := buildInfos data sh grouped (PyRandom.seedInt seed)
    let q := PyRandom.shuffle (loaderSchedule p.1 bs dropLast) p.2
    some ⟨p.1, bs, dropLast, featuresKey, targetKey, q.1⟩

/-- `len(loader)` = `len(self._group_batches)` (src/dna/data.py:380-381). -/
def loaderLen (L : Loader) : Nat := L.groupBatches.length

/-- Start of a pass for one group: `_iter` creates `iter(dataloader)`
for every group that occurs in the schedule (i.e. contributes at least
one batch), which re-shuffles that group's sampler in place.  Groups
without a sampler (sequential) or absent from the schedule are
untouched. -/
def advanceInfo (bs : Nat) (dropLast : Bool) (gi : GroupInfo) : GroupInfo :=
  match gi.sampler with
  | none => gi
  | some s =>
    if dlLen gi.records.length bs dropLast = 0 then gi
    else { gi with sampler := some (PyRandom.shuffle s.1 s.2) }

/-- The index order a group's dataloader traverses during the current
pass: the freshly shuffled sampler indices, or `range(n)` under torch's
`SequentialSampler` when shuffling is disabled. -/
def passPerm (gi : GroupInfo) : List Nat :=
  match gi.sampler with
  | none => List.range gi.records.length
  | some s => s.1

/-- The index batches one group contributes to the current pass. -/
def groupIdxBatches (bs : Nat) (dropLast : Bool) (gi : GroupInfo) : List (List Nat) :=
  batchIndexLists bs dropLast (passPerm gi)

/-- `Dataset.__getitem__` (src/dna/data.py:235-244): the record's
feature and target values; `none` models the `KeyError` on a missing
key. -/
def itemOf (fk tk : String) (recs : List Json) (i : Nat) : Option (Json × Json) :=
  match recs[i]? with
  | none => none
  | some r => match r.getKey fk, r.getKey tk with
    | some x, some y => some (x, y)
    | _, _ => none

/-- torch's default collation of one batch: the stacked feature and
target columns, in sampler order. -/
def batchOf (fk tk : String) (recs : List Json) (c : List Nat) :
    Option (List Json × List Json) :=
  (mapOpt (itemOf fk tk recs) c).map List.unzip

/-- One yielded element of `GroupDataLoader._iter`:
`(group, pipeline, x_batch), y_batch` (src/dna/data.py:374-377). -/
structure Yield where
  label : Json
  pipeline : Json
  xb : List Json
  yb : List Json
  deriving DecidableEq

/-- All batches one group contributes to the current pass, fully
assembled: the pipeline attached to each is
`dataset.data[0]["pipeline"]` (src/dna/data.py:376), the arbitrary
representative of the group. -/
def groupYieldBatches (bs : Nat) (dropLast : Bool) (fk tk : String) (gi : GroupInfo) :
    Option (List Yield) :=
  match gi.records[0]? with
  | none => none
  | some r0 =>
    match r0.getKey "pipeline" with
    | none => none
    | some pl =>
      (mapOpt (batchOf fk tk gi.records) (groupIdxBatches bs dropLast gi)).map
        (List.map (fun b => ⟨gi.label, pl, b.1, b.2⟩))

/-- `next(group_dataloader_iters[group])`: take the next unconsumed
batch of the named group; `none` models an exhausted iterator (never hit
when schedule multiplicities match batch counts) or an unknown label. -/
def popBatch {β : Type _} : List (Json × List β) → Json → Option (β × List (Json × List β))
  | [], _ => none
  | (g', l) :: rest, g =>
    if g' = g then match l with
      | [] => none
      | b :: bs' => some (b, (g', bs') :: rest)
    else match popBatch rest g with
      | none => none
      | some (b, rest') => some (b, (g', l) :: rest')

/-- The `for group in self._group_batches` loop of `_iter`: consume the
shuffled schedule left to right, taking each label's next batch. -/
def consumeSchedule {β : Type _} : List (Json × List β) → List Json → Option (List β)
  | _, [] => some []
  | avail, g :: gs => match popBatch avail g with
    | none => none
    | some (b, avail') => (consumeSchedule avail' gs).map (b :: ·)

/-- One full pass of `GroupDataLoader._iter`: advance every scheduled
group's sampler, assemble each group's batches for this pass, and
consume them in schedule order.  Returns the yielded sequence together
with the loader as left behind (sampler streams advanced). -/
def runPass (L : Loader) : Option (List Yield × Loader) :=
  let infos' := L.infos.map (advanceInfo L.batchSize L.dropLast)
  match mapOpt (fun gi =>
      (groupYieldBatches L.batchSize L.dropLast L.featuresKey L.targetKey gi).map
        (fun ys => (gi.label, ys))) infos' with
  | none => none
  | some avail =>
    match consumeSchedule avail L.groupBatches with
    | none => none
    | some ys => some (ys, { L with infos := infos' })

/-- The sampler-state effect of one full pass (what `_iter` does to the
loader's persistent state): every scheduled group's sampler is
re-shuffled. -/
def advanceLoader (L : Loader) : Loader :=
  { L with infos := L.infos.map (advanceInfo L.batchSize L.dropLast) }

/-! ### Generator termination (PEP 479)

Both `GroupDataLoader._iter` (src/dna/data.py:378) and
`RNNDataLoader._iter` (src/dna/data.py:441) end their generator body
with an explicit `raise StopIteration()`.  Under PEP 479 (default from
Python 3.7) a `StopIteration` raised inside a generator body is
converted by the interpreter into a `RuntimeError` surfaced to the
consumer; only running off the end of the body would end iteration
normally. -/

inductive GenTermination where
  | normalExhaustion
  | runtimeError
  deriving DecidableEq

/-- A complete consumption of `iter(loader)`: the yielded elements of
one pass, then the body's `raise StopIteration()` surfacing as
`RuntimeError` per PEP 479. -/
def loaderIterRun (L : Loader) : Option (List Yield × GenTermination) :=
  (runPass L).map (fun p => (p.1, GenTermination.runtimeError))

/-! ### `RNNDataLoader` / `RNNDataset` (src/dna/data.py:383-441) -/

/-- `RNNDataset.encode_pipeline` (src/dna/data.py:397-410): the
per-step `primitive_to_enc[step['name']]` encodings of a record's
pipeline, in step order.  `none` models a lookup failure. -/
def encodePipeline (p2e : List (String × Json)) (r : Json) : Option (List Json) :=
  match r.getKey "pipeline" with
  | none => none
  | some pl => match pl.getKey "steps" with
    | none => none
    | some (Json.arr steps) =>
      mapOpt (fun st => match st.getKey "name" with
        | some (Json.str nm) => Json.lookupField p2e nm
        | _ => none) steps
    | some _ => none

/-- `[primitive['inputs'] for primitive in item['pipeline']['steps']]`
(src/dna/data.py:424-425): the DAG structure recorded per group. -/
def structureOf (r : Json) : Option (List Json) :=
  match r.getKey "pipeline" with
  | none => none
  | some pl => match pl.getKey "steps" with
    | none => none
    | some (Json.arr steps) => mapOpt (fun st => st.getKey "inputs") steps
    | some _ => none

/-- `RNNDataLoader` state: the underlying grouped loader plus the
per-group `pipeline_structures` map and the primitive encoding map. -/
structure RNNLoader where
  base : Loader
  structures : List (Json × List Json)
  primToEnc : List (String × Json)
  deriving DecidableEq

/-- One entry of `self.pipeline_structures` (src/dna/data.py:420-426):
the structure of the group's first member's pipeline, keyed by group. -/
def structEntry (data : List Json) (p : Json × List Nat) : Option (Json × List Json) :=
  match p.2 with
  | [] => none
  | i0 :: _ => ((data[i0]?).bind structureOf).map (fun st => (p.1, st))

/-- `RNNDataLoader.__init__` (src/dna/data.py:414-426): the grouped
loader plus, per group, the structure of its first member's pipeline. -/
def mkRNNLoader (data : List Json) (groupKey featuresKey targetKey : String)
    (bs : Nat) (dropLast sh : Bool) (seed : Nat) (p2e : List (String × Json)) :
    Option RNNLoader :=
  match mkLoader data groupKey featuresKey targetKey bs dropLast sh seed,
      group_json_objects data groupKey with
  | some L, some grouped =>
    match mapOpt (structEntry data) grouped with
    | none => none
    | some structs => some ⟨L, structs, p2e⟩
  | _, _ => none

/-- `RNNDataset.__getitem__` (src/dna/data.py:390-395):
`(encoded_pipeline, x, y)` for one record. -/
def rnnItemOf (p2e : List (String × Json)) (fk tk : String) (recs : List Json) (i : Nat) :
    Option (List Json × Json × Json) :=
  match recs[i]?, itemOf fk tk recs i with
  | some r, some xy => (encodePipeline p2e r).map (fun e => (e, xy.1, xy.2))
  | _, _ => none

/-- One yielded element of `RNNDataLoader._iter`:
`(group_structure, pipeline_batch, x_batch), y_batch`
(src/dna/data.py:434-440). -/
structure RNNYield where
  groupStructure : List Json
  plBatch : List (List Json)
  xb : List Json
  yb : List Json
  deriving DecidableEq

/-- All batches one group contributes to the current RNN pass. -/
def rnnGroupYieldBatches (bs : Nat) (dropLast : Bool) (fk tk : String)
    (p2e : List (String × Json)) (structs : List (Json × List Json)) (gi : GroupInfo) :
    Option (List RNNYield) :=
  match structs.lookup gi.label with
  | none => none
  | some gs =>
    mapOpt (fun (c : List Nat) =>
      (mapOpt (rnnItemOf p2e fk tk gi.records) c).map (fun items =>
        (⟨gs, items.map (fun t => t.1), items.map (fun t => t.2.1),
          items.map (fun t => t.2.2)⟩ : RNNYield))) (groupIdxBatches bs dropLast gi)

/-- One full pass of `RNNDataLoader._iter`. -/
def runRNNPass (R : RNNLoader) : Option (List RNNYield × RNNLoader) :=
  let L := R.base
  let infos' := L.infos.map (advanceInfo L.batchSize L.dropLast)
  match mapOpt (fun gi =>
      (rnnGroupYieldBatches L.batchSize L.dropLast L.featuresKey L.targetKey
        R.primToEnc R.structures gi).map (fun ys => (gi.label, ys))) infos' with
  | none => none
  | some avail =>
    match consumeSchedule avail L.groupBatches with
    | none => none
    | some ys => some (ys, ⟨{ L with infos := infos' }, R.structures, R.primToEnc⟩)

/-- A complete consumption of `iter(rnn_loader)` with its trailing
`raise StopIteration()` surfacing as `RuntimeError` per PEP 479. -/
def rnnIterRun (R : RNNLoader) : Option (List RNNYield × GenTermination) :=
  (runRNNPass R).map (fun p => (p.1, GenTermination.runtimeError))

/-! ### A family of samplers under an arbitrary interleaving

Each `RandomSampler` owns its `random.Random` instance
(src/dna/data.py:265-266); no global stream exists.  A schedule lists
which sampler serves each successive `__iter__` request. -/

/-- Run a schedule of `__iter__` requests against a family of samplers,
recording `(sampler id, permutation)` for every served request
(requests naming a nonexistent sampler are ignored). -/
def runSched : List RandomSampler → List Nat → List (Nat × List Nat) × List RandomSampler
  | sys, [] => ([], sys)
  | sys, t :: ts => match sys[t]? with
    | none => runSched sys ts
    | some s =>
      let p := s.iter
      let q := runSched (sys.set t p.2) ts
      ((t, p.1) :: q.1, q.2)

/-- The next `k` permutations produced by a sampler in a given state. -/
def samplerOutputsFrom : RandomSampler → Nat → List (List Nat)
  | _, 0 => []
  | s, k + 1 =>
    let p := s.iter
    p.1 :: samplerOutputsFrom p.2 k

/-- The canonical permutation sequence of a fresh
`RandomSampler(n, seed)` across `k` iteration requests. -/
def samplerOutputs (n seed k : Nat) : List (List Nat) :=
  samplerOutputsFrom (RandomSampler.make n seed) k

/-! ### `DNASiameseModule` (src/dna/models/models.py:461-505)

`recursive_get_output` evaluates a pipeline DAG over batch tensors; the
embedding models a tensor as a list of integers, `torch.cat(., dim=1)`
as concatenation, and the per-primitive submodules and the activation
as functions.  The method wraps its whole body in
`try: ... except Exception as e: print(...); quit(1)`, so every
evaluation-time exception terminates the host process with exit code 1;
`Forward.exited 1` is that outcome (a `SystemExit` is not an
`Exception`, so an inner `quit(1)` passes through outer frames
unchanged). -/

/-- A node input reference: the external-feature sentinel `"inputs.0"`
or an integer index into the step list. -/
inductive PyRef where
  | external
  | idx (n : Nat)
  deriving DecidableEq

/-- One pipeline step as consumed by the Siamese module: a primitive
name and its input references. -/
structure PyStep where
  name : String
  inputs : List PyRef
  deriving DecidableEq

/-- Outcome of a forward evaluation: a value, or process termination
with an exit code (`quit(1)`). -/
inductive Forward (α : Type) where
  | ok (v : α)
  | exited (code : Nat)
  deriving DecidableEq

/-- Sequential collection of the recursive results of a node's inputs:
the first process exit aborts everything (Python's `for input in ...`
loop unwinds on `SystemExit`). -/
def collectRefs : List (Forward (List Int)) → Forward (List (List Int))
  | [] => .ok []
  | .exited c :: _ => .exited c
  | .ok v :: rest => match collectRefs rest with
    | .exited c => .exited c
    | .ok vs => .ok (v :: vs)

/-- `DNASiameseModule.recursive_get_output(pipeline, current_index)`
(src/dna/models/models.py:479-505), with an explicit recursion-depth
fuel (Python's recursion limit; a `RecursionError` is caught by the
`except` and also terminates the process).  Every exception inside the
body — missing submodule name (`KeyError`), bad index (`IndexError` /
`TypeError`), empty input list (`curr_output` unbound, `NameError`) —
is caught and becomes `quit(1)`. -/
def recursive_get_output (sub : String → Option (List Int → List Int))
    (act : List Int → List Int) (h1 : List Int) (pipeline : List PyStep) :
    Nat → Nat → Forward (List Int)
  | 0, _ => .exited 1
  | fuel + 1, ci =>
    match pipeline[ci]? with
    | none => .exited 1
    | some step =>
      match sub step.name with
      | none => .exited 1
      | some cur =>
        if PyRef.external ∈ step.inputs then .ok (act (cur h1))
        else
          match collectRefs (step.inputs.map (fun r => match r with
            | .external => .exited 1
            | .idx j => recursive_get_output sub act h1 pipeline fuel j)) with
          | .exited c => .exited c
          | .ok [] => .exited 1
          | .ok [o] => .ok (act (cur o))
          | .ok os => .ok (act (cur os.flatten))

/-- `DNASiameseModule.forward` (src/dna/models/models.py:471-477): one
shared input encoding, two independent DAG evaluations from their final
steps, concatenated into the output model. -/
def siameseForward (sub : String → Option (List Int → List Int))
    (act : List Int → List Int) (inputModel outputModel : List Int → List Int)
    (leftPipeline rightPipeline : List PyStep) (x : List Int) (fuel : Nat) :
    Forward (List Int) :=
  let h1 := inputModel x
  match recursive_get_output sub act h1 leftPipeline fuel (leftPipeline.length - 1) with
  | .exited c => .exited c
  | .ok lh2 =>
    match recursive_get_output sub act h1 rightPipeline fuel (rightPipeline.length - 1) with
    | .exited c => .exited c
    | .ok rh2 => .ok (outputModel (lh2 ++ rh2))

/-! ### Helpers for stating the grouping claims -/

/-- The group-key value of record `i`, if the record exists and carries
the full key path. -/
def keyAt (data : List Json) (keyParts : List String) (i : Nat) : Option Json :=
  match data[i]? with
  | none => none
  | some r => r.getPath keyParts

/-! ### Staged intermediate states of the concrete Mersenne Twister runs

Checking a concrete loader run inside the kernel needs the MT19937
state literals that CPython computes when seeding `random.Random(1)`
(the loader's master stream), drawing the first sampler seed
3280387012, and seeding the sampler's own stream.  The sequential state
recursions are too deep to evaluate in one step, so they are staged
through the following packed intermediate values; the staging lemmas
below re-derive each from its predecessor. -/

/-- Staged intermediate MT19937 value (packed state array). -/
def litIGmid : Nat :=
  206693222109351864093044167498080392899523645906368546414535011666849621100804277436341002096490525909800582893776140453706631407598282328010619278996421501451329044394154588969165400368843997132383228656001723120710622389276630004324957533750118716952950276440098566166453524998399370109057823043628415771520815213551762392242882449996989983517215186680497465976155780859188333579832071136771144930696980641733183048889646524693951502605225107238574153176995623074916629450761954890530725034778956876534379297073742711789094895459640243346919057898506675523162171788542813362994491766759594305668505844410840427432297129154815535042236805898823268357478286704453888476226223276203479525449665912467231420649951950585002733920719755450472729951855083719594541272116254835206126551529377605703318984948411684066111914137305144013206503896146381698020683222083742370850762921467670243146372083391066085286992068221732787658190274228639253598697254629248545980365632349218906460410409500065116584312704268700161598649988316055512236228441515717965186047958463042351286425316204232594967059723673824501396241622165644427504525496512586162867569871532393455118669249536858882716417296164386498468027240782255208116419367808081615507826373956953332590221935908767082364573898375525216950872125443595846933789716460388705069181489098106276138625644761509191723954827823988188622847506812074927072640684206090754696110653187235284342341829823852704232277895197234182788539998142069123105831717663330510849980905325985071321581974241725591221866704283475956168106387951465434800669708418867303650226673039416513689826567899559166166082757363471642612675633366049928256027694185233784147934168065010883053064357277214494539850734567038508273070513450153019568470218120067018714379090778569968878114128346180552541587541615170869664651559040257450283488608665598398923148141224095352216632310835896190765834067587295750908396260140626399719611485989869997433529918939899403486180651958513637537477739061728151826113791216347948563154488847003097147531186788165544878192071772538303103467318478149103904666692829371740969829991504679023149196407138461507977981743297886449274947996844723292795038998650955072008081552630851864320276182414256490943732768768196342608985835844102624310985853007167566060243513085293974020542551895887433660184860360469772377240070906625998533763315175381536630422718651573713697738010285066088545026555226960983526640813649860083899178435522085873851814005515979304704672811803641583248296798924614025859622427853492118850344277921309654510874644035427398543080093954012031030155485261036778990512632979094366824185115479834239591740366562941444782443725472085281910778621256729407933379473253551018369505410087836731167791777480584755760426648621561016059195899354944856065488985425630368520530428134640662386898011523310169964119277789006113828085938511478188101966128231083485082706320539254778892287907006481728006142470868768523282912616033590832561403616464572130876197293276255914

/-- Staged intermediate MT19937 value (packed state array). -/
def litIGfull : Nat :=
  62685089405509111925910797243914719854890513935494713084094713797279779630627496305943786046941309007281293105221577504421353501605599255248785149356818580886163074212016138319710181437623915839386196989339984175865611290932895638485827512283879634622589907034847096838980553398268338905605705315464924834076955485269257682765843392777664062904318116756644819538761883164862381873685805923051342196114892111881287659915424456096361326051748180740843339721465950121631833352165428366344241754810081140762710579390137795215443629123183303201044796731629341661542390258966032612552126580439913324626563213547393121217728067632048719897064596438939163041106934301355643192260261867872030533878188557727018817797219012064641958276099544136480610826250078810896212505254064619595899307426216931651016613164877613570296351724055264357110051005104450572173606849938075379012356137114572525910752676385589168436483206759652170097284388598518122222819376116616668668677988651997615236221431416155794821321118852088948452164682783715959922435191327367306488124638818446090532334864386359317233873012285172875896330714873881780586230596002778688422250420590175698633544778262136505069053046737202152515000629854634631225453245996997340762744567896897683212149150732909707719966588817675821630380251456266588599804209831660991462715440400663143017564651072677052296295930367391822676512661642282350234567553218318066651318510488484545671729568971887621684270732981974442582657502555066960418690332945218280990034155505553171409775830458482159957769211244505225186771766058316021949327301666418107251589707938065072144733816368743637495699897181007119363672460040974223449086641663004605507793014252452324150238463715514559124307431648478948480649031081489229583165223570218974125422263886587593014744330199975749832650568652404661542746543584685860761547297457070273167102314576665676644281998277713093924236551494770138725647883566971887853912300960949802636372591951717316415323846182747445131420005722224687602711525724505110953736568981699982016588947035894059736087136235396798804019434387781559696138411966704777989194870090051835909943079457649936020314680876367897457337488804889342331824364904005266943816631681518612047693872607083945336048154993001716858914072302230374294986610531277637599664647525761147514008899238689946802093944865612982597431648203028809043429562401771290925843222821220221381984318518256971016750121270624021542153515130386081256853244444367484914891752438843250797295149886721543902585582757118492217204960123203770309672216674331373413106027454841661967870247822106376003696537006476355273043676224973894002060133928765135363584693312631060562155459381152426642778209514491263275588735458188352331628933634618912177576995916817414488324819680108333628484452298807271017999262374749573133359090629722111402666396222385680310709557844049479865847370371052888681758484468279513921172987571336140289500145715018352119752770038578015899178947425013401300127437407370742417936980607757405410607208376626705322894782663757703548808362869195819947150150865798288136994832911439410269353230208345410503242199606186650417333579047848825834242257112060317620885151293421378661990197161958015730358249113963865616811805417654957899792836277351433146683316643158745577273742588847277405020330699298979666450169324546781433015633218213248018986767013905101885085728066131985273947793365444250280947765884488609302913437528001802423347517836456663978922564542901160075954132077499502061844004777463229898312792357201472450520034421742281215395838957029567457078867297742321364249618062920323524100796395855490398720473188748064226082130624085325443879193454095100721902723688608983702297802922465778395428510531587340343771240068168890882622394112252370643121994567113348850616779414952571984309063927162547038575769391208822294299053225776973195785292510157058775147687493667385905281728614066936870793483631104130486096422866739022254251631022238998824784309871214211336594149372534724828516536519652291847191320934127662041939033266344757810255450761243406685982638804631309022215852991706323223872506356963395668107287976200691035733250165615782065576159415303394415966535152327550107294310945533761757937224536792146711105700674959937207778503501562879445241463662142281185819506210181780721218897488871995890898495582077564387715740371190275817001449471008660140255770382875594805433223352833476546594040372715841292252983175468170554585838014797017976570586587751089146553833551413146641975370517778330202052282190648141351908509904289169596729111939424597802445523234111653813513351586367960175769546506050051493655326103823629699245586418016468660736051425039803522537493270385743437525903109563398688573456345292160567787373069854610200635728800730405759403691875432721043746233636765094325962472698626875833148826372580999341547042531665331710768365982359935219565301595187067772247975847412037958098451506998773182171027695752045356894447709388159633645629545493246019135820915900506906032640701290570506299065346661219735445730896769091171352761432210047450382980030625592142825700677633624952217795344145832513082782540989616413040988227257601039794195623143595351637462190706636535912449334420058581521218743569834717812580171279915160794789675762903718339466089866492140118823551337811927493524761760551434001520245324751568861558716803095718510972066599595072196209156923318071322517301806566620458899402166430591631348363311478802800521980525250372511467674969151489645720009661369785217086930227581405674315978920044798755483144811069077253851302610194739624245401270682864202663540116818822475326676741780611737275972111438408802370422377608919256570335384654037352344114105999356653180812503717835632673409647782213628400383443178293619326757139369589058612122088577237252104060778375287897543799460272211546791798613974575310224299012205778134871255296492395729078221387894808011355820153110205338707003138385845672884757408327786763143168159295742358655797897448897721796416755370

/-- Staged intermediate MT19937 value (packed state array). -/
def litS1A : Nat :=
  62685089405509111925910797243914719854890513935494713084094713797279779630627496305943786046941309007281293105221577504421353501605599255248785149356818580886163074212016138319710181437623915839386196989339984175865611290932895638485827512283879634622589907034847096838980553398268338905605705315464924834076955485269257682765843392777664062904318116756644819538761883164862381873685805923051342196114892111881287659915424456096361326051748180740843339721465950121631833352165428366344241754810081140762710579390137795215443629123183303201044796731629341661542390258966032612552126580439913324626563213547393121217728067632048719897064596438939163041106934301355643192260261867872030533878188557727018817797219012064641958276099544136480610826250078810896212505254064619595899307426216931651016613164877613570296351724055264357110051005104450572173606849938075379012356137114572525910752676385589168436483206759652170097284388598518122222819376116616668668677988651997615236221431416155794821321118852088948452164682783715959922435191327367306488124638818446090532334864386359317233873012285172875896330714873881780586230596002778688422250420590175698633544778262136505069053046737202152515000629854634631225453245996997340762744567896897683212149150732909707719966588817675821630380251456266588599804209831660991462715440400663143017564651072677052296295930367391822676512661642282350234567553218318066651318510488484545671729568971887621684270732981974442582657502555066960418690332945218280990034155505553171409775830458482159957769211244505225186771766058316021949327301666418107251589707938065072144733816368743637495699897181007119363672460040974223449086641663004605507793014252452324150238463715514559124307431648478948480649031081489229583165223570218974125422263886587593014744330199975749832650568652404661542746543584685860761547297457070273167102314576665676644281998277713093924236551494770138725647883566971887853912300960949802636372591951717316415323846182747445131420005722224687602711525724505110953736568981699982016588947035894059736087136235396798804019434387781559696138411966704777989194870090051835909943079457649936020314680876367897457337488804889342331824364904005266943816631681518612047693872607083945336048154993001716858914072302230374294986610531277637599664647525761147514008899238689946802093944865612982597431648203028809043429562401771290925843222821220221381984318518256971016750121270624021542153515130386081256853244444367484914891752438843250797295149886721543902585582757118492217204960123203770309672216674331373413106027454841661967870247822106376003696537006476355273043676224973894002060133928765135363584693312631060562155459381152426642778209514491263275588735458188352331628933634618912177576995916817414488324819680108333628484452298807271017999262374749573133359090629722111402666396222385680310709557844049479865847370371052888681758484468279513921172987571336140289500145715018352119752770038578015899178947425013401300127437407370742417936981857870320528660139268453656892556263483856528990604659211151412566061859168261438723106207304370184776877834039553537402793531897793565197919078469564639593492677337659424920389363846119937529393380344821883813696798265708993159875852180051451162156492826898256813255013543266314344125464220915506860731902166517354550164151526064647654648577399595819000567129631700477559112640080908937981899319269503705130407351815546573208094130496696242054221388253410251353672279291955102366878455875038076428831332841074701380684581467367735892667834845345073175148358721757473943286692949996434066943189766347846687380093642813203219525024694323787998804801954756254883455447714420937187471594916960863061219601602502049053948370974828589675304700162697631935865508539152746599931418228424581379588443385032021631546663949374963444537385628477360874302803940731977898799922016658915366701330948986889258649163744490741554583524760060804618665148731158978271117056327283671380131969215316582953141916344567249455617811281696867123511640329226941457489068191528222491558436361207141174001905332596118252317689019379709928556556174195895121645422995103375821645812047404241757861273674630741140437358899896535766201878223789584399506489308096016131340444851285289578994929551943106833448832866079639519809392274658264553857484509807608886026140205108886761399174459507338357121585136417608327470063375094547271703841703158643948566984474031429464275389146332115406261016807828557263056710401309434216197087337687148131151553218799659139724462662867067484457259701052509557339604741891674323532278847537689223074039247344400375888117685273411033086070831643702254020356936168148998928527836897582562346818512946616821761216872088542996734269556733797943851365454604369246626406691363677305496496959295159200144578477316198264581989275471184953241805909433192618936251949922335436632166331484311084754000748737701265290667710119293682719426787713445289968103684960004286872058718970589169007196384432725827811159187243737355015115822630199081179468282530301174528487562867352141346592952515498813840646434321651212397787422686859237356924157819765008154590722995147329025450906691529038588694726879437757675615571502373040473332207973649814605250761224289883941856700027683570972838048696557851744641065592569629900977178522381872993480288043226129536346890139391654578072129360508911793518430296838681968931280911064818929224330600860363095627897762445487810555388287655740321280039100795572441502670723371144289107039400398778867748269673011908175124553336197756741284020268503345637591424025515516224431978251771524250891346482910984451594412884728742964924168251411393830837416582661811996332128744478447881747135300202750217380998203432396947139232098653659738676296972334113396262011563618415129360561604485313662826887583127035369133657973976954136453990288906303365868410439417117872514426299386521850118325762081969376509367242261669722538998221285739194752319239978082246115979018616221902193040238445131646620983350954

/-- Staged intermediate MT19937 value (packed state array). -/
def litS1B : Nat :=
  32832046300051849915563259962836395842825330598317382571241625219749920450003183128621849158688363754634520935785035919536575584810442581648483408731823623191494257972409572737383943342897649735058857238935532317449802214011350628369876888568236927969400708099488990310378654670920029518625124785611932697862881702184203908431468149425750890734704659038005158648836876661289544941635896296835337976059585606543801868104851487301993243690985149420333442652635251318819613764191133240430804584793976596041638361983170527898546407539944207624590328491437921476466544438173354485878676611936617707092869990205276889363965490175441677965932473683744310305490007514518299445592072941531014585516238868912026924012449608076266625859256954405680990175160645473373552366544846858162839677488202568507770873603466170047954985387597539183004492179907619453458447416245095658597669453076585947741385360207077574932887667974026053991951923517417006329750464396034339016611153909406275790451650964100983067100333703470833049280958583882192289226123853363989026207988261305327490064177673136608986655989191239534653287629327522498064584660474136971206473869835429406785355990184931131542601667310281365585012406106012921317485858786802497686921451489879610658245184385285376146040074013474541805370465686254986217321996020366080026480014934588578386162468051407282218451046546297953811436422125532806742119538295527320074176604488560683201064402864566125859680448675805966403551571274057643612588641482979060200234258808080346411783625509493315219650177778568282063157252743335314287889652237999269414033784421884705966412481700014303738533509511430912551523025424245797112963298119059936532049101467434144273176924428569410551126500330311822066891364089978512085706364800855971160170899252077032454489809969122219709462036061432935379298911536050957252065592513521779169207427248983768077439134025338174590149774349664338506408563474850762134019157469990720552844116676029457756024510253589609424207463406639808341129848085260485387460209405906928460154878871408548963278562416499960602477204280092229714162494111109553643387697271323215837027535141874087526621235745110756036238633465993725404162301982451617293508260320707159601644245965408002663197990412704689787031945599497285527683504592102435191746336859769402235977124552678067241997447074925693108786687787850844507180168205261487493175342275024932722294270417138429972182852034607587816691290286824194873490587153549798206308138850775147143182580267001913977826162505080898986135763924827568100082956142196061358911277360329989031911410843254581538883658538082346797535414448816011135481840898953519944809217258792263585462882987364716886098342525190021822660950750912734366647041083537939251746898099198348780187723672743310008040780721286473914052255699285269575512039527698888254513340233828165306029178782384440636350374321311971776675993406018320351494696151212331342414872047391063540344349282374419081261419185767123955644169277929716636460346522315719231149443488933033244617940352272404897170477329722787373202427008680318215390340772332452695119789072667170391087874653843912900082860103610298275774094993762177722959041408180920220067833812229689421013212291247592228481006607421157931659991076736950590463930492647093867704738159072391013909340990236208957314697004971132804422341828177052239676031838386066612561800095356390182147297350634593354015405610456026243771884783963328161351096141779765487327993401874714070191565180863506076287242362692614257867373597000096432765774117072062185708725804328422240185842676440722546442584580773377592431497503336544824612526841326251812789562048797415255533387370783456619046707799876871098885284432052194767832582594577573243818412537752617543583721306719324907075708489924829151244709359078300847390729467910799594053463883711056756737117577070680267496848053956752174973394628791494100787960516245296949585148940383914745235548125406119558018350718395214318543513997252978362649856782260963555984129061472807767673632985830941200769686357637888133371787676411563149085761561896649924477471563432555569621504969785373384347026986325077528720096557887641479955228951448513641533942233515196785670688358121288323994011288542835962799192607630501231751543398362130013150189035172926472997923557813730193037379747365201490569588779176983136530770324928929677598919385474956908828231396832910819973518758646778884624987244211767882343549809048473057246195659812966887280681882858585739341727571985617946608256895087389634659731383457840175540088951410937848851387307896202550881969275801029401614030206282985602611401634892409942502252732944728112900598131137546846084706505733614826882800271984657922096475864439834245325714964711488187586063419603924436969191991214141998797138380753524325543622591195399251439883269437412651916662909258905329500671313173180083360762503484529542498511971905547374874954675911930458119065344581198087985119034228496883111820710420580682112061891230177498073865475092742101929376072902927520746159922865733969165272609641457406665723513848215366665259462666426131348677886834864185124186683638153955217236571523620574448925441163436160115968514060666569753635901771101867752066672521548875629635076573420069559898596950323675918237328169711966971176556455361320279866696581631212271001130518672345209943376641859547781994495333354175301243367989146959329337126145430260645480008029047288103070855958486576932503753278034498561065002571481061996396329514450489819352177725695069630009031797852125339256866966036149163624455504836032344097485551843656056640707380710873619720642530588072156633524495520636498763616562149606868257781472590592447821814152601447887208146178088949147973017232621120388717472657688828687063706218477224841634293671437015594152608067521381167886285341617116491716297522865586125077373237715694518701743855055813760853332690841257389306900651625055303831610710078811529560655087633260316228783314129312764915916674356106990076205184464005237199997107022

/-- Staged intermediate MT19937 value (packed state array). -/
def litS1C : Nat :=
  32832046300051849915563259962836395842825330598317382571241625219749920450003183128621849158688363754634520935785035919536575584810442581648483408731823623191494257972409572737383943342897649735058857238935532317449802214011350628369876888568236927969400708099488990310378654670920029518625124785611932697862881702184203908431468149425750890734704659038005158648836876661289544941635896296835337976059585606543801868104851487301993243690985149420333442652635251318819613764191133240430804584793976596041638361983170527898546407539944207624590328491437921476466544438173354485878676611936617707092869990205276889363965490175441677965932473683744310305490007514518299445592072941531014585516238868912026924012449608076266625859256954405680990175160645473373552366544846858162839677488202568507770873603466170047954985387597539183004492179907619453458447416245095658597669453076585947741385360207077574932887667974026053991951923517417006329750464396034339016611153909406275790451650964100983067100333703470833049280958583882192289226123853363989026207988261305327490064177673136608986655989191239534653287629327522498064584660474136971206473869835429406785355990184931131542601667310281365585012406106012921317485858786802497686921451489879610658245184385285376146040074013474541805370465686254986217321996020366080026480014934588578386162468051407282218451046546297953811436422125532806742119538295527320074176604488560683201064402864566125859680448675805966403551571274057643612588641482979060200234258808080346411783625509493315219650177778568282063157252743335314287889652237999269414033784421884705966412481700014303738533509511430912551523025424245797112963298119059936532049101467434144273176924428569410551126500330311822066891364089978512085706364800855971160170899252077032454489809969122219709462036061432935379298911536050957252065592513521779169207427248983768077439134025338174590149774349664338506408563474850762134019157469990720552844116676029457756024510253589609424207463406639808341129848085260485387460209405906928460154878871408548963278562416499960602477204280092229714162494111109553643387697271323215837027535141874087526621235745110756036238633465993725404162301982451617293508260320707159601644245965408002663197990412704689787031945599497285527683504592102435191746336859769402235977124552678067241997447074925693108786687787850844507180168205261487493175342275024932722294270417138429972182852034607587816691290286824194873490587153549798206308138850775147143182580267001913977826162505080898986135763924827568100082956142196061358911277360329989031911410843254581538883658538082346797535414448816011135481840898953519944809217258792263585462882987364716886098342525190021822660950750912734366647041083537939251746898099198348780187723672743310008040780721286473914052255699285269575512039527698888254513340233828165306029178782384440636350374321311971776675993406018320351494696151212331342414872047391063540344349282374419081261419185767123955644169277929716636460345562392732317327982202865536470212127462837734568447670903081717977087582463709500143184435326467453391674892629050591294889213670247932648132915455583805187546421373934707852637372684293797901692585395485851218834573616089165407323293371584952548898836053849484327620036161681481280275605295104296034201266600417315097693596157447578928221335409944446942664986752661125851473287555985993607973372614639434462896613515776679681837483527326873130137948374873826276799481952591064875884529671361624714777886058904212018530800755718489997236908273435544245193471123726893446659606696797344450554038850035737124287939564947456455528488048806888942703062489759789046983097364729601999240473225483824822569326891003410312323733775005408021896653039381607492336615564598393161403486722895290145264814827231895306814043123713287207576549313734835258198811336371837518734951169848363909381875994701108645157743125891998590788857275921666078030360183284943565248691555337362051448647534096018505391700975819192712224533746833090785811323781751849633872655543696717365330455654794009741210396217304744194428885941419602520889283892133024826227539838028458891495473481894466448322514012317981472310220538422863176121148891718080279672182007281202489897118179020975852347588586739194716061487662773314253973383826951707511932831619109299064388216884187101285082476248494029542655468779270734920345116126459301690753164084930007297539272059041941396882709515058150161423873698246220782390721296692173590188740840980706591712426230737602344277458700002063167681812024394568767740437581734624514353394504791364134149375306661602979551155783474303036157789311781934964737458083083582202125345317875781305542904915721501974490042820192956673273884789709274666278049513557898760053592019023533319724206700075321260035922388798039914371470010606202260878835746092600961616909890109408329457034822018464583444349442693454432594157185484593275432944487015905469427181678671672922885199941631035083078348279299304363103538115066974062272792947574672219020215575016265707388496024140712072446138493125297256596339053945895829848662675770263422231692243218831514419927126384278958819490750196947074517088673591913958782678209609552982876544923307386375794236104727571038198229962675115082471060901079888061437216751083327344801473718108472994979286528179107138829423022358769103863582483565751623586169230818975430712611949001644212226443211124381783372410378017520200867732782965926744412953219736322727493095137253078777038442113507648663761482519001867525833914702235662227256441243954253191829691734532918800358292562091603540508166182121335738277877605379778282408895425321167931009555528211721007461138643495984374582989579134044367833447290617739357142595925052226877697165293638726195836785543035296749845678788173908903576368051107240175036454050895430195173881212040722488795042708235285803715512099733433652273287619560493435706816363029460134919437293253316838447326367212566573221882917334691794177222817959335828359978966711118

/-- Staged intermediate MT19937 value (packed state array). -/
def litS1D : Nat :=
  38439521714665812731704417667037719827065844213609745498055455976222742803543359892064585024233798579060351962950548126095530483976646089835464918684089610980332617093570005681654098082608637604448230978494324112607521122440422296839233099023625253269207349243458969494607285030033411794319563371894625788081710405931212472454233905837108487506714214405765680798452754062559634063998733659396598511402646548355461669501631587024815624554055383669605935392298308195173648243470129665250173212816636018641661324486360456760209063865422260095882851298431621285019028216363409517202451720861814740140040998868543538586164331625121014938292882148332248382349971825969568309574533159457347221958375073189463308914839620431303654835836680202532251433198063117271151435646577575560735926272019471184237530775123818717874350239313844273877529764905244834197579501212999979004408648036309172363224094055715132240313407434816074080211922168043183785343460125808765779938882840170015708364716922806831228809924616074255981134345030961979769865911050818034428418081666693663594087345381366107435212577832976331024076663633892214872035292398817021440933674697870188867458342223838441323193215958830042310787230083855075010823850942159592708162879146923792285020698066830886725835993440743024404585264647336124200687647714779290638591553646447385349958663822439181963294487589469656947554808649812922719452492270613857795407372444190176942054784009794627051102430057116265645829886424494624289597606470459979019131386482375444103714376716471051031047815300303504584521302098623775855168316530716506868418556113447282319571397714168098769362315761424849093296941634125675716427332231699234875582243639853143080429768719741090676364545422835220708925301247774555261525782448982356534557404088206214990913164185125040879683096090169422961025445956269925900579090884398937161314698839574075552077774917784175677532120170316811210836783119026032588379420816450848598480539624021053544878965979320467980646724701107831832472387798390176844502516752520927693678714602453020808922867685743399412916914987031362267016539782589845957868322664718401008551396263368846793651723568142521715253423014571245461647742892849951660512031567278510842043145318352393237744735778471310315642764234539593993746860258951390884228029859106441087099398377108980628768197278716543171001949949244086607653490165448958149492610335074627528257654437476744754173100018430674026556664001566344410548512129166222036978802506494663605744386994854089005033413875547102903323367627432793801334753832146040236632568022232756564338045489417456787628545697758984158669172307819933142605654837740627946138267272392276117938519748932998919590965275235486461045814432698786236985783208168731541568273497258802528748257933554972120032078789946156312812451545977747232709096301105399786370257336053780510400691688042646976137611608585802041556148152665689771703320801550458768222684123571466491821665943027845352050925353563273191170032157184678078979116744594906222149066656818369950737492149354589847927630025791960758888518852974446914493665368713250738402903428523289324720135485198223995745810353344533794030718165753364273370730633161361850611213864409602209705050539765497154658051537801101706233849500874721925324009814806970894107498304453955301329302136373965440863476123805947552943928502851623535744307809239138604830928903484806329683125923361341476881185248803781558840385940383829227528131235367732337655820051615703445279672532586075685053930167165465863846198907685629622535025493742942544477021387545261117864131625944018383660088883611883097569944582674658064544454987789634852099840253598993690215544419904427815974676166792616884807905255346881087610524771275022559881248406529616262867253550075886222537750996181802760888311672380079900763923920990087707964425184662378720058717100380157945646315556163097137481743669428709875062518117377826879754750722287080771487919854613750247027255606596154766514535094387731995782167160624779235032138340191501441532104310860459275438460322470811792551938610932529723625625577195787449809979460033890602047887170047915709811659677683818003071445590836480427219568644188181427292178989484257194850746431716412359759818078365836377053121839534487182615138094605193504684241674294562341352582513938394648343509347195323888524606117503768954786196654953786179008949291809682221190410858440006995754879544631554083955661049361731439493184613284790732353454592570570442647379048939320182557654890763524844811577362956320624097884145837814120629713058331043357596007053929546212794250180695402247122611964084782813709862327604094139313111148320694284909188123776541840063784675129889244589418607979931927302936578892317215211118950333835294298805900086299893098001627017330036636840835442872360505642790976243232333125002754092058958089450382328271711318893106476281006139057002148968952419555095168004095717675903032650942841761662402816204981574728839272159027625682438178143615768265899504369844972931784367182800227968109659354970480979568874302905596458227250667616606188624667545137037281375253079835871428834724886034777053248398174014254608854382387406676731551592691735512568168639038453345016194516735864916990053327330974177487518379287778360450634083509344134593521412915931320847472312294623545281903476266674182393457873561166784256827991880279158371735570595244996833742215843279163907566111948492766285360011630053911244689791543328017999233757356803882880470709083012291952611818917927340513084649224893223973798196455607331966643887739737732485871623880441599863541445948567558919576232982029147471866329997028619091726750511421153597936885115669779784778732258544082155674873501510231143765990214190552640449119363913039574780428752776508265862009469510740798894801254409203247447596531299308694529246892720367501102351655217989595720628117348015514774257198004230406357243209719149436511823790939565649151638905465847272670931248360394142069931699736747857673847190495619389625873727976186540494

/-- Staged intermediate MT19937 value (packed state array). -/
def litMS1 : Nat :=
  38439521714665812731704417667037719827065844213609745498055455976222742803543359892064585024233798579060351962950548126095530483976646089835464918684089610980332617093570005681654098082608637604448230978494324112607521122440422296839233099023625253269207349243458969494607285030033411794319563371894625788081710405931212472454233905837108487506714214405765680798452754062559634063998733659396598511402646548355461669501631587024815624554055383669605935392298308195173648243470129665250173212816636018641661324486360456760209063865422260095882851298431621285019028216363409517202451720861814740140040998868543538586164331625121014938292882148332248382349971825969568309574533159457347221958375073189463308914839620431303654835836680202532251433198063117271151435646577575560735926272019471184237530775123818717874350239313844273877529764905244834197579501212999979004408648036309172363224094055715132240313407434816074080211922168043183785343460125808765779938882840170015708364716922806831228809924616074255981134345030961979769865911050818034428418081666693663594087345381366107435212577832976331024076663633892214872035292398817021440933674697870188867458342223838441323193215958830042310787230083855075010823850942159592708162879146923792285020698066830886725835993440743024404585264647336124200687647714779290638591553646447385349958663822439181963294487589469656947554808649812922719452492270613857795407372444190176942054784009794627051102430057116265645829886424494624289597606470459979019131386482375444103714376716471051031047815300303504584521302098623775855168316530716506868418556113447282319571397714168098769362315761424849093296941634125675716427332231699234875582243639853143080429768719741090676364545422835220708925301247774555261525782448982356534557404088206214990913164185125040879683096090169422961025445956269925900579090884398937161314698839574075552077774917784175677532120170316811210836783119026032588379420816450848598480539624021053544878965979320467980646724701107831832472387798390176844502516752520927693678714602453020808922867685743399412916914987031362267016539782589845957868322664718401008551396263368846793651723568142521715253423014571245461647742892849951660512031567278510842043145318352393237744735778471310315642764234539593993746860258951390884228029859106441087099398377108980628768197278716543171001949949244086607653490165448958149492610335074627528257654437476744754173100018430674026556664001566344410548512129166222036978802506494663605744386994854089005033413875547102903323367627432793801334753832146040236632568022232756564338045489417456787628545697758984158669172307819933142605654837740627946138267272392276117938519748932998919590965275235486461045814432698786236985783208168731541568273497258802528748257933554972120032078789946156312812451545977747232709096301105399786370257336053780510400691688042646976137611608585802041556148152665689771703320801550458768222684123571466491821665943027845352050925353563273191170032157184678078979116744594906222149066656818369950737492149354589847927630025791960758888518852974446914493665368713250738402903428523289324720135485198223995745810353344533794030718165753364273370730633161361850611213864409602209705050539765497154658051537801101706233849500874721925324009814806970894107498304453955301329302136373965440863476123805947552943928502851623535744307809239138604830928903484806329683125923361341476881185248803781558840385940383829227528131235367732337655820051615703445279672532586075685053930167165465863846198907685629622535025493742942544477021387545261117864131625944018383660088883611883097569944582674658064544454987789634852099840253598993690215544419904427815974676166792616884807905255346881087610524771275022559881248406529616262867253550075886222537750996181802760888311672380079900763923920990087707964425184662378720058717100380157945646315556163097137481743669428709875062518117377826879754750722287080771487919854613750247027255606596154766514535094387731995782167160624779235032138340191501441532104310860459275438460322470811792551938610932529723625625577195787449809979460033890602047887170047915709811659677683818003071445590836480427219568644188181427292178989484257194850746431716412359759818078365836377053121839534487182615138094605193504684241674294562341352582513938394648343509347195323888524606117503768954786196654953786179008949291809682221190410858440006995754879544631554083955661049361731439493184613284790732353454592570570442647379048939320182557654890763524844811577362956320624097884145837814120629713058331043357596007053929546212794250180695402247122611964084782813709862327604094139313111148320694284909188123776541840063784675129889244589418607979931927302936578892317215211118950333835294298805900086299893098001627017330036636840835442872360505642790976243232333125002754092058958089450382328271711318893106476281006139057002148968952419555095168004095717675903032650942841761662402816204981574728839272159027625682438178143615768265899504369844972931784367182800227968109659354970480979568874302905596458227250667616606188624667545137037281375253079835871428834724886034777053248398174014254608854382387406676731551592691735512568168639038453345016194516735864916990053327330974177487518379287778360450634083509344134593521412915931320847472312294623545281903476266674182393457873561166784256827991880279158371735570595244996833742215843279163907566111948492766285360011630053911244689791543328017999233757356803882880470709083012291952611818917927340513084649224893223973798196455607331966643887739737732485871623880441599863541445948567558919576232982029147471866329997028619091726750511421153597936885115669779784778732258544082155674873501510231143765990214190552640449119363913039574780428752776508265862009469510740798894801254409203247447596531299308694529246892720367501102351655217989595720628117348015514774257198004230406357243209719149436511823790939565649151638905465847272670931248360394142069931699736747857673847190495619389625873727976552529920

/-- Staged intermediate MT19937 value (packed state array). -/
def litTS1h : Nat :=
  38439521714665812731704417667037719827065844213609745498055455976222742803543359892064585024233798579060351962950548126095530483976646089835464918684089610980332617093570005681654098082608637604448230978494324112607521122440422296839233099023625253269207349243458969494607285030033411794319563371894625788081710405931212472454233905837108487506714214405765680798452754062559634063998733659396598511402646548355461669501631587024815624554055383669605935392298308195173648243470129665250173212816636018641661324486360456760209063865422260095882851298431621285019028216363409517202451720861814740140040998868543538586164331625121014938292882148332248382349971825969568309574533159457347221958375073189463308914839620431303654835836680202532251433198063117271151435646577575560735926272019471184237530775123818717874350239313844273877529764905244834197579501212999979004408648036309172363224094055715132240313407434816074080211922168043183785343460125808765779938882840170015708364716922806831228809924616074255981134345030961979769865911050818034428418081666693663594087345381366107435212577832976331024076663633892214872035292398817021440933674697870188867458342223838441323193215958830042310787230083855075010823850942159592708162879146923792285020698066830886725835993440743024404585264647336124200687647714779290638591553646447385349958663822439181963294487589469656947554808649812922719452492270613857795407372444190176942054784009794627051102430057116265645829886424494624289597606470459979019131386482375444103714376716471051031047815300303504584521302098623775855168316530716506868418556113447282319571397714168098769362315761424849093296941634125675716427332231699234875582243639853143080429768719741090676364545422835220708925301247774555261525782448982356534557404088206214990913164185125040879683096090169422961025445956269925900579090884398937161314698839574075552077774917784175677532120170316811210836783119026032588379420816450848598480539624021053544878965979320467980646724701107831832472387798390176844502516752520927693678714602453020808922867685743399412916914987031362267016539782589845957868322664718401008551396263368846793651723568142521715253423014571245461647742892849951660512031567278510842043145318352393237744735778471310315642764234539593993746860258951390884228029859106441087099398377108980628768197278716543171001949949244086607653490165448958149492610335074627528257654437476744754173100018430674026556664001566344410548512129166222036978802506494663605744386994854089005033413875547102903323367627432793801334753832146040236632568022232756564338045489417456787628545697758984158669172307819933142605654837740627946138267272392276117938519748932998919590965275235486461045814432698786236985783208168731541568273497258802528748257933554972120032078789946156312812451545977747232709096301105399786370257336053780510400691688042646976137611608585802041556148152665689771703320801550458768222684123571466491821665943027845352050925353563273191170032157184678078979116744594906148239962373937440451110156845570872736901249112117405491522970503325870783515790777546809878680548942493209693277389605500859426207964277998927393903691720659057506144770422067195030542814131621568511000624797735335728312114750395847604272202448458872142282620169119426213861249141497668463696871433119588815743257103974219185303973203554915826837899647018270054899767385269450156348050802098304821623918644405975639537187075078698352534920083548773588743379569041630342750080684743308719033853236683917798771572415645011313916602764615920337064500233588115352847152867374661021709686391993788122649555002641094901072940158830532912935149796070557487517323833271521897263888066340507336130388386356583752942234626548698427697209050875634276625326467094068713487285977506030581435043545321329145488102697930940364431105955832431042856661411849291535058573506155772808119148867904376803417495472954294867751237573340504175814433689080849719336402038073761701434035413690948763065456829864311294032700993216987643965319825589138896720749181955573565544883753048906548966417377132018652385474479460553744523285928726981993596414083578241165554317938992541198968030365854373612615628036764742904380439135435911586719441252388109610511405122120432145136079742628373330251572729419299064683870569162048384770249909087573713421895470182547794174724805496541164463496881308834009207615325310887182102332720759536761114627766746814650778535920757210071123589050306899138653556730123077318312150772517916247185606105412317147121957057943994425783677691352128576897375643797300756886378824409957856490859187941882420863902452355474151532220891136269923905917110982461883100986702828263634942054208010524097913054785430566227366766136782432005232706458798474581819454381056552806894440513219674584488422735897029018129285058039063347898746863834834716538547866430696992933678609874562660964333111184762217606330665183801865550750101198892928330355948008260819897443098916381874673648807070987990297283137790334747058567616997920900303298679380418329469747108526939520099121257075018547540650232016107207110255274120758304811832437179596921746929920518887973932938978149790282151299694621520751100658222101994491957729336942122986434873705252587561633411404093404399435764603592804582521711299601418364969808322480690552534289761046425585573479478249676183624034257364679739768135242442635034389190790211774209967606366487531211451972141969813752806384439620471307440775873368040014631649115756180232346503367225849613559068760442073111488860254542476673985638970064399329281506816812413582973794927742375046948098557011300852027760188954619506907071768895611910158898174451288999376023035038576105348294285695063317667498705151826123343256039770331216527605329939543187897412154287833818389019470493495913294141970309025611902893136426901269748889299443027827086004435397461386953883866197888662982650560265367089041639800769389413598716766220443228673439864010143955867288319601851314659928744879800348116300637688422

/-- Staged intermediate MT19937 value (packed state array). -/
def litTS1 : Nat :=
  78894016774730474561964992525138410867992859295992868144721941338238847176702112815345426803279861024333910366499383946739020742033248059166737670221585954226479039718323228606771862254537776467586255639877599331924691454677546978566246736330545138842738059437301939493253997362730389723001179593212364297084468767837512700197915070581747347521768686178034622162954761384715209176405556878847583907885301735245551966660273541777279444216316920631083381243282727921703498414325322425139396004674845760060803164568136484326130701324053896520503361529110839119494420003948615064189156694624114337834130986446011083804259977600835681673371873387562306107812632498938838383751497894770787084177277726169713443598832546071315902264355581262401066666198476023914848648062753093614987916609662692724457615983593697508895698936952156654227415853770998011410263155793431171976587332076520438606949507397797375691702535740218113941083510092458111706297699790890963066611346985673590238856971495883485442594737553941543125534482063092946522801302608447290825543716331128465345583120653900293805846257964447230620645797002408790688635819798896860746576033344687185405909042713779643595256052753414139970154412333956562172159515468327263740164605515242719534528865196279773342136700907972444880391763441105332944935880202970599665966789742914987346378760061978759817925309442033583408829539963748917496715114488437554609927301603246173604433321086867868926587713528038696193606913703454470222812371858129428294368911848677218083609836697225432919187373666864367617176499850777379207073666120276273189484610786000369362201105091137409179652130528631328640021918201124094345053889787057605781750516748666123243032832114415553328330250382646328426064909202610902891278793701605861089942719904028778425054500893263697795638046056580765100037574097678431093568090963291853961892077935359110511690719216756291729606847964649253350865033662069482860187266568265346643692326070172131401629783798669383463797050357622444560089306062612859331476108313160134048035825936020699683667345490003359097823730412535422597034942659910908709236496607848393641526440562027458113965767679382518554376801036769458275692832851171232325023721920294045029840921670996890326189294297350634365035260066506925019118445166603553530647118329253325869334465166749202625993601779045160060502108646712221280077078093472536254324514938607381400222677725649884203691485791561223906897479254878273521414455957062018536097973807945213618851917770904581117321360860776237001355076107832584134362029697438691646136171122488977492791528562756886951069525685153281286455197088935917592029642829962794730809142692366689447781863995753177903624733358252345006009721715510874746304282459189149892196720808831795626403571808851529626808617695727878445954379529726853962429306923321167682700731910918058883033434771633590982453402247549454637352864408434370997800991784324334483145908642120356424274023190006825879304248612891431792355107441645928315600275657696615000746023401884418411100876078248673220898647328613232842867267713361571602550366420061075642662957347667181293978833866541790910688799823619888213218031181288846757901379758013608204479569456253199714480964798661760373670530006923358185878058936537144842102576730115170986279450577828226787407172419308453323736130413442576136129106737809772118903620959446505308745063378862335533231431397743200301171218764164308566652940995463385572420506820854139662722079717238861509450826527447689878967438329776501989266589416919476058128737477831567962816689134352061710718354825235586615205769244350815988950524880469257343155214054755392087540435582552300457768836659454933624125916973069211584067456738207058223130943389365833147688758858533126734400941831417957517059400416235059282333671359319883654972161975509656269361829025042873957643282303085075735494341991909233892884059322967655368533525174695110130747264917540209489981117170724958812429449840852232208524735272617996103020964798176934322796746138309967269896286911840827301881016933022722194771435046621387575492893548621925379033324022256440205814212901751904304885853995693487947859420342268868461618521223682130404309949123505839006620562967540528721857605812236893064715283774346599754192248201659481828060939780933461847702397849942990174385777934159920572925872136420312362373147861663531471384738527941260627164102591137013354818119876409675941649839305361560653415456605199131492472809681488577232483556907135581220336806467670101054065007808138723544683562044473124423283136253735458464695852688229521720328520084479854136769962735630333271312871406527868766193300560346999463786543482684898742592902889472292179583919936710804211540905438594371432707709459608758344657379928392534515560809177489630295107125327999391079607768881297333629212456604288441529513091562265530586057800782640459868509150739052129460599280721186560834776823621825248517889971696318299059175775901931678172701377309217124816275893956086729830626776184307698811886127243427144792469545615721763300755069440798203395665559906677169899781220847658563123506378784362991134347048818783819839851332874910864352223727378950196769695467479991508521241954910432617241021248047111348150882255235493309346528240623659473894229027324646910539565644556282188283370736240500453165367594389561714276581004739217691424516275527146774118695225085987471806522269248277615408463780030625344054045283501498276417136215779683312768660709695157885108866772663543226738239558404472548058606676425085866334770209417038133432283712867335560683506895649222639979239914943721173661907410620211199645116945164593051739774976225649514781738260851536963742528554205831430682149129024092581865938305317763901539418043052858834414079316919653862590291851154832542121657430879943610460793355248103959719431471020233610488946805674546297196097788460514837580455293450702384723930934676308923990848248224189470462235396790379739936678174534020329135902313046761264829541565002355920147862756130312806

/-- Staged intermediate MT19937 value (packed state array). -/
def litS2A : Nat :=
  62685089405509111925910797243914719854890513935494713084094713797279779630627496305943786046941309007281293105221577504421353501605599255248785149356818580886163074212016138319710181437623915839386196989339984175865611290932895638485827512283879634622589907034847096838980553398268338905605705315464924834076955485269257682765843392777664062904318116756644819538761883164862381873685805923051342196114892111881287659915424456096361326051748180740843339721465950121631833352165428366344241754810081140762710579390137795215443629123183303201044796731629341661542390258966032612552126580439913324626563213547393121217728067632048719897064596438939163041106934301355643192260261867872030533878188557727018817797219012064641958276099544136480610826250078810896212505254064619595899307426216931651016613164877613570296351724055264357110051005104450572173606849938075379012356137114572525910752676385589168436483206759652170097284388598518122222819376116616668668677988651997615236221431416155794821321118852088948452164682783715959922435191327367306488124638818446090532334864386359317233873012285172875896330714873881780586230596002778688422250420590175698633544778262136505069053046737202152515000629854634631225453245996997340762744567896897683212149150732909707719966588817675821630380251456266588599804209831660991462715440400663143017564651072677052296295930367391822676512661642282350234567553218318066651318510488484545671729568971887621684270732981974442582657502555066960418690332945218280990034155505553171409775830458482159957769211244505225186771766058316021949327301666418107251589707938065072144733816368743637495699897181007119363672460040974223449086641663004605507793014252452324150238463715514559124307431648478948480649031081489229583165223570218974125422263886587593014744330199975749832650568652404661542746543584685860761547297457070273167102314576665676644281998277713093924236551494770138725647883566971887853912300960949802636372591951717316415323846182747445131420005722224687602711525724505110953736568981699982016588947035894059736087136235396798804019434387781559696138411966704777989194870090051835909943079457649936020314680876367897457337488804889342331824364904005266943816631681518612047693872607083945336048154993001716858914072302230374294986610531277637599664647525761147514008899238689946802093944865612982597431648203028809043429562401771290925843222821220221381984318518256971016750121270624021542153515130386081256853244444367484914891752438843250797295149886721543902585582757118492217204960123203770309672216674331373413106027454841661967870247822106376003696537006476355273043676224973894002060133928765135363584693312631060562155459381152426642778209514491263275588735458188352331628933634618912177576995916817414488324819680108333628484452298807271017999262374749573133359090629722111402666396222385680310709557844049479865847370371052888681758484468279513921172987571336140289500145715018352119752770038578015899178947425013401300127437407370742417936981400009765475259626144248175724667471467748804598394379435320977131634824601121780366564584197161539232619358878759290590456646708627842241156783639719270326370195195979975678527620595605277009644771983537138287914102393501694318335783910332665152338268608908749096902718662938442379678807934410252363650426388240359949677114856256645395607782210804872650530647461672073691494573472052429287854089466763463208075213189676203635556568219092553325340866596201379694613601300473118322496026974009399034837134272627147826201403912364636259855455818186832724496218577166743880653594543920719201931690233564839286725277636796658958349836547908705297646529053341340928401286054368882184025946967528024877430418111418229208469796815205141262874588697437744949426126708634923786810921196743225396229826969087269918508728933859983651495727600681364076118051756699945971370654460726465267377623841815362345458689917089739808110177754268005242553050939778989951111927008455579614065617351926999934665093746058509619215665060266078446359270919869501471974359016150841494944072090764891713527855549814261938473250625618389927189117973816368205833482841189744895436697579860767249615562171293657252115276392578245306044987305337142199232708939116861896157693831549875678103366142495893564759877478723228451396456719027594377466673060780842783304025825112185718735516641467161804079294888693159296735761625954517763108317883487825597367807497326092603610225645912135558407111291381563174097698267155546112768226035038543870534045646904181184300988814535380408009992677589847139817157511691911561740447824618215710598991210908791417949651836623595348460925358110045428553109746248114298085587483336038563029938959434979090723696936456981967678159926202029292745623533590550072596702563748433914825026499231319453839937551573246408557071570201728467673774920217578496342647717964201838386341085888422646863030984834830492430336977265869838383165815036688297935755708193733271221610244673450985726209976739067366326491531299285660683314482620211301076869736868313130817846273271362024766376962968377515777929606888704379199622249454492523850596571851937557910854045991208676807612469867157564565607790057163398303212504545673381507831608647903850244068533139832570899235337060951200682893821667178528692979836645901104529858843807440050007404266435154224743506805363894708728609232931542174959619364452755089115406245779944336358047121755416526514772286069569235043705304936045108179757544445200910586799666692731642477787677836653808623302782659734449394295540399583720190863315893283343386740123021950246024816419675780443621538011872627750639248248715610861338191876749812668177823085976593140123059843711869413238004745844178960992461599663635006171946286391663619590237450977294440317499149180167727834494948609237542418363124948931350979362780452892860740849801712479340441783489776469662736028339574831951075884780060470942509094728633772841877956739462313477734624918657628904523195574917517500812892217352756081947528137529002

/-- Staged intermediate MT19937 value (packed state array). -/
def litS2B : Nat :=
  23942697962713010104092914261469938814960486250003104862443480718463547755247966750359353933932592782896128542961078756558083118969011711159434228936135542387646786473965463935350103403646106541396447761096784396474901149510845615500199996486907176211995322961992986838935390519747186024970585986207143601920298027224461933964774854115446815008430562180372782116972467232176125834406104780520347403363404393939487959741709583890722566629817503924433407820733745428759841856021407820208491262354865985263936465285213114352768636078309439186616180179131928057265246287032039467097923467310928001954279437122118522702704736908861549757441956362497785765716952180291912839294211494993790469937240955324054651463297636357687311823122700787974165147683507613671012899844429454565178879016825308801814994643490915243539964189770899433919341084611178774162054043800862609558655703901570703660658038051671785405988992461062231198920773046139317882436210255427076711256759371965735321712578450617575722938947912510000806317608578157590677990929989110351023958490368710566754635230764970808123282838967237200515762207689643557793073824106632183381309224210922357340547239481701734176401974249367331823774893325826575806826623659282113559880076639483886365930536177948778385845972746424224453003722523202257366257168135128173273929677892223404327601083816322032626249383304003003290014315840131268537885520983587879948697151032933448372451123883444153610186410107712538670652709161458090854464435314086384050680269365111873042884742544145947063513684611637245122982678142906275707071704435243739837068690710932747801277728361292274224815456004962022707844539901094948527196474257937589525612710561245309059753997967000568561827303807280426481447693448132956012234502253888985225164895093334802129425463706591686934558919255373276904254712690346623441210349124723647189649065412523558116855370382121701521439248985490126166118909054099492072844925912296516472732717194729687912284513506768856857677673070846689822520357442467576873108625845606386299799285709568273039776397644138938801580659929031851601392777919215736269944793093274670660381756766336762743389758592611023276974535557078305861407059719496859985830404535002710926498937257460281317460525496267457613670551396541646477263163088939251946622017297651292520797137151968918411352249800535963839956248631017775268289343507077730079898152766734107075985509637293029122471822780180156529384390712158600644182942502021567767814991325209208978197269798284138903742591770857325384812445689394920195799729060426272503667483465166544040233765436649124305598671857049932911444194879506342653174551556205256768963594144480437328044567937500541740291411294715839551095426309236675824706748572597613669185343562473505336266974114119334683502795350387746674089528468760408964068987775018057840483968029795191613623137015448325573683225953210923119070234984517511397736519654284464723712194317362837545639287382573373944326947002181722550984810541100272806372527528814830668633473519291009176950905216929939792866765803936681388046880271295275874202700490280098713964591296887128975022427947673652115766066687103555901001843346813464187005011455891253745146198693945376611336695199511365834092554139434650755779084040450691061838473317191304364029118078813917797136779689890175766117372052799054773235807662495925736022129366673145580563514549618174117193648361038525702887136704320727963467564389991978121077045884517495667831078007646181992036811102533912590192997086954192521764455406821659038541997140785378174990004273668117135831819675775318568338919941251999191954241857930842432210460010961747707973741176486041018824150650937228808951072573806169930714024588713559297791077825442736138118167398675687419627015353723959657869836545478823454672336971650210510095768083112759089537525748598090937945721965654617413953435667450142820260432839190070017361421380699180413277288447615506079860315273015288015273839586405519635256243925953612917728770722783439319680667822900791493208177259791079489337110247325904684974207856601064076723961465934324846197581655140599680292529500352465622339147177778668103025058292028013859917349203088287755540291450067137633782519592840600619964000173923324214907782368721253288135570848732875665651443363069369080334349387228785323602100298365674990068798339271186439622399692630408570852882567815599957762693644940341577598570309848465810073879442425029413652171349748582723854230810072125066741993528505027407237205726665995712677193465742619372159630312409489918900346761069733508002487051236036078451779406003786098273220860817767909188089029645101760092067465665376159714943396946292539252510809380406707349212581839590837968796172964485984743717650833970803943198296724480223999061112879228499171431017940620373777643820493401525700517913746057647086262277226330964190604842720053076757268067209024487102667774728356408587405601827499391967859929116476011062104055730697751759782183523167391343158296869220701462178286979415321823697033207333204067147811684540788298614159702203088841246145642428528561805176988025209222329555676369790608565844311250048424856783480515596697819803690167667196695952161950548017144814774649604538554476649409053495247180115172145826969278198314852619243180685654193556185555055019870174530686243216414769906123889221857425816903850184992983616578132372178168784163513329374813532202058214856173287465018691948623562570158672156638433459854345047786250364733937080901547972885031990967315819427284255129607655421819456717368440783200010192137633106530604441382395088526994656843856605095422392915997542467527503863111322783230845982074896648191064181580919211433189708294353586469060189249079771392921969458419845965689309531454151002393477932089055179934793610230702730575012532722209570547357022479293810847409273853081388560450312945385388797082418059241477200036610576342475198436368855476895249266004792009246126199578464935386599629618193408814809404965254753216059771219259109936262895349508495

/-- Staged intermediate MT19937 value (packed state array). -/
def litS2C : Nat :=
  23942697962713010104092914261469938814960486250003104862443480718463547755247966750359353933932592782896128542961078756558083118969011711159434228936135542387646786473965463935350103403646106541396447761096784396474901149510845615500199996486907176211995322961992986838935390519747186024970585986207143601920298027224461933964774854115446815008430562180372782116972467232176125834406104780520347403363404393939487959741709583890722566629817503924433407820733745428759841856021407820208491262354865985263936465285213114352768636078309439186616180179131928057265246287032039467097923467310928001954279437122118522702704736908861549757441956362497785765716952180291912839294211494993790469937240955324054651463297636357687311823122700787974165147683507613671012899844429454565178879016825308801814994643490915243539964189770899433919341084611178774162054043800862609558655703901570703660658038051671785405988992461062231198920773046139317882436210255427076711256759371965735321712578450617575722938947912510000806317608578157590677990929989110351023958490368710566754635230764970808123282838967237200515762207689643557793073824106632183381309224210922357340547239481701734176401974249367331823774893325826575806826623659282113559880076639483886365930536177948778385845972746424224453003722523202257366257168135128173273929677892223404327601083816322032626249383304003003290014315840131268537885520983587879948697151032933448372451123883444153610186410107712538670652709161458090854464435314086384050680269365111873042884742544145947063513684611637245122982678142906275707071704435243739837068690710932747801277728361292274224815456004962022707844539901094948527196474257937589525612710561245309059753997967000568561827303807280426481447693448132956012234502253888985225164895093334802129425463706591686934558919255373276904254712690346623441210349124723647189649065412523558116855370382121701521439248985490126166118909054099492072844925912296516472732717194729687912284513506768856857677673070846689822520357442467576873108625845606386299799285709568273039776397644138938801580659929031851601392777919215736269944793093274670660381756766336762743389758592611023276974535557078305861407059719496859985830404535002710926498937257460281317460525496267457613670551396541646477263163088939251946622017297651292520797137151968918411352249800535963839956248631017775268289343507077730079898152766734107075985509637293029122471822780180156529384390712158600644182942502021567767814991325209208978197269798284138903742591770857325384812445689394920195799729060426272503667483465166544040233765436649124305598671857049932911444194879506342653174551556205256768963594144480437328044567937500541740291411294715839551095426309236675824706748572597613669185343562473505336266974114119334683502795350387746674089528468760408964068987775018057840483968029795191613623137015448325573683225953210923119070234984517511397736519654284464723712194317362837545639287382573373944326947002181722550984810541100272806372527189128328495257245779627694600483251230669189812156673117064137965559282280220231380341146770446024442662528079117808056693589814743704381083941401680403864592417765250000843778034427883254043817478616402454787622731534965652862785420020365117999191144460260860462698485027159390032571899342627346359730774000698285563839271323635468326383431840634092844483377222780463392110020217667433362359823508119604222187753816388626799718847737314073777455066719471516447909760352976129783420635191636351748711424881272769057022708336591999470544369878625695661449707616434988074131034814213705537515984343989779662357345125410581025401368114180349120382996687185145230823429016783538432803077451353962858771720603995805158515988757086477635523701934483657106059170838745991502770342840679765651280658961710284082175359778968898850842337671363811497705124954924425404312157445357188358256715784491591567409603721169035052658136666053948498553950379853427006030091678660084890387418573123966605605127791206467346963575220385577992833575817016945246667068729410493127265916338434672273761555122457868569838044804713222334589740030819080528297350491335248499530155109865564390807335479732958216026592156349298459042604711286531328242922011350169167396921172987989414885090608203486805242836649172285629431210552576905435720107525288950688807959513272427933396411456370049607631592177069698716967227247291194434409843574734533238261797276259691104830229630959282729674602335862547311928767680598702494870738640839150333867309024922880637483758931602102869104433144024160797227748786929849966084007107376963319677976191344145273880511954044844653457474098904919945921709876350058893538951787448326139779045577912992256175819906676400048558487482059980109193165676914955369439492556557455804879170283409275631374045458905286406354765766214578693089901101495587397604632385278441469449008709199949507510873150147839322749609725502978258845541938321597017165471935387589979035066536303252798704388249928772536018015549868619700974469230353316016478109087830601165410339893895441182453059228315938953675584294788627756776392817239507350316475139275835095287383628431134831789893026136573190510050532624041300963814820603367364303133130604442580197523281426659324265560023648001393652307898356037610688167058130912951933253188611811123113852945547922638405241536731072912024724884475954641823824806676267619336450047087423671499294475793888790215312326169567239267466594959693681927689542832878829663782080884655876348130582125069886895511719191558595993251788425503381504298875420814930593192046313390208316504957339946110950251922612382504279645644072465074054201000746193924533533813445166838410780050170848354926077004220334106071778300330194633165677742009115390399486435699408269428775506178225859649035394529097790004974181648042301174427974908894412879924163378842951422789041794707738268041752839420025479692306162547739157992575725780306095730008769068167352429670829975324049828232575145270821883416946963381516734331857295

/-- Staged intermediate MT19937 value (packed state array). -/
def litS2D : Nat :=
  66851013041068949849625336695028303855701618445289267336048951321587099523828149974350390211682844763653307605021734612731862294314965021306396547288788448934745744794235673246545055219889244920211739631670729104893437558367073583291845270017440402478725463432158396623697704635355470173121344872974008761303604893065099397120951286123985784685450362048906873944388762660114043410892741393260442460937891568104582945419483823212292934929932892023543870755196509837837917858952859776097228218065210090863617151937641220589318333192310549544363194136267038801586637236655582949239855616544473596916400721850046135473757461147408189699513143834809682940629206003180272622365423640376064845767871716186481517969699209908200757700054157890312427611979890708943942383598900580334306772949359029461811524175659074003659633731395930211724439722436948250314017827882087507504206031843589996417008295531173252797296032608436542620607371532135151179429911405955417167809970706957506178651865882281812471231996638300862576641173075839367044363332054467481805511077860134802108038662154838126105581996222544048724800660190862513097818060228103274099630697757333691810742432508675063560739718443080615394183722748236258691432323052726590258870227030615409146088091643564307024435285188587311823116051652424720967932025980363127959378824421036716723767325627533331423550311150957084095423388289025676668383563261581808806065881910617271392841691950463475350954470698472092260852678937770046533026460332055495248455481421001454226274270717509165623908799658079797130563363416886333283229910281208564487519167392162870316664419675471959071395246086157024686418680708635557083020948552178320242515556919398227264333064809623605191695202742299134363856691697656485616623404135691396842490528174320315425763453186124042737246029257209434019464544287415283740413294221438019518019044081066802208383068348900232625520506897631753072080010060932625916615754174935776744801014925548994179850976913680757195601259659705101924255574713338382782392652941958615213061577407646093587898010639282588016632639232343453746063873399705610571625968368509012124161791771000244477306691345197188998933266365114240407619773392274764516207253882639832052157850478506769060792333732773479248924477524741389453621941773645310054210388366166917861738273347115918342231239369741679022800568143757135232460923214220845748475595985302936265721808298108894405587412909289912863607457934439777750359443398877345107933846787958508495629025714329380439905949356643078969714923660176077995995901142181653430678255845669988340778369944040784460525869153167335001757509602754789738289529872180923928201614167891370504278213910255790633851986743267483260706225014688806241383064638082080665919530154314212911878245413231787395023404980529858422633416185808288967883786780234638786317394408685706848294417634402514817809618910935709279824634467688817240299216822463304468897611079068181618118360955423349336752314909197756551583896136103113164013221166287895378707828551728269339906521932664579360503780673614216534894007994870818470112205233860868545547051722412446123566310181316788835164106518259582999938044353151803419181325772723901439707198175796724507392805431263124407696460100420350756564709669176378853876776212624631395652964236725964613286810606832557487467526346167343371898628474886459432218283678381589565691286454178216237701237016815192358728926907280449619255429710573182061406902421000504021326826411354639145706475871456147018445781894443633571092164540172703727235546685234229569536199497093842538234810935770626622848843970624870589179228272160517557646988843203653765338714981330289525868546835755798793050606329831426276232178202945762630236640873317522344044600443819926799171831278848124213110044913476584133504476735050213255769867653918666559480937127046316860144009176413576407925585064057203769399622870840042620248582726081342679114809912375064273800282505806088201981740564796861288851760295095725962441791509804598666373785426075746009214015849241442041032941726309172818925375140115876659548912297695990891073585365964793107813679133223080895682347143312040631404558161996177795398594677318407365335339903545235575170756644134465720997151722130350069384099772679682886663553891292434251708901964455156887867357655973117976779256798228520859230755493005237379866297944874573099317197672175481479253600938743359583593604472925590870181058206424197459676902822433216029147736700993416212690012325551192555690072687175426899385411917979373994279351780400679292717930756173890543144755271399288694262461604250218448661537085729536434749237823040634879352268993696755849454441976332481087007910810527784973378770107522310973123623772179906753646309256301301735526173287036447038220338036350445924048895027144433109524582935273350031683166421895015299793083521367816617804337141292245720633239961852717649179778461158884820792604341541676921661793860051614981325248217491936070769203624434677552046576205246868808879754511248031131216462952380574203599103558107972008494325892296679488344182744059338391177412282704726590027322285383668426919463734034644029233178598097476329237976677023568013821012969712934161209199049110809994843667491674831320470231394456847748249633357077544966155851885184849422449737027915059851096178731602062923440150893969329644157060265268056272914305326938734365840386125735416346943902820245430816655876434955664051262299772014713364515868000489089558537385081818339889051453648045620306832505213809287208576100027153722985929586469751014817187000470265640876407851988748002541989434392973254769200423801736723370026882289991998842614207708192704760785471529782661523946948874669575678196335750260390682382501249750085192461643725087042372575349062191128285513452732914708846509751477148487580470966814962591630945347312662140911908241153076191534942741787026429660467636865812707899828428147837394538692483609850751760798771495811211007456358304772806952417796497392528948402789751041352154184571675169458

/-- Staged intermediate MT19937 value (packed state array). -/
def litMS2 : Nat :=
  66851013041068949849625336695028303855701618445289267336048951321587099523828149974350390211682844763653307605021734612731862294314965021306396547288788448934745744794235673246545055219889244920211739631670729104893437558367073583291845270017440402478725463432158396623697704635355470173121344872974008761303604893065099397120951286123985784685450362048906873944388762660114043410892741393260442460937891568104582945419483823212292934929932892023543870755196509837837917858952859776097228218065210090863617151937641220589318333192310549544363194136267038801586637236655582949239855616544473596916400721850046135473757461147408189699513143834809682940629206003180272622365423640376064845767871716186481517969699209908200757700054157890312427611979890708943942383598900580334306772949359029461811524175659074003659633731395930211724439722436948250314017827882087507504206031843589996417008295531173252797296032608436542620607371532135151179429911405955417167809970706957506178651865882281812471231996638300862576641173075839367044363332054467481805511077860134802108038662154838126105581996222544048724800660190862513097818060228103274099630697757333691810742432508675063560739718443080615394183722748236258691432323052726590258870227030615409146088091643564307024435285188587311823116051652424720967932025980363127959378824421036716723767325627533331423550311150957084095423388289025676668383563261581808806065881910617271392841691950463475350954470698472092260852678937770046533026460332055495248455481421001454226274270717509165623908799658079797130563363416886333283229910281208564487519167392162870316664419675471959071395246086157024686418680708635557083020948552178320242515556919398227264333064809623605191695202742299134363856691697656485616623404135691396842490528174320315425763453186124042737246029257209434019464544287415283740413294221438019518019044081066802208383068348900232625520506897631753072080010060932625916615754174935776744801014925548994179850976913680757195601259659705101924255574713338382782392652941958615213061577407646093587898010639282588016632639232343453746063873399705610571625968368509012124161791771000244477306691345197188998933266365114240407619773392274764516207253882639832052157850478506769060792333732773479248924477524741389453621941773645310054210388366166917861738273347115918342231239369741679022800568143757135232460923214220845748475595985302936265721808298108894405587412909289912863607457934439777750359443398877345107933846787958508495629025714329380439905949356643078969714923660176077995995901142181653430678255845669988340778369944040784460525869153167335001757509602754789738289529872180923928201614167891370504278213910255790633851986743267483260706225014688806241383064638082080665919530154314212911878245413231787395023404980529858422633416185808288967883786780234638786317394408685706848294417634402514817809618910935709279824634467688817240299216822463304468897611079068181618118360955423349336752314909197756551583896136103113164013221166287895378707828551728269339906521932664579360503780673614216534894007994870818470112205233860868545547051722412446123566310181316788835164106518259582999938044353151803419181325772723901439707198175796724507392805431263124407696460100420350756564709669176378853876776212624631395652964236725964613286810606832557487467526346167343371898628474886459432218283678381589565691286454178216237701237016815192358728926907280449619255429710573182061406902421000504021326826411354639145706475871456147018445781894443633571092164540172703727235546685234229569536199497093842538234810935770626622848843970624870589179228272160517557646988843203653765338714981330289525868546835755798793050606329831426276232178202945762630236640873317522344044600443819926799171831278848124213110044913476584133504476735050213255769867653918666559480937127046316860144009176413576407925585064057203769399622870840042620248582726081342679114809912375064273800282505806088201981740564796861288851760295095725962441791509804598666373785426075746009214015849241442041032941726309172818925375140115876659548912297695990891073585365964793107813679133223080895682347143312040631404558161996177795398594677318407365335339903545235575170756644134465720997151722130350069384099772679682886663553891292434251708901964455156887867357655973117976779256798228520859230755493005237379866297944874573099317197672175481479253600938743359583593604472925590870181058206424197459676902822433216029147736700993416212690012325551192555690072687175426899385411917979373994279351780400679292717930756173890543144755271399288694262461604250218448661537085729536434749237823040634879352268993696755849454441976332481087007910810527784973378770107522310973123623772179906753646309256301301735526173287036447038220338036350445924048895027144433109524582935273350031683166421895015299793083521367816617804337141292245720633239961852717649179778461158884820792604341541676921661793860051614981325248217491936070769203624434677552046576205246868808879754511248031131216462952380574203599103558107972008494325892296679488344182744059338391177412282704726590027322285383668426919463734034644029233178598097476329237976677023568013821012969712934161209199049110809994843667491674831320470231394456847748249633357077544966155851885184849422449737027915059851096178731602062923440150893969329644157060265268056272914305326938734365840386125735416346943902820245430816655876434955664051262299772014713364515868000489089558537385081818339889051453648045620306832505213809287208576100027153722985929586469751014817187000470265640876407851988748002541989434392973254769200423801736723370026882289991998842614207708192704760785471529782661523946948874669575678196335750260390682382501249750085192461643725087042372575349062191128285513452732914708846509751477148487580470966814962591630945347312662140911908241153076191534942741787026429660467636865812707899828428147837394538692483609850751760798771495811211007456358304772806952417796497392528948402789751041352154184570724417536

/-- Staged intermediate MT19937 value (packed state array). -/
def litTS2h : Nat :=
  66851013041068949849625336695028303855701618445289267336048951321587099523828149974350390211682844763653307605021734612731862294314965021306396547288788448934745744794235673246545055219889244920211739631670729104893437558367073583291845270017440402478725463432158396623697704635355470173121344872974008761303604893065099397120951286123985784685450362048906873944388762660114043410892741393260442460937891568104582945419483823212292934929932892023543870755196509837837917858952859776097228218065210090863617151937641220589318333192310549544363194136267038801586637236655582949239855616544473596916400721850046135473757461147408189699513143834809682940629206003180272622365423640376064845767871716186481517969699209908200757700054157890312427611979890708943942383598900580334306772949359029461811524175659074003659633731395930211724439722436948250314017827882087507504206031843589996417008295531173252797296032608436542620607371532135151179429911405955417167809970706957506178651865882281812471231996638300862576641173075839367044363332054467481805511077860134802108038662154838126105581996222544048724800660190862513097818060228103274099630697757333691810742432508675063560739718443080615394183722748236258691432323052726590258870227030615409146088091643564307024435285188587311823116051652424720967932025980363127959378824421036716723767325627533331423550311150957084095423388289025676668383563261581808806065881910617271392841691950463475350954470698472092260852678937770046533026460332055495248455481421001454226274270717509165623908799658079797130563363416886333283229910281208564487519167392162870316664419675471959071395246086157024686418680708635557083020948552178320242515556919398227264333064809623605191695202742299134363856691697656485616623404135691396842490528174320315425763453186124042737246029257209434019464544287415283740413294221438019518019044081066802208383068348900232625520506897631753072080010060932625916615754174935776744801014925548994179850976913680757195601259659705101924255574713338382782392652941958615213061577407646093587898010639282588016632639232343453746063873399705610571625968368509012124161791771000244477306691345197188998933266365114240407619773392274764516207253882639832052157850478506769060792333732773479248924477524741389453621941773645310054210388366166917861738273347115918342231239369741679022800568143757135232460923214220845748475595985302936265721808298108894405587412909289912863607457934439777750359443398877345107933846787958508495629025714329380439905949356643078969714923660176077995995901142181653430678255845669988340778369944040784460525869153167335001757509602754789738289529872180923928201614167891370504278213910255790633851986743267483260706225014688806241383064638082080665919530154314212911878245413231787395023404980529858422633416185808288967883786780234638786317394408685706848294417634402514817809618910935709279824634467688817240299216822463304468897611079068181618118360955423349336752314909197756551583896136103113164013221166287895404969312489326844085766578135221629901892524434609263307734889628364319773598400472159219451990635381443148519030643291910948369749226783123473524385163083248879134440958057088260031839783047540761343840275062561204321041428156650493593782613515249819062053267242187581199670812213625062663521431977478176514210556903769234519281236464961097177875246709938811744590837016404958828155269536862679294265342865742123191645238828236941858175991444579202969544673345679845572845707086530855705206942584548589012392585595228318999928940278112615300526503400540595611219746788646224512367130406973552526194596816103752758220686047301583246173940935576532179159669391034749777912138102508721274774850407656230906840522483342013746543876932388229668838417598820316353339223152393698676825702816923675577712285150757157739218339354235321743803007532617723073158383664688104800850546273511994263885855209674020575499712960564560469400308963283198610693469460188878796262265132226835830071145383360573058604142951426869599625617240928631011485823930626240458714543921096319192323511304285452397041114836834947584726192983826836188295893871666818094737927791715765209246013100397243504284969941043833238309880101936157976430731764302261776674940419458329642287171343064426057605061789574002880242619203798403908280361478006171059871153820379285024355555192954566027685096064627019918806858245686440598295829896793567989456119516450623625405001496835487484957638292285362094222803018050028407661863911893903048413247310330387042711968412484596248725356839606506533795443676533094527168923491534404536370200594980977663670645814673587451562717420447728508983493683927342793703609464700351160095863947923512917786805169384448566501558795961492470986652103073840773859536074683188051887232461188085815887440437086841576175284793918208138195740514225978886001963112159019220478376952325186578455242429510009860396215545973523813675650886254062312248991281649898048097508665433476040248226378211808350102186933139356077636190367845392031931107171597302055079520240472616593979786182855585392675656638270853270089954725377991059035776969103441500578919834474819286895963970671089469294028012834537181983022488746357306474672657071900372602053321091952120319405878610153005132409677799081011607127946832185783165982487674296258332763192306260379779586669597901989688291604072840026639550404098355402343860448741269887773537337261584906526940273279572358311892141811095866743384813642575535413229579699798222368798539730387875087281279002020348120600850158260203617062121089954175448607291966205313778809038266544966566143137470805113441040910822719484112701136330295253127381058939486525609529162352945098337977761543874393018788553242753645096763228138834463621940710187429471263958358867560429577454413537923107869664529071290103625557515169053836036909546989737333594722187239263740055384065091297272303686972511932128813235963291370160150292676151249966668441546568469566097194534352836618648737955125790237595557179857588

/-- Staged intermediate MT19937 value (packed state array). -/
def litTS2 : Nat :=
  7132384246536829512454990954607557452828390370029682127690335407303837564633031322409778017170405016004224072074756325226108050147951621177510621660391072094630472964347879422744713459435598875741507993696251513914761071712286320945132269297463964689066798761672660204058467790479628881624133005636037622119900335852088410405823405588620560144593343008916938206737574209872593455236589767214426279929784788178749913778083067489280840893273937962529812589785165428261459537001732531057504193485769459420296554814755801127794163342389143732058347002955697468506187471549689260183426339931028225254455379300368745793164360535414455688221176546281867583203555477405855748444424220049954518576506054509066931766313723135130904771108052554654035946382686403912278130301408910221250562275929360490334479388341372193022838485544045163055974239610952805231259719897853467885311725649320720082003390853187795848389766828739301555600647285075038947874129274877204359659328349706721268236716471380031806314250861034697210818269537136246195177729173873864569456421178510532278465202429688031944516549410164379423877221528887173340499046261934780750879590905484756666205439745379140913512361315018096364147010187180397319008770630702078019475101083436759108603780070061969092626403514099753202380689569339272857578089810143724001508038215935418990365445068244193335229018955518782341148215233488039855678737119252785594687560270351465790435168108672990364166020643421893497458868765122209345555126524676419465742766507278837961531642052684091388783114019092116951525662663853401905171970616571325924820157144995532587428753904861730220474670731354561143267248153805468970989877210305425846893268776896647142001501418535123225144944669901255556383535946940363756365905676281486912661912789708599684742168875283539987991861228286381415150436658780915040620117428226854732837469462312550078764527166183123862105257209072480709648168745728774321136116497146577116307251590962916145930192291901748696272024623974656962854128518530087816213610844569363850692863947034666153294149691265203578317420899904969089809710672474324843111491693503041115310826980358618918154672484181294389912896492487872291109896307644419103401945848026752084389773493835448539693177195600725539545012981870844428406403933575608118346179978802529807582557906287162447790528105644348290770030087307096940313950463619890069600713247120649076734371893209008366697846497620275730717936546418155655273118594297968803238074773249329539458903147505088435282277089545237087070859179777693644051459356529479379299711767278659530692485229315560227890518690984295099289092562289280162116492641840301061873658981246937563383990012546820195451653768300583061551258117401404661004348787949607930014461504398016456786725093028456462414481222405807508031078462850620732470466703873193527741375899012145046831855857449353895770875915093554212159971777422053356524280759802298021204354617967710511802749139648039938540845496260071163149486345114506674274279043245017100243444067008840593191251422356321393196187356340261215636800856418976410220375518766247501630511492772716819287263752031141978631372170003451937623738541685060739676656974436930854512181179610842756286818200249942808259696896817850527313954735249426374122970360127727627334984918519245008245349508793180803847072971570078123576999933913929633612128443974989529797293732917274678913626651049155557431722906291403362217113927724026764890740935781930150591223979184943053612753150687628180343555418769783588201774837841708417518300019268106704955630950289455331462595359447414703510257440843503360697381828038581159345983288330160809060341469422526224090332652115840901505312129644985382780146931479470773434823829798677684281430866791172772906306576897089156616837759884861083687580723671024038260739650176430766412929782159864658896836134850905613418605815389266333371734169719588514607775131225971532371207717971866345344791690446265114221788542165240305016265341202539434242306173870645541623305597508979374623501879701501102093618671540859741935062655513792801786636030026053059147697371081007032759996849736638479901988184346621941497602842024724959825172364508704552001169273507479590217806087749939491648721247192714763655073003151997113460646664430106600553337227163291501627793144467383309164961085833308371804816476680741653514988143663372666469748931010160451803389126606208528118088154704148921630207880151031857535779750412919991439761384741605211148333950248522864640401606591802565395580751793232966418155014091478951339283349594986501632634140754334326235567870247152352623161882486515055262178268237952612261783769360694220174632621847410384071173460080203782801333825065668462885898576281303825915367885525582259582003056709669727235385808939176861643957903171001713285889285103880596025591616645454856324155701306541982657744711564674941500793395675944917909745079647198786032028961816560009266694895402157182763722606846189909201679549682887559071720243388148363407708854650033841595763125240307890599089158731855236304841353997728105299209001105028073339597333825679781746295198891829568388964075775657943867398909166769556205529614985593356563002495366383227066386720334027109298337772530932800924082367453302898615740472312002990727454471021841575642147481218376291508827828005417444253306775733706342633046142709731958124448455420796005433576407846861428417869445666698111818586096130223039317665159839161990961137494313885638658950748854634605087368853902808074562988189734192857773983473916370654475655896617116634034021663880055382631266205075074416066707108853932601898333184503736602232269640690860692166301474994022002735173329381150126257734914479183274389758317293204130042353333700402015585559852487139923624921175470783350371455861305214946310023924341469259249571464824753841669563267397126252510722693990097900444308383369053582681246066833775690526039168599609898269016849495914643871592430941861660258908888242865058152118857363268852722404385473033573443287010941620

/-- The positions (absolute indices, starting at `i`) of the records in
a suffix slice whose group-key value is `g`; the order of appearance is
the order of the records. -/
def slicePositions (ks : List String) : List Json → Nat → Json → List Nat
  | [], _, _ => []
  | r :: rs, i, g =>
    if r.getPath ks = some g then i :: slicePositions ks rs (i + 1) g
    else slicePositions ks rs (i + 1) g

/-! ### Concrete instances used by the counterexample and witnesses -/

/-- Two passes over one constructed loader: the yield sequences of the
first and the second full iteration. -/
def twoPasses (L : Loader) : Option (List Yield × List Yield) :=
  match runPass L with
  | none => none
  | some (ys1, L1) =>
    match runPass L1 with
    | none => none
    | some (ys2, _) => some (ys1, ys2)

/-- A minimal record: pipeline id `"p"`, one metafeature, one target. -/
def cexRecord0 : Json :=
  .obj [("pipeline", .obj [("id", .str "p")]), ("metafeatures", .arr [.num 0]),
    ("test_f1_macro", .num 10)]

/-- A second record of the same pipeline group with different values. -/
def cexRecord1 : Json :=
  .obj [("pipeline", .obj [("id", .str "p")]), ("metafeatures", .arr [.num 1]),
    ("test_f1_macro", .num 11)]

/-- The two-record collection used to refute pass-to-pass determinism. -/
def cexData : List Json := [cexRecord0, cexRecord1]

/-- The loader state `GroupDataLoader(cexData, 'pipeline.id',
batch_size=2, drop_last=False, shuffle=True, seed=1)` reaches at the
end of `__init__`: one group `"p"` whose sampler was seeded with
3280387012 (the master stream's first `randint`). -/
def cexLoader : Loader :=
  ⟨[⟨.str "p", [cexRecord0, cexRecord1], some ([0, 1], ⟨litMS2, 624⟩)⟩],
    2, false, "metafeatures", "test_f1_macro", [.str "p"]⟩

/-- The same loader after its first full pass: the sampler's stream has
twisted and consumed six words, its index list untouched (`[0, 1]`). -/
def cexLoader1 : Loader :=
  ⟨[⟨.str "p", [cexRecord0, cexRecord1], some ([0, 1], ⟨litTS2, 6⟩)⟩],
    2, false, "metafeatures", "test_f1_macro", [.str "p"]⟩

/-- After the second pass: three more words consumed, indices swapped. -/
def cexLoader2 : Loader :=
  ⟨[⟨.str "p", [cexRecord0, cexRecord1], some ([1, 0], ⟨litTS2, 9⟩)⟩],
    2, false, "metafeatures", "test_f1_macro", [.str "p"]⟩

/-- The first pass's single batch: records in sampler order `[0, 1]`. -/
def cexYs1 : List Yield :=
  [⟨.str "p", .obj [("id", .str "p")], [.arr [.num 0], .arr [.num 1]], [.num 10, .num 11]⟩]

/-- The second pass's single batch: records in sampler order `[1, 0]`. -/
def cexYs2 : List Yield :=
  [⟨.str "p", .obj [("id", .str "p")], [.arr [.num 1], .arr [.num 0]], [.num 11, .num 10]⟩]

/-- The same two-record collection loaded without shuffling
(`shuffle=False`): sequential order, no sampler state. -/
def nsLoader : Loader :=
  ⟨[⟨.str "p", [cexRecord0, cexRecord1], none⟩],
    2, false, "metafeatures", "test_f1_macro", [.str "p"]⟩

/-- The single batch every pass of the unshuffled loader yields. -/
def nsYs : List Yield :=
  [⟨.str "p", .obj [("id", .str "p")], [.arr [.num 0], .arr [.num 1]], [.num 10, .num 11]⟩]

/-- A record whose pipeline also carries a `steps` list, as the RNN
loader's structure extraction and pipeline encoding require. -/
def rnnRecord0 : Json :=
  .obj [("pipeline", .obj [("id", .str "q"),
      ("steps", .arr [.obj [("name", .str "prim_a"), ("inputs", .arr [.str "inputs.0"])]])]),
    ("metafeatures", .arr [.num 0]), ("test_f1_macro", .num 10)]

/-- A second record of the same pipeline group. -/
def rnnRecord1 : Json :=
  .obj [("pipeline", .obj [("id", .str "q"),
      ("steps", .arr [.obj [("name", .str "prim_a"), ("inputs", .arr [.str "inputs.0"])]])]),
    ("metafeatures", .arr [.num 1]), ("test_f1_macro", .num 11)]

/-- The two-record collection driving the exhaustion witnesses. -/
def rnnData : List Json := [rnnRecord0, rnnRecord1]

/-- A primitive encoding map covering the one primitive used above. -/
def p2eWit : List (String × Json) := [("prim_a", .num 7)]

/-- The grouped loader `__init__` builds from `rnnData` without
shuffling: one group, one scheduled batch. -/
def rnsLoader : Loader :=
  ⟨[⟨.str "q", [rnnRecord0, rnnRecord1], none⟩],
    2, false, "metafeatures", "test_f1_macro", [.str "q"]⟩

/-- The corresponding RNN loader: same base, one recorded structure. -/
def rnsRNN : RNNLoader :=
  ⟨rnsLoader, [(.str "q", [.arr [.str "inputs.0"]])], p2eWit⟩

/-! ### Theorems.  Generic iteration and staging lemmas -/

set_option maxRecDepth 40000

theorem iterN_add {σ : Type _} (f : σ → σ) (a b : Nat) (s : σ) :
    PyRandom.iterN f (a + b) s = PyRandom.iterN f b (PyRandom.iterN f a s) := by
  induction a generalizing s with
  | zero => rw [Nat.zero_add]; rfl
  | succ n ih => rw [Nat.succ_add]; exact ih (f s)

theorem stageIG1 : PyRandom.iterN PyRandom.igStep 311 (1, 19650218, 19650218)
    = (312, 2916146832, litIGmid) := by decide

theorem stageIG2 : PyRandom.iterN PyRandom.igStep 312 (312, 2916146832, litIGmid)
    = (624, 2905164258, litIGfull) := by decide

theorem initGenrand_19650218 : PyRandom.initGenrand 19650218 = ⟨litIGfull, 624⟩ := by
  unfold PyRandom.initGenrand
  rw [show (19650218 : Nat) % PyRandom.W = 19650218 from by decide]
  rw [show (623 : Nat) = 311 + 312 from by norm_num, iterN_add, stageIG1, stageIG2]

theorem stageS1a : PyRandom.iterN (PyRandom.ibaStep [1]) 312 (1, 0, litIGfull)
    = (313, 0, litS1A) := by decide

theorem stageS1b : PyRandom.iterN (PyRandom.ibaStep [1]) 312 (313, 0, litS1A)
    = (2, 0, litS1B) := by decide

theorem stageS1c : PyRandom.iterN PyRandom.iba2Step 311 (2, litS1B) = (313, litS1C) := by decide

theorem stageS1d : PyRandom.iterN PyRandom.iba2Step 312 (313, litS1C) = (2, litS1D) := by decide

theorem seedInt_1 : PyRandom.seedInt 1 = ⟨litMS1, 624⟩ := by
  have hmt : (PyRandom.initGenrand 19650218).mt = litIGfull := by rw [initGenrand_19650218]
  unfold PyRandom.seedInt PyRandom.initByArray
  rw [show (if (1 : Nat) = 0 then [0] else PyRandom.natKeyFuel 1 1) = [1] from by decide]
  rw [hmt]
  rw [show max 624 ([1] : List Nat).length = 312 + 312 from by decide]
  rw [iterN_add, stageS1a, stageS1b]
  dsimp only
  rw [show (623 : Nat) = 311 + 312 from by norm_num, iterN_add, stageS1c, stageS1d]
  dsimp only
  rw [show PyRandom.mtSet litS1D 0 2147483648 = litMS1 from by decide]

theorem stageS2a : PyRandom.iterN (PyRandom.ibaStep [3280387012]) 312 (1, 0, litIGfull)
    = (313, 0, litS2A) := by decide

theorem stageS2b : PyRandom.iterN (PyRandom.ibaStep [3280387012]) 312 (313, 0, litS2A)
    = (2, 0, litS2B) := by decide

theorem stageS2c : PyRandom.iterN PyRandom.iba2Step 311 (2, litS2B) = (313, litS2C) := by decide

theorem stageS2d : PyRandom.iterN PyRandom.iba2Step 312 (313, litS2C) = (2, litS2D) := by decide

theorem seedInt_3280387012 : PyRandom.seedInt 3280387012 = ⟨litMS2, 624⟩ := by
  have hmt : (PyRandom.initGenrand 19650218).mt = litIGfull := by rw [initGenrand_19650218]
  unfold PyRandom.seedInt PyRandom.initByArray
  rw [show (if (3280387012 : Nat) = 0 then [0]
      else PyRandom.natKeyFuel 3280387012 3280387012) = [3280387012] from by decide]
  rw [hmt]
  rw [show max 624 ([3280387012] : List Nat).length = 312 + 312 from by decide]
  rw [iterN_add, stageS2a, stageS2b]
  dsimp only
  rw [show (623 : Nat) = 311 + 312 from by norm_num, iterN_add, stageS2c, stageS2d]
  dsimp only
  rw [show PyRandom.mtSet litS2D 0 2147483648 = litMS2 from by decide]

theorem stageT1a : PyRandom.iterN PyRandom.twStep 312 (0, litMS1) = (312, litTS1h) := by decide

theorem stageT1b : PyRandom.iterN PyRandom.twStep 312 (312, litTS1h) = (624, litTS1) := by decide

theorem twist_MS1 : PyRandom.twist litMS1 = litTS1 := by
  unfold PyRandom.twist
  rw [show (624 : Nat) = 312 + 312 from by norm_num, iterN_add, stageT1a, stageT1b]

theorem stageT2a : PyRandom.iterN PyRandom.twStep 312 (0, litMS2) = (312, litTS2h) := by decide

theorem stageT2b : PyRandom.iterN PyRandom.twStep 312 (312, litTS2h) = (624, litTS2) := by decide

theorem twist_MS2 : PyRandom.twist litMS2 = litTS2 := by
  unfold PyRandom.twist
  rw [show (624 : Nat) = 312 + 312 from by norm_num, iterN_add, stageT2a, stageT2b]

/-! ### Twist seam: a state with exhausted buffer draws like its twist -/

theorem genrand_exhausted (mt mti : Nat) (h : 624 ≤ mti) :
    PyRandom.genrand ⟨mt, mti⟩ = PyRandom.genrand ⟨PyRandom.twist mt, 0⟩ := by
  unfold PyRandom.genrand
  simp [h]

theorem getrandbitsFuel_congr (m k : Nat) (s s' : PyRandom.MTState)
    (h : PyRandom.genrand s = PyRandom.genrand s') :
    PyRandom.getrandbitsFuel (m + 1) k s = PyRandom.getrandbitsFuel (m + 1) k s' := by
  unfold PyRandom.getrandbitsFuel
  rw [h]

theorem randbelowLoop_congr (n k m : Nat) (hk : 0 < k) (s s' : PyRandom.MTState)
    (h : PyRandom.genrand s = PyRandom.genrand s') :
    PyRandom.randbelowLoop n k (m + 1) s = PyRandom.randbelowLoop n k (m + 1) s' := by
  obtain ⟨k', rfl⟩ : ∃ k', k = k' + 1 := ⟨k - 1, by omega⟩
  unfold PyRandom.randbelowLoop PyRandom.getrandbits
  rw [getrandbitsFuel_congr _ _ _ _ h]

theorem bitLength_pos (n : Nat) (h : n ≠ 0) : 0 < PyRandom.bitLength n := by
  obtain ⟨m, rfl⟩ : ∃ m, n = m + 1 := ⟨n - 1, by omega⟩
  unfold PyRandom.bitLength PyRandom.bitLengthFuel
  simp

theorem randbelow_congr (n : Nat) (hn : n ≠ 0) (s s' : PyRandom.MTState)
    (h : PyRandom.genrand s = PyRandom.genrand s') :
    PyRandom.randbelow n s = PyRandom.randbelow n s' := by
  unfold PyRandom.randbelow
  exact randbelowLoop_congr _ _ 99 (bitLength_pos n hn) _ _ h

theorem genrand_MS1 : PyRandom.genrand ⟨litMS1, 624⟩ = PyRandom.genrand ⟨litTS1, 0⟩ := by
  rw [genrand_exhausted _ _ (by norm_num), twist_MS1]

theorem genrand_MS2 : PyRandom.genrand ⟨litMS2, 624⟩ = PyRandom.genrand ⟨litTS2, 0⟩ := by
  rw [genrand_exhausted _ _ (by norm_num), twist_MS2]

theorem randint32_MS1 : PyRandom.randint32 ⟨litMS1, 624⟩ = (3280387012, ⟨litTS1, 6⟩) := by
  unfold PyRandom.randint32
  rw [randbelow_congr _ (by norm_num) _ _ genrand_MS1]
  decide

theorem shuffle_pass1 : PyRandom.shuffle [0, 1] ⟨litMS2, 624⟩ = ([0, 1], ⟨litTS2, 6⟩) := by
  show PyRandom.shuffleLoop 1 [0, 1] ⟨litMS2, 624⟩ = ([0, 1], ⟨litTS2, 6⟩)
  unfold PyRandom.shuffleLoop
  rw [randbelow_congr _ (by norm_num) _ _ genrand_MS2]
  decide

theorem shuffle_pass2 : PyRandom.shuffle [0, 1] ⟨litTS2, 6⟩ = ([1, 0], ⟨litTS2, 9⟩) := by
  decide

theorem buildInfos_cex :
    buildInfos cexData true [(Json.str "p", [0, 1])] ⟨litMS1, 624⟩
      = ([⟨Json.str "p", [cexRecord0, cexRecord1], some ([0, 1], ⟨litMS2, 624⟩)⟩],
         ⟨litTS1, 6⟩) := by
  unfold buildInfos
  rw [randint32_MS1]
  dsimp only
  rw [seedInt_3280387012]
  decide

theorem mkLoader_cex :
    mkLoader cexData "pipeline.id" "metafeatures" "test_f1_macro" 2 false true 1
      = some cexLoader := by
  unfold mkLoader
  rw [show group_json_objects cexData "pipeline.id" = some [(Json.str "p", [0, 1])]
    from by decide]
  dsimp only
  rw [seedInt_1, buildInfos_cex]
  decide

theorem advanceInfo_cex :
    advanceInfo 2 false ⟨Json.str "p", [cexRecord0, cexRecord1], some ([0, 1], ⟨litMS2, 624⟩)⟩
      = ⟨Json.str "p", [cexRecord0, cexRecord1], some ([0, 1], ⟨litTS2, 6⟩)⟩ := by
  unfold advanceInfo
  dsimp only
  rw [if_neg (by decide), shuffle_pass1]

theorem runPass_cex1 : runPass cexLoader = some (cexYs1, cexLoader1) := by
  unfold runPass cexLoader
  dsimp only
  simp only [List.map_cons, List.map_nil]
  rw [advanceInfo_cex]
  decide

theorem runPass_cex2 : runPass cexLoader1 = some (cexYs2, cexLoader2) := by decide

/-- C2 (counterexample): the very loader the claim quantifies over —
two records in one pipeline group, batch size 2, shuffling enabled,
seed 1 — yields `[0, 1]`-ordered batches on its first full pass and
`[1, 0]`-ordered batches on its second: each new `__iter__` re-shuffles
every group's persistent sampler (src/dna/data.py:268-269), so the two
passes are not bit-for-bit equal. -/
theorem C2_counterexample :
    (mkLoader cexData "pipeline.id" "metafeatures" "test_f1_macro" 2 false true 1).bind
        twoPasses = some (cexYs1, cexYs2) ∧ cexYs1 ≠ cexYs2 := by
  constructor
  · rw [mkLoader_cex]
    show twoPasses cexLoader = some (cexYs1, cexYs2)
    unfold twoPasses
    rw [runPass_cex1]
    dsimp only
    rw [runPass_cex2]
  · decide

/-! ### Pass structure lemmas -/

theorem popBatch_label {β : Type _} (f : β → Json) (avail : List (Json × List β)) (g : Json)
    (b : β) (avail' : List (Json × List β)) (hpop : popBatch avail g = some (b, avail'))
    (hav : ∀ p ∈ avail, ∀ y ∈ p.2, f y = p.1) :
    f b = g ∧ ∀ p ∈ avail', ∀ y ∈ p.2, f y = p.1 := by
  induction avail generalizing avail' with
  | nil => simp [popBatch] at hpop
  | cons hd tl ih =>
    obtain ⟨g', l⟩ := hd
    by_cases hg : g' = g
    · subst hg
      cases l with
      | nil => simp [popBatch] at hpop
      | cons b0 bs' =>
        simp [popBatch] at hpop
        obtain ⟨hb, hav'⟩ := hpop
        subst hb; subst hav'
        refine ⟨(hav _ (List.mem_cons_self _ _) _ (List.mem_cons_self _ _)), ?_⟩
        intro p hp y hy
        rcases List.mem_cons.mp hp with h | h
        · subst h; exact hav _ (List.mem_cons_self _ _) _ (List.mem_cons_of_mem _ hy)
        · exact hav _ (List.mem_cons_of_mem _ h) _ hy
    · simp [popBatch, hg] at hpop
      match hrec : popBatch tl g with
      | none => rw [hrec] at hpop; simp at hpop
      | some (b2, rest') =>
        rw [hrec] at hpop
        simp at hpop
        obtain ⟨hb, hav'⟩ := hpop
        subst hb
        have := ih rest' hrec (fun p hp y hy => hav _ (List.mem_cons_of_mem _ hp) _ hy)
        refine ⟨this.1, ?_⟩
        subst hav'
        intro p hp y hy
        rcases List.mem_cons.mp hp with h | h
        · subst h; exact hav _ (List.mem_cons_self _ _) _ hy
        · exact this.2 _ h _ hy

theorem consumeSchedule_labels {β : Type _} (f : β → Json) (sched : List Json) :
    ∀ (avail : List (Json × List β)) (ys : List β),
    consumeSchedule avail sched = some ys →
    (∀ p ∈ avail, ∀ y ∈ p.2, f y = p.1) →
    ys.map f = sched := by
  induction sched with
  | nil => intro avail ys h hav; simp [consumeSchedule] at h; subst h; rfl
  | cons g gs ih =>
    intro avail ys h hav
    unfold consumeSchedule at h
    match hpop : popBatch avail g with
    | none => rw [hpop] at h; simp at h
    | some (b, avail') =>
      rw [hpop] at h
      dsimp only at h
      match hrec : consumeSchedule avail' gs with
      | none => rw [hrec] at h; simp at h
      | some ys' =>
        rw [hrec] at h
        simp at h
        subst h
        obtain ⟨hb, hav'⟩ := popBatch_label f avail g b avail' hpop hav
        simp [hb, ih avail' ys' hrec hav']

theorem consumeSchedule_length {β : Type _} (sched : List Json) :
    ∀ (avail : List (Json × List β)) (ys : List β),
    consumeSchedule avail sched = some ys → ys.length = sched.length := by
  induction sched with
  | nil => intro avail ys h; simp [consumeSchedule] at h; subst h; rfl
  | cons g gs ih =>
    intro avail ys h
    unfold consumeSchedule at h
    match hpop : popBatch avail g with
    | none => rw [hpop] at h; simp at h
    | some (b, avail') =>
      rw [hpop] at h
      dsimp only at h
      match hrec : consumeSchedule avail' gs with
      | none => rw [hrec] at h; simp at h
      | some ys' =>
        rw [hrec] at h
        simp at h
        subst h
        simp [ih avail' ys' hrec]

theorem mapOpt_some_iff {α β : Type _} (f : α → Option β) :
    ∀ (l : List α) (res : List β),
    mapOpt f l = some res ↔ List.Forall₂ (fun a b => f a = some b) l res := by
  intro l
  induction l with
  | nil =>
    intro res
    constructor
    · intro h; simp [mapOpt] at h; subst h; exact List.Forall₂.nil
    · intro h; cases h; rfl
  | cons a l ih =>
    intro res
    constructor
    · intro h
      unfold mapOpt at h
      match hfa : f a with
      | none => rw [hfa] at h; simp at h
      | some b =>
        rw [hfa] at h
        dsimp only at h
        match hrec : mapOpt f l with
        | none => rw [hrec] at h; simp at h
        | some res' =>
          rw [hrec] at h
          simp at h
          subst h
          exact List.Forall₂.cons hfa ((ih res').mp hrec)
    · intro h
      cases h with
      | cons hab htail =>
        unfold mapOpt
        rw [hab]
        dsimp only
        rw [(ih _).mpr htail]
        rfl

theorem mapOpt_mem {α β : Type _} (f : α → Option β) (l : List α) (res : List β)
    (h : mapOpt f l = some res) : ∀ b ∈ res, ∃ a ∈ l, f a = some b := by
  intro b hb
  have h2 := (mapOpt_some_iff f l res).mp h
  clear h
  revert hb
  induction h2 with
  | nil => intro hb; simp at hb
  | cons hab htail ih =>
    intro hb
    rcases List.mem_cons.mp hb with h | h
    · subst h; exact ⟨_, List.mem_cons_self _ _, hab⟩
    · obtain ⟨a, ha, hfa⟩ := ih h
      exact ⟨a, List.mem_cons_of_mem _ ha, hfa⟩

theorem mapOpt_isSome {α β : Type _} (f : α → Option β) :
    ∀ (l : List α), (∀ a ∈ l, (f a).isSome) →
    ∃ res, mapOpt f l = some res ∧ res.length = l.length := by
  intro l
  induction l with
  | nil => intro _; exact ⟨[], rfl, rfl⟩
  | cons a l ih =>
    intro h
    obtain ⟨b, hb⟩ := Option.isSome_iff_exists.mp (h a (List.mem_cons_self _ _))
    obtain ⟨res, hres, hlen⟩ := ih (fun x hx => h x (List.mem_cons_of_mem _ hx))
    refine ⟨b :: res, ?_, by simp [hlen]⟩
    unfold mapOpt
    rw [hb, hres]
    rfl

theorem groupYieldBatches_labels (bs : Nat) (dl : Bool) (fk tk : String) (gi : GroupInfo)
    (ys : List Yield) (h : groupYieldBatches bs dl fk tk gi = some ys) :
    ∀ y ∈ ys, y.label = gi.label := by
  unfold groupYieldBatches at h
  match h0 : gi.records[0]? with
  | none => rw [h0] at h; simp at h
  | some r0 =>
    rw [h0] at h
    dsimp only at h
    match h1 : r0.getKey "pipeline" with
    | none => rw [h1] at h; simp at h
    | some pl =>
      rw [h1] at h
      dsimp only at h
      match h2 : mapOpt (batchOf fk tk gi.records) (groupIdxBatches bs dl gi) with
      | none => rw [h2] at h; simp at h
      | some bsl =>
        rw [h2] at h
        simp at h
        subst h
        intro y hy
        obtain ⟨b, _, hb⟩ := List.mem_map.mp hy
        rw [← hb]

/-- What one successful pass returns: the yielded labels are exactly
the schedule, and the loader is returned with only its group states
advanced. -/
theorem runPass_shape (L : Loader) (ys : List Yield) (L' : Loader)
    (h : runPass L = some (ys, L')) :
    ys.map Yield.label = L.groupBatches ∧
    L' = { L with infos := L.infos.map (advanceInfo L.batchSize L.dropLast) } := by
  unfold runPass at h
  dsimp only at h
  match hav : mapOpt (fun gi =>
      (groupYieldBatches L.batchSize L.dropLast L.featuresKey L.targetKey gi).map
        (fun ys => (gi.label, ys)))
      (L.infos.map (advanceInfo L.batchSize L.dropLast)) with
  | none => rw [hav] at h; simp at h
  | some avail =>
    rw [hav] at h
    dsimp only at h
    match hcs : consumeSchedule avail L.groupBatches with
    | none => rw [hcs] at h; simp at h
    | some ys0 =>
      rw [hcs] at h
      simp at h
      obtain ⟨hys, hL'⟩ := h
      subst hys
      refine ⟨?_, hL'.symm⟩
      refine consumeSchedule_labels Yield.label L.groupBatches avail ys0 hcs ?_
      intro p hp y hy
      obtain ⟨gi, _, hgi⟩ := mapOpt_mem _ _ _ hav p hp
      match hg : groupYieldBatches L.batchSize L.dropLast L.featuresKey L.targetKey gi with
      | none => rw [hg] at hgi; simp at hgi
      | some ysg =>
        rw [hg] at hgi
        simp at hgi
        obtain ⟨hlab, hys⟩ := Prod.mk.injEq .. ▸ hgi
        have : y.label = gi.label := by
          refine groupYieldBatches_labels _ _ _ _ _ _ hg y ?_
          rw [← hys] at hy
          exact hy
        rw [this, ← hlab]

theorem advanceInfo_none (bs : Nat) (dl : Bool) (gi : GroupInfo) (h : gi.sampler = none) :
    advanceInfo bs dl gi = gi := by
  unfold advanceInfo
  rw [h]

theorem buildInfos_no_shuffle (data : List Json) :
    ∀ (grouped : List (Json × List Nat)) (m : PyRandom.MTState),
    buildInfos data false grouped m
      = (grouped.map (fun p =>
          (⟨p.1, p.2.filterMap (fun i => data[i]?), none⟩ : GroupInfo)), m) := by
  intro grouped
  induction grouped with
  | nil => intro m; rfl
  | cons hd tl ih =>
    intro m
    obtain ⟨g, idxs⟩ := hd
    unfold buildInfos
    rw [if_neg (by simp)]
    dsimp only
    rw [ih m]
    rfl

theorem mkLoader_no_shuffle (data : List Json) (gk fk tk : String) (bs : Nat) (dl : Bool)
    (seed : Nat) (L : Loader)
    (h : mkLoader data gk fk tk bs dl false seed = some L) :
    ∀ gi ∈ L.infos, gi.sampler = none := by
  unfold mkLoader at h
  match hg : group_json_objects data gk with
  | none => rw [hg] at h; simp at h
  | some grouped =>
    rw [hg] at h
    dsimp only at h
    rw [buildInfos_no_shuffle data grouped] at h
    dsimp only at h
    simp at h
    intro gi hgi
    rw [← h] at hgi
    dsimp only at hgi
    obtain ⟨p, _, hp⟩ := List.mem_map.mp hgi
    rw [← hp]

/-- C2 (amended): what does hold of the source loader.  (i) Every
successful pass yields exactly the shuffled label schedule, in order,
and leaves that schedule untouched, so the group-label sequence is
identical across passes.  (ii) When shuffling is disabled the loader
state is pass-invariant, so two successive full passes yield
bit-for-bit identical sequences.  (With shuffling enabled, consecutive
passes of one loader re-shuffle each group — see the counterexample.) -/
theorem C2_amended (data : List Json) (gk fk tk : String) (bs : Nat) (dl : Bool)
    (seed : Nat) (L : Loader) (ys : List Yield) (L' : Loader) :
    (runPass L = some (ys, L') →
      ys.map Yield.label = L.groupBatches ∧ L'.groupBatches = L.groupBatches) ∧
    (mkLoader data gk fk tk bs dl false seed = some L → runPass L = some (ys, L') →
      L' = L ∧ runPass L' = some (ys, L')) := by
  constructor
  · intro h
    obtain ⟨hlab, hL'⟩ := runPass_shape L ys L' h
    exact ⟨hlab, by rw [hL']⟩
  · intro hmk h
    have hnone : ∀ gi ∈ L.infos, gi.sampler = none :=
      mkLoader_no_shuffle data gk fk tk bs dl seed L hmk
    have hmap : L.infos.map (advanceInfo L.batchSize L.dropLast) = L.infos := by
      rw [List.map_congr_left (fun gi hgi =>
        advanceInfo_none L.batchSize L.dropLast gi (hnone gi hgi))]
      exact List.map_id _
    obtain ⟨hlab, hL'⟩ := runPass_shape L ys L' h
    have hLL : L' = L := by rw [hL', hmap]
    subst hLL
    exact ⟨rfl, h⟩

/-- C2 (amended, witness): the two-record unshuffled loader satisfies
both parts at a concrete input. -/
theorem C2_amended_witness :
    (nsYs.map Yield.label = nsLoader.groupBatches ∧
      nsLoader.groupBatches = nsLoader.groupBatches) ∧
    (nsLoader = nsLoader ∧ runPass nsLoader = some (nsYs, nsLoader)) :=
  ⟨(C2_amended cexData "pipeline.id" "metafeatures" "test_f1_macro" 2 false 99
      nsLoader nsYs nsLoader).1 (by decide),
   (C2_amended cexData "pipeline.id" "metafeatures" "test_f1_macro" 2 false 99
      nsLoader nsYs nsLoader).2 (by decide) (by decide)⟩

/-! ### Grouping lemmas (`group_json_objects`) -/

theorem addToGroup_lookup (acc : List (Json × List Nat)) (gk : Json) (i : Nat) (g : Json) :
    (addToGroup acc gk i).lookup g =
      if g = gk then some (((acc.lookup g).getD []) ++ [i]) else acc.lookup g := by
  induction acc with
  | nil =>
    by_cases hg : g = gk
    · subst hg; simp [addToGroup, List.lookup]
    · have hb : (g == gk) = false := by simp [hg]
      simp [addToGroup, List.lookup, hb, hg]
  | cons hd tl ih =>
    obtain ⟨g', l⟩ := hd
    by_cases hh : g' = gk
    · subst hh
      by_cases hg : g = g'
      · subst hg; simp [addToGroup, List.lookup]
      · have hb : (g == g') = false := by simp [hg]
        simp [addToGroup, List.lookup, hb, hg]
    · by_cases hg : g = g'
      · subst hg
        have hb : (g == gk) = false := by simp [hh]
        simp [addToGroup, hh, List.lookup, hh, hb]
      · have hb : (g == g') = false := by simp [hg]
        simp [addToGroup, hh, List.lookup, hb, ih]

theorem addToGroup_keys (acc : List (Json × List Nat)) (gk : Json) (i : Nat) :
    (addToGroup acc gk i).map Prod.fst =
      if gk ∈ acc.map Prod.fst then acc.map Prod.fst else acc.map Prod.fst ++ [gk] := by
  induction acc with
  | nil => simp [addToGroup]
  | cons hd tl ih =>
    obtain ⟨g', l⟩ := hd
    by_cases hh : g' = gk
    · subst hh; simp [addToGroup]
    · simp only [addToGroup, if_neg hh, List.map_cons, ih]
      by_cases hmem : gk ∈ tl.map Prod.fst
      · simp [hmem, Ne.symm hh]
      · simp [hmem, Ne.symm hh]

theorem addToGroup_flatten (acc : List (Json × List Nat)) (gk : Json) (i : Nat) :
    ((addToGroup acc gk i).map Prod.snd).flatten.Perm
      ((acc.map Prod.snd).flatten ++ [i]) := by
  induction acc with
  | nil => simp [addToGroup]
  | cons hd tl ih =>
    obtain ⟨g', l⟩ := hd
    by_cases hh : g' = gk
    · subst hh
      unfold addToGroup
      rw [if_pos rfl]
      simp only [List.map_cons, List.flatten_cons, List.append_assoc]
      exact List.Perm.append_left l List.perm_append_comm
    · unfold addToGroup
      rw [if_neg hh]
      simp only [List.map_cons, List.flatten_cons, List.append_assoc]
      exact List.Perm.append_left l ih

theorem mem_iff_lookup (l : List (Json × List Nat)) (hn : (l.map Prod.fst).Nodup)
    (g : Json) (v : List Nat) : (g, v) ∈ l ↔ l.lookup g = some v := by
  induction l with
  | nil => simp [List.lookup]
  | cons hd tl ih =>
    obtain ⟨g', l'⟩ := hd
    simp only [List.map_cons, List.nodup_cons] at hn
    by_cases hg : g = g'
    · subst hg
      simp only [List.lookup, beq_self_eq_true, if_pos]
      constructor
      · intro h
        rcases List.mem_cons.mp h with h | h
        · simp at h; simp [h]
        · exact absurd (List.mem_map.mpr ⟨(g, v), h, rfl⟩) hn.1
      · intro h; simp at h; simp [h]
    · have hb : (g == g') = false := by simp [hg]
      simp only [List.lookup, hb]
      rw [← ih hn.2]
      simp [hg]

theorem groupLoop_lookup (ks : List String) :
    ∀ (rs : List Json) (i : Nat) (acc out : List (Json × List Nat)),
    groupLoop ks rs i acc = some out → ∀ g : Json,
    out.lookup g = match acc.lookup g with
      | some l => some (l ++ slicePositions ks rs i g)
      | none => if slicePositions ks rs i g = [] then none
                else some (slicePositions ks rs i g) := by
  intro rs
  induction rs with
  | nil =>
    intro i acc out h g
    simp [groupLoop] at h
    rw [← h]
    cases hacc : acc.lookup g <;> simp [slicePositions, hacc]
  | cons r rs' ih =>
    intro i acc out h g
    unfold groupLoop at h
    match hk : r.getPath ks with
    | none => rw [hk] at h; simp at h
    | some k =>
      rw [hk] at h
      dsimp only at h
      have hrec := ih (i + 1) (addToGroup acc k i) out h g
      rw [addToGroup_lookup] at hrec
      by_cases hg : g = k
      · subst hg
        rw [if_pos rfl] at hrec
        unfold slicePositions
        rw [hk, if_pos rfl]
        match hl : acc.lookup g with
        | some l =>
          rw [hl] at hrec
          simp at hrec
          simp [hrec]
        | none =>
          rw [hl] at hrec
          simp at hrec
          simp [hrec]
      · rw [if_neg hg] at hrec
        unfold slicePositions
        rw [hk, if_neg (by simp only [Option.some.injEq]; exact Ne.symm hg)]
        exact hrec

theorem groupLoop_keys_nodup (ks : List String) :
    ∀ (rs : List Json) (i : Nat) (acc out : List (Json × List Nat)),
    groupLoop ks rs i acc = some out → (acc.map Prod.fst).Nodup →
    (out.map Prod.fst).Nodup := by
  intro rs
  induction rs with
  | nil =>
    intro i acc out h hn
    simp [groupLoop] at h
    subst h
    exact hn
  | cons r rs' ih =>
    intro i acc out h hn
    unfold groupLoop at h
    match hk : r.getPath ks with
    | none => rw [hk] at h; simp at h
    | some k =>
      rw [hk] at h
      dsimp only at h
      refine ih (i + 1) _ out h ?_
      rw [addToGroup_keys]
      by_cases hmem : k ∈ acc.map Prod.fst
      · simp [hmem, hn]
      · simp [hmem, hn, List.Nodup.append hn (List.nodup_singleton k) (by simp [hmem])]

theorem groupLoop_flatten (ks : List String) :
    ∀ (rs : List Json) (i : Nat) (acc out : List (Json × List Nat)),
    groupLoop ks rs i acc = some out →
    ((out.map Prod.snd).flatten).Perm
      ((acc.map Prod.snd).flatten ++ List.range' i rs.length) := by
  intro rs
  induction rs with
  | nil =>
    intro i acc out h
    simp [groupLoop] at h
    subst h
    simp
  | cons r rs' ih =>
    intro i acc out h
    unfold groupLoop at h
    match hk : r.getPath ks with
    | none => rw [hk] at h; simp at h
    | some k =>
      rw [hk] at h
      dsimp only at h
      have hrec := ih (i + 1) (addToGroup acc k i) out h
      have hstep := addToGroup_flatten acc k i
      refine hrec.trans ((hstep.append_right _).trans ?_)
      rw [List.append_assoc]
      rw [show List.range' i ((r :: rs').length) = i :: List.range' (i + 1) rs'.length from by
        simp [List.range'_succ]]
      exact List.Perm.refl _

theorem slicePositions_eq (ks : List String) :
    ∀ (rs : List Json) (i : Nat) (g : Json) (data : List Json), data.drop i = rs →
    slicePositions ks rs i g
      = (List.range' i rs.length).filter (fun j => keyAt data ks j = some g) := by
  intro rs
  induction rs with
  | nil => intro i g data _; simp [slicePositions]
  | cons r rs' ih =>
    intro i g data h
    have hr : data[i]? = some r := by
      have h0 := List.getElem?_drop data i 0
      rw [h] at h0
      simpa using h0.symm
    have hd : data.drop (i + 1) = rs' := by
      have h1 := List.drop_drop 1 i data
      rw [h] at h1
      simpa using h1.symm
    have hkey : keyAt data ks i = r.getPath ks := by
      unfold keyAt
      rw [hr]
    unfold slicePositions
    rw [show (r :: rs').length = rs'.length + 1 from rfl, List.range'_succ]
    rw [List.filter_cons]
    by_cases hc : r.getPath ks = some g
    · rw [if_pos hc, if_pos (by simp [hkey, hc])]
      rw [ih (i + 1) g data hd]
    · rw [if_neg hc, if_neg (by simp [hkey, hc])]
      rw [ih (i + 1) g data hd]

/-- Characterization of every entry of `group_json_objects`: its index
list is exactly the ordered subsequence of input positions whose
group-key value is that entry's group. -/
theorem gjo_entry (data : List Json) (gk : String) (groups : List (Json × List Nat))
    (h : group_json_objects data gk = some groups) (g : Json) (idxs : List Nat)
    (hmem : (g, idxs) ∈ groups) :
    idxs = (List.range data.length).filter
      (fun i => keyAt data (splitDots gk) i = some g) := by
  have hlook := groupLoop_lookup (splitDots gk) data 0 [] groups h g
  have hnodup := groupLoop_keys_nodup (splitDots gk) data 0 [] groups h (by simp)
  have hm := (mem_iff_lookup groups hnodup g idxs).mp hmem
  simp only [List.lookup] at hlook
  rw [hlook] at hm
  by_cases hs : slicePositions (splitDots gk) data 0 g = []
  · rw [if_pos hs] at hm
    simp at hm
  · rw [if_neg hs] at hm
    simp at hm
    rw [← hm, slicePositions_eq (splitDots gk) data 0 g data rfl, List.range_eq_range']

/-- C8: the grouping is stable — within each returned group the index
list equals, in input order, the subsequence of positions carrying that
group's key value. -/
theorem C8_stable_grouping (data : List Json) (gk : String)
    (groups : List (Json × List Nat)) (g : Json) (idxs : List Nat)
    (h : group_json_objects data gk = some groups) (hmem : (g, idxs) ∈ groups) :
    idxs = (List.range data.length).filter
      (fun i => keyAt data (splitDots gk) i = some g) :=
  gjo_entry data gk groups h g idxs hmem

/-- C8 (witness): the two-record collection grouped by `pipeline.id`. -/
theorem C8_stable_grouping_witness :
    group_json_objects cexData "pipeline.id" = some [(Json.str "p", [0, 1])] ∧
    (Json.str "p", [0, 1]) ∈ [(Json.str "p", [0, 1])] ∧
    [0, 1] = (List.range cexData.length).filter
      (fun i => keyAt cexData (splitDots "pipeline.id") i = some (Json.str "p")) :=
  ⟨by decide, by decide,
   C8_stable_grouping cexData "pipeline.id" [(Json.str "p", [0, 1])] (Json.str "p") [0, 1]
     (by decide) (by decide)⟩

/-- C10: the groups partition the input index set — their flattened
index lists are a permutation of `range n` (so every index lies in
exactly one group), and index lists of distinct entries are disjoint. -/
theorem C10_partition (data : List Json) (gk : String)
    (groups : List (Json × List Nat)) (h : group_json_objects data gk = some groups) :
    ((groups.map Prod.snd).flatten).Perm (List.range data.length) ∧
    groups.Pairwise (fun p q => ∀ i, i ∈ p.2 → i ∉ q.2) := by
  constructor
  · have hf := groupLoop_flatten (splitDots gk) data 0 [] groups h
    rw [List.range_eq_range']
    simpa using hf
  · have hnodup := groupLoop_keys_nodup (splitDots gk) data 0 [] groups h (by simp)
    have hchar : ∀ p ∈ groups, ∀ i, i ∈ p.2 →
        keyAt data (splitDots gk) i = some p.1 := by
      intro p hp i hi
      have := gjo_entry data gk groups h p.1 p.2 (by rwa [Prod.mk.eta])
      rw [this] at hi
      simpa using (List.mem_filter.mp hi).2
    have hne : groups.Pairwise (fun p q => p.1 ≠ q.1) :=
      List.pairwise_map.mp hnodup
    refine hne.imp_of_mem ?_
    intro p q hp hq hpq i hip hiq
    exact hpq ((hchar p hp i hip).symm.trans (hchar q hq i hiq) |> Option.some.inj)

/-- C10 (witness): the partition at the concrete two-record input. -/
theorem C10_partition_witness :
    (([(Json.str "p", [0, 1])].map Prod.snd).flatten).Perm (List.range cexData.length) ∧
    [(Json.str "p", [0, 1])].Pairwise (fun p q => ∀ i, i ∈ p.2 → i ∉ q.2) :=
  C10_partition cexData "pipeline.id" [(Json.str "p", [0, 1])] (by decide)

/-! ### Sampler independence (C7) -/

theorem runSched_outputs :
    ∀ (sched : List Nat) (sys : List RandomSampler) (i : Nat) (s : RandomSampler),
    sys[i]? = some s →
    ((runSched sys sched).1.filter (fun p => p.1 = i)).map Prod.snd
      = samplerOutputsFrom s (sched.count i) := by
  intro sched
  induction sched with
  | nil =>
    intro sys i s hi
    simp [runSched, samplerOutputsFrom]
  | cons t ts ih =>
    intro sys i s hi
    unfold runSched
    by_cases ht : t = i
    · subst ht
      rw [hi]
      dsimp only
      rw [List.filter_cons]
      rw [if_pos (by simp)]
      rw [List.count_cons, if_pos (by simp)]
      have hlen : t < sys.length := by
        by_contra hlen
        rw [List.getElem?_eq_none (by omega)] at hi
        exact Option.noConfusion hi
      have hset : (sys.set t s.iter.2)[t]? = some s.iter.2 :=
        List.getElem?_set_self (by simpa using hlen)
      rw [List.map_cons, ih (sys.set t s.iter.2) t s.iter.2 hset]
      show s.iter.1 :: _ = samplerOutputsFrom s (ts.count t + 1)
      rw [show samplerOutputsFrom s (ts.count t + 1)
          = s.iter.1 :: samplerOutputsFrom s.iter.2 (ts.count t) from rfl]
    · match hst : sys[t]? with
      | none =>
        dsimp only
        rw [List.count_cons, if_neg (by simpa using ht)]
        exact ih sys i s hi
      | some st =>
        dsimp only
        rw [List.filter_cons, if_neg (by simp [ht])]
        rw [List.count_cons, if_neg (by simpa using ht)]
        have hset : (sys.set t st.iter.2)[i]? = sys[i]? :=
          List.getElem?_set_ne ht
        exact ih (sys.set t st.iter.2) i s (hset.trans hi)

/-- C7: any two `RandomSampler`s built with the same `n` and `seed`
produce the same permutation sequence across iteration requests, under
any interleaving with other samplers — each instance owns its own
`random.Random` stream (src/dna/data.py:265-266), so the outputs served
to one sampler are a function of its own seed and request count only,
equal to the canonical sequence `samplerOutputs n seed k`. -/
theorem C7_sampler_independence (sys : List RandomSampler) (sched : List Nat)
    (i j n seed : Nat)
    (hi : sys[i]? = some (RandomSampler.make n seed))
    (hj : sys[j]? = some (RandomSampler.make n seed))
    (hcount : sched.count i = sched.count j) :
    ((runSched sys sched).1.filter (fun p => p.1 = i)).map Prod.snd
      = ((runSched sys sched).1.filter (fun p => p.1 = j)).map Prod.snd ∧
    ((runSched sys sched).1.filter (fun p => p.1 = i)).map Prod.snd
      = samplerOutputs n seed (sched.count i) := by
  have h1 := runSched_outputs sched sys i (RandomSampler.make n seed) hi
  have h2 := runSched_outputs sched sys j (RandomSampler.make n seed) hj
  refine ⟨?_, h1⟩
  rw [h1, h2, hcount]

/-- C7 (witness): two same-seeded samplers in a four-request
round-robin schedule. -/
theorem C7_sampler_independence_witness :
    ((runSched [RandomSampler.make 1 0, RandomSampler.make 1 0] [0, 1, 0, 1]).1.filter
        (fun p => p.1 = 0)).map Prod.snd
      = ((runSched [RandomSampler.make 1 0, RandomSampler.make 1 0] [0, 1, 0, 1]).1.filter
        (fun p => p.1 = 1)).map Prod.snd ∧
    ((runSched [RandomSampler.make 1 0, RandomSampler.make 1 0] [0, 1, 0, 1]).1.filter
        (fun p => p.1 = 0)).map Prod.snd
      = samplerOutputs 1 0 (List.count 0 [0, 1, 0, 1]) :=
  C7_sampler_independence [RandomSampler.make 1 0, RandomSampler.make 1 0] [0, 1, 0, 1]
    0 1 1 0 rfl rfl (by decide)

/-! ### DAG execution engine (C3, C4) -/

/-- C3 (code_bug evidence): at a malformed input — a pipeline whose
step names an unregistered submodule — the forward evaluation does not
raise a typed error to the caller: `recursive_get_output` catches the
`KeyError` and executes `quit(1)` (src/dna/models/models.py:502-505),
terminating the host process with exit code 1; the `SystemExit` also
propagates through `forward` unchanged. -/
theorem C3_forward_error_exits_process :
    recursive_get_output (fun _ => none) id [0] [⟨"step_a", [PyRef.external]⟩] 1000 0
      = Forward.exited 1 ∧
    siameseForward (fun _ => none) id id id [⟨"step_a", [PyRef.external]⟩]
      [⟨"step_a", [PyRef.external]⟩] [0] 1000 = Forward.exited 1 := by
  constructor
  · decide
  · decide

/-- C4: on the 3-node chain `[{inputs:[EXTERNAL]}, {inputs:[0]},
{inputs:[0,1]}]` with identity computation units and identity
activation, node 0 consumes the external feature vector directly, node
1's value equals the unit applied to node 0's value, and node 2
evaluates to the configured reduction — concatenation, the module's
only policy (src/dna/models/models.py:497) — of the values of nodes 0
and 1. -/
theorem C4_chain_evaluation (h1 : List Int) :
    recursive_get_output (fun _ => some id) id h1
      [⟨"p0", [PyRef.external]⟩, ⟨"p1", [PyRef.idx 0]⟩, ⟨"p2", [PyRef.idx 0, PyRef.idx 1]⟩]
      1000 0 = Forward.ok h1 ∧
    recursive_get_output (fun _ => some id) id h1
      [⟨"p0", [PyRef.external]⟩, ⟨"p1", [PyRef.idx 0]⟩, ⟨"p2", [PyRef.idx 0, PyRef.idx 1]⟩]
      1000 1 = Forward.ok (id h1) ∧
    recursive_get_output (fun _ => some id) id h1
      [⟨"p0", [PyRef.external]⟩, ⟨"p1", [PyRef.idx 0]⟩, ⟨"p2", [PyRef.idx 0, PyRef.idx 1]⟩]
      1000 2 = Forward.ok (h1 ++ h1) := by
  refine ⟨?_, ?_, ?_⟩ <;> simp [recursive_get_output, collectRefs]

/-! ### Fisher-Yates permutation lemmas -/

theorem cons_set_perm {α : Type _} :
    ∀ (xs : List α) (m : Nat) (a x : α), xs[m]? = some a →
    (a :: xs.set m x).Perm (x :: xs) := by
  intro xs
  induction xs with
  | nil => intro m a x h; simp at h
  | cons y ys ih =>
    intro m a x h
    cases m with
    | zero =>
      have ha : y = a := by simpa using h
      subst ha
      exact List.Perm.swap x y ys
    | succ m =>
      simp at h
      have h1 : (a :: y :: ys.set m x).Perm (y :: a :: ys.set m x) := List.Perm.swap y a _
      have h2 : (y :: a :: ys.set m x).Perm (y :: x :: ys) := (ih m a x h).cons y
      have h3 : (y :: x :: ys).Perm (x :: y :: ys) := List.Perm.swap x y ys
      exact (h1.trans h2).trans h3

theorem set_set_perm {α : Type _} :
    ∀ (l : List α) (i j : Nat) (a b : α), l[i]? = some a → l[j]? = some b →
    ((l.set i b).set j a).Perm l := by
  intro l
  induction l with
  | nil => intro i j a b hi hj; simp at hi
  | cons c cs ih =>
    intro i j a b hi hj
    cases i with
    | zero =>
      have ha : c = a := by simpa using hi
      subst ha
      cases j with
      | zero =>
        have hb : c = b := by simpa using hj
        subst hb
        simp
      | succ m =>
        have hj' : cs[m]? = some b := by simpa using hj
        exact cons_set_perm cs m b c hj'
    | succ n =>
      have hi' : cs[n]? = some a := by simpa using hi
      cases j with
      | zero =>
        have hb : c = b := by simpa using hj
        subst hb
        exact cons_set_perm cs n a c hi'
      | succ m =>
        have hj' : cs[m]? = some b := by simpa using hj
        exact (ih n m a b hi' hj').cons c

theorem listSwap_perm {α : Type _} (x : List α) (i j : Nat) :
    (PyRandom.listSwap x i j).Perm x := by
  unfold PyRandom.listSwap
  match hi : x[i]?, hj : x[j]? with
  | some a, some b => exact set_set_perm x i j a b hi hj
  | some a, none => exact List.Perm.refl x
  | none, some b => exact List.Perm.refl x
  | none, none => exact List.Perm.refl x

theorem shuffleLoop_perm {α : Type _} :
    ∀ (i : Nat) (x : List α) (s : PyRandom.MTState),
    ((PyRandom.shuffleLoop i x s).1).Perm x := by
  intro i
  induction i with
  | zero => intro x s; exact List.Perm.refl x
  | succ n ih =>
    intro x s
    unfold PyRandom.shuffleLoop
    exact (ih _ _).trans (listSwap_perm x (n + 1) _)

theorem shuffle_perm {α : Type _} (x : List α) (s : PyRandom.MTState) :
    ((PyRandom.shuffle x s).1).Perm x := by
  unfold PyRandom.shuffle
  exact shuffleLoop_perm _ x s

/-! ### Chunking lemmas (torch `BatchSampler` arithmetic) -/

theorem chunkAux_flatten {α : Type _} (bs : Nat) (hbs : 0 < bs) :
    ∀ (fuel : Nat) (l : List α), l.length ≤ fuel → (chunkAux bs fuel l).flatten = l := by
  intro fuel
  induction fuel with
  | zero =>
    intro l hl
    have hnil : l = [] := List.length_eq_zero.mp (by omega)
    subst hnil
    rfl
  | succ n ih =>
    intro l hl
    match l with
    | [] => rfl
    | x :: xs =>
      simp only [List.length_cons] at hl
      have hdrop : ((x :: xs).drop bs).length ≤ n := by
        simp only [List.length_drop, List.length_cons]
        omega
      unfold chunkAux
      rw [List.flatten_cons, ih ((x :: xs).drop bs) hdrop]
      exact List.take_append_drop bs (x :: xs)

theorem chunkAux_length {α : Type _} (bs : Nat) (hbs : 0 < bs) :
    ∀ (fuel : Nat) (l : List α), l.length ≤ fuel →
    (chunkAux bs fuel l).length = (l.length + bs - 1) / bs := by
  intro fuel
  induction fuel with
  | zero =>
    intro l hl
    have hnil : l = [] := List.length_eq_zero.mp (by omega)
    subst hnil
    simp [chunkAux, Nat.div_eq_of_lt (show bs - 1 < bs by omega)]
  | succ n ih =>
    intro l hl
    match l with
    | [] => simp [chunkAux, Nat.div_eq_of_lt (show bs - 1 < bs by omega)]
    | x :: xs =>
      simp only [List.length_cons] at hl
      have hdrop : ((x :: xs).drop bs).length ≤ n := by
        simp only [List.length_drop, List.length_cons]
        omega
      unfold chunkAux
      rw [List.length_cons, ih ((x :: xs).drop bs) hdrop]
      simp only [List.length_drop, List.length_cons]
      rw [show xs.length + 1 + bs - 1 = (xs.length + 1 - 1) + bs from by omega,
        Nat.add_div_right _ hbs]
      rcases le_or_lt (xs.length + 1) bs with hle | hgt
      · rw [show xs.length + 1 - bs = 0 from by omega]
        rw [show (0 + bs - 1) / bs = 0 from Nat.div_eq_of_lt (by omega)]
        rw [show (xs.length + 1 - 1) / bs = 0 from Nat.div_eq_of_lt (by omega)]
      · rw [show xs.length + 1 - bs + bs - 1 = (xs.length + 1 - bs - 1) + bs from by omega,
          Nat.add_div_right _ hbs]
        rw [show xs.length + 1 - 1 = (xs.length + 1 - bs - 1) + bs from by omega,
          Nat.add_div_right _ hbs]

theorem chunkAux_filter_length {α : Type _} (bs : Nat) (hbs : 0 < bs) :
    ∀ (fuel : Nat) (l : List α), l.length ≤ fuel →
    ((chunkAux bs fuel l).filter (fun c => c.length = bs)).length = l.length / bs := by
  intro fuel
  induction fuel with
  | zero =>
    intro l hl
    have hnil : l = [] := List.length_eq_zero.mp (by omega)
    subst hnil
    simp [chunkAux]
  | succ n ih =>
    intro l hl
    match l with
    | [] => simp [chunkAux]
    | x :: xs =>
      simp only [List.length_cons] at hl
      have hdrop : ((x :: xs).drop bs).length ≤ n := by
        simp only [List.length_drop, List.length_cons]
        omega
      unfold chunkAux
      rw [List.filter_cons]
      rcases Nat.lt_or_ge (xs.length + 1) bs with hlt | hge
      · rw [if_neg (by simp [List.length_take]; omega)]
        rw [ih ((x :: xs).drop bs) hdrop]
        simp only [List.length_drop, List.length_cons]
        rw [show xs.length + 1 - bs = 0 from by omega]
        rw [Nat.zero_div, show (xs.length + 1) / bs = 0 from Nat.div_eq_of_lt (by omega)]
      · rw [if_pos (by simp [List.length_take]; omega)]
        rw [List.length_cons, ih ((x :: xs).drop bs) hdrop]
        simp only [List.length_drop, List.length_cons]
        obtain ⟨m, hm⟩ : ∃ m, xs.length + 1 = m + bs := ⟨xs.length + 1 - bs, by omega⟩
        rw [hm, Nat.add_sub_cancel, Nat.add_div_right _ hbs]

theorem chunkAux_filter_flatten {α : Type _} (bs : Nat) (hbs : 0 < bs) :
    ∀ (fuel : Nat) (l : List α), l.length ≤ fuel →
    ((chunkAux bs fuel l).filter (fun c => c.length = bs)).flatten
      = l.take (bs * (l.length / bs)) := by
  intro fuel
  induction fuel with
  | zero =>
    intro l hl
    have hnil : l = [] := List.length_eq_zero.mp (by omega)
    subst hnil
    simp [chunkAux]
  | succ n ih =>
    intro l hl
    match l with
    | [] => simp [chunkAux]
    | x :: xs =>
      simp only [List.length_cons] at hl
      have hdrop : ((x :: xs).drop bs).length ≤ n := by
        simp only [List.length_drop, List.length_cons]
        omega
      unfold chunkAux
      rw [List.filter_cons]
      rcases Nat.lt_or_ge (xs.length + 1) bs with hlt | hge
      · rw [if_neg (by simp [List.length_take]; omega)]
        rw [ih ((x :: xs).drop bs) hdrop]
        simp only [List.length_cons, List.length_drop]
        rw [show (xs.length + 1) / bs = 0 from Nat.div_eq_of_lt (by omega)]
        rw [show xs.length + 1 - bs = 0 from by omega]
        simp
      · rw [if_pos (by simp [List.length_take]; omega)]
        rw [List.flatten_cons, ih ((x :: xs).drop bs) hdrop]
        simp only [List.length_cons, List.length_drop]
        obtain ⟨m, hm⟩ : ∃ m, xs.length + 1 = m + bs := ⟨xs.length + 1 - bs, by omega⟩
        rw [hm, Nat.add_sub_cancel, Nat.add_div_right _ hbs]
        rw [Nat.mul_add, Nat.mul_one, Nat.add_comm (bs * (m / bs)) bs]
        rw [List.take_add]

theorem batchIndexLists_length (bs : Nat) (hbs : 0 < bs) (dl : Bool) (perm : List Nat) :
    (batchIndexLists bs dl perm).length = dlLen perm.length bs dl := by
  cases dl with
  | false =>
    unfold batchIndexLists chunkList dlLen
    simp only [Bool.false_eq_true, if_false]
    exact chunkAux_length bs hbs perm.length perm le_rfl
  | true =>
    unfold batchIndexLists chunkList dlLen
    simp only [if_true]
    exact chunkAux_filter_length bs hbs perm.length perm le_rfl

theorem batchIndexLists_flatten (bs : Nat) (hbs : 0 < bs) (dl : Bool) (perm : List Nat) :
    (batchIndexLists bs dl perm).flatten
      = if dl then perm.take (bs * (perm.length / bs)) else perm := by
  cases dl with
  | false =>
    unfold batchIndexLists chunkList
    simp only [Bool.false_eq_true, if_false]
    exact chunkAux_flatten bs hbs perm.length perm le_rfl
  | true =>
    unfold batchIndexLists chunkList
    simp only [if_true]
    exact chunkAux_filter_flatten bs hbs perm.length perm le_rfl

theorem buildInfos_label_records (data : List Json) (sh : Bool) :
    ∀ (grouped : List (Json × List Nat)) (m : PyRandom.MTState),
    ((buildInfos data sh grouped m).1).map (fun gi => (gi.label, gi.records))
      = grouped.map (fun p => (p.1, p.2.filterMap (fun i => data[i]?))) := by
  intro grouped
  induction grouped with
  | nil => intro m; rfl
  | cons hd tl ih =>
    intro m
    obtain ⟨g, idxs⟩ := hd
    unfold buildInfos
    cases sh with
    | true =>
      simp only [if_true, List.map_cons]
      rw [ih]
    | false =>
      simp only [Bool.false_eq_true, if_false, List.map_cons]
      rw [ih]

theorem filterMap_getElem_length (data : List Json) :
    ∀ (idxs : List Nat), (∀ i ∈ idxs, i < data.length) →
    (idxs.filterMap (fun i => data[i]?)).length = idxs.length := by
  intro idxs
  induction idxs with
  | nil => intro _; rfl
  | cons i rest ih =>
    intro h
    rw [List.filterMap_cons]
    rw [List.getElem?_eq_getElem (h i (List.mem_cons_self _ _))]
    simp only [List.length_cons]
    rw [ih (fun j hj => h j (List.mem_cons_of_mem _ hj))]

/-- Every index recorded by the grouping is a valid position. -/
theorem gjo_indices_lt (data : List Json) (gk : String)
    (grouped : List (Json × List Nat)) (hg : group_json_objects data gk = some grouped) :
    ∀ p ∈ grouped, ∀ i ∈ p.2, i < data.length := by
  intro p hp i hi
  have := gjo_entry data gk grouped hg p.1 p.2 (by rwa [Prod.mk.eta])
  rw [this] at hi
  exact List.mem_range.mp (List.mem_filter.mp hi).1

/-- C5: the loader length equals the sum, over the groups of the input
collection, of `floor(group_size / batch_size)` when dropping incomplete
batches and `ceil(group_size / batch_size)` otherwise.  The count is the
length of the `_group_batches` schedule built once by `__init__`;
`__len__` only reads it back. -/
theorem C5_length_law (data : List Json) (gk fk tk : String) (bs : Nat) (dl sh : Bool)
    (seed : Nat) (L : Loader) (grouped : List (Json × List Nat))
    (hbs : 0 < bs)
    (hL : mkLoader data gk fk tk bs dl sh seed = some L)
    (hg : group_json_objects data gk = some grouped) :
    loaderLen L = (grouped.map (fun p =>
      if dl then p.2.length / bs else (p.2.length + bs - 1) / bs)).sum := by
  unfold mkLoader at hL
  rw [hg] at hL
  dsimp only at hL
  simp only [Option.some.injEq] at hL
  have hgb : L.groupBatches
      = (PyRandom.shuffle
          (loaderSchedule (buildInfos data sh grouped (PyRandom.seedInt seed)).1 bs dl)
          (buildInfos data sh grouped (PyRandom.seedInt seed)).2).1 := by
    rw [← hL]
  unfold loaderLen
  rw [hgb, (shuffle_perm _ _).length_eq]
  unfold loaderSchedule
  rw [List.length_flatten, List.map_map]
  have hcomp : (List.length ∘ fun (gi : GroupInfo) =>
      List.replicate (dlLen gi.records.length bs dl) gi.label)
      = (fun (gi : GroupInfo) => dlLen gi.records.length bs dl) := by
    funext gi
    simp [Function.comp]
  rw [hcomp]
  have hrec : ((buildInfos data sh grouped (PyRandom.seedInt seed)).1).map
      (fun gi => dlLen gi.records.length bs dl)
      = grouped.map (fun p => dlLen (p.2.filterMap (fun i => data[i]?)).length bs dl) := by
    have h1 := buildInfos_label_records data sh grouped (PyRandom.seedInt seed)
    have h2 := congrArg (List.map (fun q : Json × List Json => dlLen q.2.length bs dl)) h1
    rw [List.map_map, List.map_map] at h2
    exact h2
  rw [hrec]
  have hsum : grouped.map (fun p => dlLen (p.2.filterMap (fun i => data[i]?)).length bs dl)
      = grouped.map (fun p => dlLen p.2.length bs dl) := by
    refine List.map_congr_left ?_
    intro p hp
    rw [filterMap_getElem_length data p.2 (gjo_indices_lt data gk grouped hg p hp)]
  rw [hsum]
  rfl

/-- C5 (witness): the two-record one-group collection with batch size
2 and no shuffling: one batch. -/
theorem C5_length_law_witness :
    0 < 2 ∧ loaderLen nsLoader = ([(Json.str "p", [0, 1])].map (fun p =>
      if false then p.2.length / 2 else (p.2.length + 2 - 1) / 2)).sum :=
  ⟨by norm_num,
   C5_length_law cexData "pipeline.id" "metafeatures" "test_f1_macro" 2 false false 99
     nsLoader [(Json.str "p", [0, 1])] (by norm_num) (by decide) (by decide)⟩

/-! ### Loader state invariants and coverage (C6) -/

theorem advanceInfo_label_records (bs : Nat) (dl : Bool) (gi : GroupInfo) :
    (advanceInfo bs dl gi).label = gi.label ∧ (advanceInfo bs dl gi).records = gi.records := by
  unfold advanceInfo
  match gi.sampler with
  | none => exact ⟨rfl, rfl⟩
  | some s =>
    dsimp only
    split
    · exact ⟨rfl, rfl⟩
    · exact ⟨rfl, rfl⟩

theorem advanceInfo_wf (bs : Nat) (dl : Bool) (gi : GroupInfo)
    (hwf : ∀ p, gi.sampler = some p → p.1.Perm (List.range gi.records.length)) :
    ∀ p, (advanceInfo bs dl gi).sampler = some p →
    p.1.Perm (List.range (advanceInfo bs dl gi).records.length) := by
  intro p hp
  rw [(advanceInfo_label_records bs dl gi).2]
  match hs : gi.sampler with
  | none =>
    unfold advanceInfo at hp
    rw [hs] at hp
    exact hwf p hp
  | some s =>
    unfold advanceInfo at hp
    rw [hs] at hp
    dsimp only at hp
    by_cases h0 : dlLen gi.records.length bs dl = 0
    · rw [if_pos h0] at hp
      exact hwf p hp
    · rw [if_neg h0] at hp
      dsimp only at hp
      obtain rfl : p = PyRandom.shuffle s.1 s.2 := (Option.some.inj hp).symm
      exact (shuffle_perm s.1 s.2).trans (hwf s hs)

theorem buildInfos_wf (data : List Json) (sh : Bool) :
    ∀ (grouped : List (Json × List Nat)) (m : PyRandom.MTState) (gi : GroupInfo),
    gi ∈ (buildInfos data sh grouped m).1 →
    ∀ p, gi.sampler = some p → p.1.Perm (List.range gi.records.length) := by
  intro grouped
  induction grouped with
  | nil => intro m gi hgi; simp [buildInfos] at hgi
  | cons hd tl ih =>
    intro m gi hgi p hp
    obtain ⟨g, idxs⟩ := hd
    unfold buildInfos at hgi
    cases sh with
    | true =>
      simp only [if_true] at hgi
      rcases List.mem_cons.mp hgi with h | h
      · subst h
        dsimp only at hp
        obtain rfl := Option.some.inj hp
        exact List.Perm.refl _
      · exact ih _ gi h p hp
    | false =>
      simp only [Bool.false_eq_true, if_false] at hgi
      rcases List.mem_cons.mp hgi with h | h
      · subst h
        simp at hp
      · exact ih _ gi h p hp

theorem mkLoader_fields (data : List Json) (gk fk tk : String) (bs : Nat) (dl sh : Bool)
    (seed : Nat) (L : Loader) (h : mkLoader data gk fk tk bs dl sh seed = some L) :
    L.batchSize = bs ∧ L.dropLast = dl ∧
    (∀ gi ∈ L.infos, ∀ p, gi.sampler = some p →
      p.1.Perm (List.range gi.records.length)) := by
  unfold mkLoader at h
  match hg : group_json_objects data gk with
  | none => rw [hg] at h; simp at h
  | some grouped =>
    rw [hg] at h
    dsimp only at h
    simp only [Option.some.injEq] at h
    refine ⟨by rw [← h], by rw [← h], ?_⟩
    intro gi hgi p hp
    rw [← h] at hgi
    exact buildInfos_wf data sh grouped _ gi hgi p hp

theorem advanceLoader_fields (L : Loader) :
    (advanceLoader L).batchSize = L.batchSize ∧ (advanceLoader L).dropLast = L.dropLast :=
  ⟨rfl, rfl⟩

theorem iterate_advanceLoader_wf (L : Loader)
    (hwf : ∀ gi ∈ L.infos, ∀ p, gi.sampler = some p →
      p.1.Perm (List.range gi.records.length)) :
    ∀ k, ∀ gi ∈ ((advanceLoader)^[k] L).infos, ∀ p, gi.sampler = some p →
      p.1.Perm (List.range gi.records.length) := by
  intro k
  induction k with
  | zero => simpa using hwf
  | succ n ih =>
    intro gi hgi p hp
    rw [Function.iterate_succ_apply'] at hgi
    unfold advanceLoader at hgi
    dsimp only at hgi
    obtain ⟨gi', hgi', hadv⟩ := List.mem_map.mp hgi
    rw [← hadv] at hp ⊢
    exact advanceInfo_wf _ _ gi' (ih gi' hgi') p hp

theorem coverage_of_perm (bs : Nat) (hbs : 0 < bs) (dl : Bool) (n : Nat) (perm : List Nat)
    (hperm : perm.Perm (List.range n)) :
    (batchIndexLists bs dl perm).flatten.Nodup ∧
    ∃ dropped, ((batchIndexLists bs dl perm).flatten ++ dropped).Perm (List.range n) ∧
      dropped.length = if dl then n % bs else 0 := by
  have hlen : perm.length = n := by simpa using hperm.length_eq
  have hnd : perm.Nodup := hperm.nodup_iff.mpr (List.nodup_range n)
  cases dl with
  | false =>
    rw [batchIndexLists_flatten bs hbs false perm]
    simp only [Bool.false_eq_true, if_false]
    exact ⟨hnd, [], by simpa using hperm, rfl⟩
  | true =>
    rw [batchIndexLists_flatten bs hbs true perm]
    simp only [if_true]
    refine ⟨((List.take_sublist _ _).nodup hnd), perm.drop (bs * (perm.length / bs)), ?_, ?_⟩
    · rw [List.take_append_drop]
      exact hperm
    · rw [List.length_drop, hlen]
      have := Nat.div_add_mod n bs
      omega

/-- C6: in every pass of a constructed loader — after any number of
earlier passes — each group's batches cover its index set exactly: no
index repeats within the pass, and together with the final incomplete
remainder (dropped only when `drop_last` is set, and of size
`group_size mod batch_size` then) the batch contents are a permutation
of `range(group_size)`. -/
theorem C6_coverage (data : List Json) (gk fk tk : String) (bs : Nat) (dl sh : Bool)
    (seed k : Nat) (L : Loader) (gi : GroupInfo)
    (hbs : 0 < bs) (hL : mkLoader data gk fk tk bs dl sh seed = some L)
    (hgi : gi ∈ ((advanceLoader)^[k] L).infos) :
    (groupIdxBatches bs dl (advanceInfo bs dl gi)).flatten.Nodup ∧
    ∃ dropped,
      ((groupIdxBatches bs dl (advanceInfo bs dl gi)).flatten ++ dropped).Perm
        (List.range gi.records.length) ∧
      dropped.length = if dl then gi.records.length % bs else 0 := by
  obtain ⟨hbsf, hdlf, hwf0⟩ := mkLoader_fields data gk fk tk bs dl sh seed L hL
  have hwf := iterate_advanceLoader_wf L hwf0 k gi hgi
  have hwf' := advanceInfo_wf bs dl gi hwf
  have hrec := (advanceInfo_label_records bs dl gi).2
  have hperm : (passPerm (advanceInfo bs dl gi)).Perm
      (List.range gi.records.length) := by
    unfold passPerm
    match hs : (advanceInfo bs dl gi).sampler with
    | none => rw [hrec]
    | some p =>
      have := hwf' p hs
      rwa [hrec] at this
  unfold groupIdxBatches
  exact coverage_of_perm bs hbs dl gi.records.length (passPerm (advanceInfo bs dl gi)) hperm

/-- C6 (witness): the unshuffled two-record loader, first pass. -/
theorem C6_coverage_witness :
    0 < 2 ∧
    ((groupIdxBatches 2 false
        (advanceInfo 2 false ⟨Json.str "p", [cexRecord0, cexRecord1], none⟩)).flatten.Nodup ∧
    ∃ dropped,
      ((groupIdxBatches 2 false
          (advanceInfo 2 false ⟨Json.str "p", [cexRecord0, cexRecord1], none⟩)).flatten
        ++ dropped).Perm (List.range ([cexRecord0, cexRecord1] : List Json).length) ∧
      dropped.length = if false then ([cexRecord0, cexRecord1] : List Json).length % 2 else 0) :=
  ⟨by norm_num,
   C6_coverage cexData "pipeline.id" "metafeatures" "test_f1_macro" 2 false false 99 0
     nsLoader ⟨Json.str "p", [cexRecord0, cexRecord1], none⟩ (by norm_num) (by decide)
     (by decide)⟩

/-! ### Generator exhaustion (C9): every scheduled batch is served,
then the trailing `raise StopIteration()` surfaces as `RuntimeError` -/

theorem loaderSchedule_cons (gi : GroupInfo) (tl : List GroupInfo) (bs : Nat) (dl : Bool) :
    loaderSchedule (gi :: tl) bs dl
      = List.replicate (dlLen gi.records.length bs dl) gi.label
        ++ loaderSchedule tl bs dl := by
  simp [loaderSchedule]

theorem count_schedule_not_mem (infos : List GroupInfo) (bs : Nat) (dl : Bool) (g : Json)
    (hg : g ∉ infos.map GroupInfo.label) :
    (loaderSchedule infos bs dl).count g = 0 := by
  rw [List.count_eq_zero]
  intro hmem
  unfold loaderSchedule at hmem
  obtain ⟨l, hl, hgl⟩ := List.mem_flatten.mp hmem
  obtain ⟨gi, hgi, rfl⟩ := List.mem_map.mp hl
  obtain rfl := List.eq_of_mem_replicate hgl
  exact hg (List.mem_map_of_mem GroupInfo.label hgi)

theorem count_schedule_mem (bs : Nat) (dl : Bool) :
    ∀ (infos : List GroupInfo) (gi : GroupInfo), gi ∈ infos →
    (infos.map GroupInfo.label).Nodup →
    (loaderSchedule infos bs dl).count gi.label = dlLen gi.records.length bs dl := by
  intro infos
  induction infos with
  | nil => intro gi hgi _; simp at hgi
  | cons hd tl ih =>
    intro gi hgi hnd
    rw [List.map_cons, List.nodup_cons] at hnd
    rw [loaderSchedule_cons, List.count_append]
    rcases List.mem_cons.mp hgi with h | h
    · have hgl : gi.label = hd.label := by rw [h]
      have hrl : gi.records.length = hd.records.length := by rw [h]
      rw [hgl, hrl, List.count_replicate, if_pos (by simp),
        count_schedule_not_mem tl bs dl hd.label hnd.1]
      omega
    · have hne : hd.label ≠ gi.label := by
        intro e
        exact hnd.1 (e ▸ List.mem_map_of_mem GroupInfo.label h)
      rw [List.count_replicate, if_neg (by simp [hne]), ih gi h hnd.2]
      omega

theorem popBatch_of_lookup {β : Type _} :
    ∀ (avail : List (Json × List β)) (g : Json) (b : β) (l' : List β),
    avail.lookup g = some (b :: l') →
    ∃ avail', popBatch avail g = some (b, avail') ∧ avail'.lookup g = some l' ∧
      ∀ g2 : Json, g2 ≠ g → avail'.lookup g2 = avail.lookup g2 := by
  intro avail
  induction avail with
  | nil => intro g b l' h; simp [List.lookup] at h
  | cons e rest ih =>
    intro g b l' h
    obtain ⟨gk, lst⟩ := e
    by_cases hg : gk = g
    · subst hg
      rw [show ((gk, lst) :: rest).lookup gk = some lst from by simp [List.lookup]] at h
      obtain rfl : lst = b :: l' := Option.some.inj h
      refine ⟨(gk, l') :: rest, by simp [popBatch], by simp [List.lookup], ?_⟩
      intro g2 hg2
      have hb : (g2 == gk) = false := by simp [hg2]
      simp only [List.lookup, hb]
    · have hb : (g == gk) = false := by simp [Ne.symm hg]
      rw [show ((gk, lst) :: rest).lookup g = rest.lookup g from by
        simp only [List.lookup, hb]] at h
      obtain ⟨rest', hpop, hlk, hoth⟩ := ih g b l' h
      refine ⟨(gk, lst) :: rest', ?_, ?_, ?_⟩
      · unfold popBatch
        rw [if_neg hg, hpop]
      · simp only [List.lookup, hb]
        exact hlk
      · intro g2 hg2
        by_cases hgk : g2 = gk
        · subst hgk
          simp [List.lookup]
        · have hb2 : (g2 == gk) = false := by simp [hgk]
          simp only [List.lookup, hb2]
          exact hoth g2 hg2

theorem consumeSchedule_total {β : Type _} :
    ∀ (sched : List Json) (avail : List (Json × List β)),
    (∀ g : Json, sched.count g ≤ ((avail.lookup g).getD []).length) →
    ∃ ys, consumeSchedule avail sched = some ys := by
  intro sched
  induction sched with
  | nil => intro avail _; exact ⟨[], rfl⟩
  | cons g gs ih =>
    intro avail hcount
    have hg := hcount g
    rw [List.count_cons_self] at hg
    match hlk : avail.lookup g with
    | none =>
      rw [hlk] at hg
      simp only [Option.getD_none, List.length_nil] at hg
      exact absurd hg (by omega)
    | some [] =>
      rw [hlk] at hg
      simp only [Option.getD_some, List.length_nil] at hg
      exact absurd hg (by omega)
    | some (b :: l') =>
      obtain ⟨avail', hpop, hlk', hoth⟩ := popBatch_of_lookup avail g b l' hlk
      have hcount' : ∀ g2 : Json, gs.count g2 ≤ ((avail'.lookup g2).getD []).length := by
        intro g2
        by_cases hgg : g2 = g
        · subst hgg
          rw [hlk']
          simp only [Option.getD_some]
          have h2 := hcount g2
          rw [List.count_cons_self, hlk] at h2
          simp only [Option.getD_some, List.length_cons] at h2
          omega
        · rw [hoth g2 hgg]
          have h2 := hcount g2
          have hb : (g == g2) = false := by simp [Ne.symm hgg]
          rw [List.count_cons, hb] at h2
          simp only [Bool.false_eq_true, if_false, Nat.add_zero] at h2
          exact h2
      obtain ⟨ys, hys⟩ := ih avail' hcount'
      refine ⟨b :: ys, ?_⟩
      unfold consumeSchedule
      rw [hpop]
      dsimp only
      rw [hys]
      rfl

theorem mapOpt_label_lookup {β : Type _} (F : GroupInfo → Option (List β)) :
    ∀ (infos : List GroupInfo) (avail : List (Json × List β)),
    mapOpt (fun gi => (F gi).map (fun ys => (gi.label, ys))) infos = some avail →
    (infos.map GroupInfo.label).Nodup →
    ∀ gi ∈ infos, ∃ ys, F gi = some ys ∧ avail.lookup gi.label = some ys := by
  intro infos
  induction infos with
  | nil => intro avail _ _ gi hgi; simp at hgi
  | cons hd tl ih =>
    intro avail h hnd gi hgi
    rw [List.map_cons, List.nodup_cons] at hnd
    unfold mapOpt at h
    match hF : F hd with
    | none =>
      rw [hF] at h
      simp at h
    | some ys0 =>
      rw [hF] at h
      match hrec : mapOpt (fun gi => (F gi).map (fun ys => (gi.label, ys))) tl with
      | none => rw [hrec] at h; simp at h
      | some avail' =>
        rw [hrec] at h
        simp at h
        rcases List.mem_cons.mp hgi with he | he
        · refine ⟨ys0, by rw [he]; exact hF, ?_⟩
          rw [← h]
          have hgl : gi.label = hd.label := by rw [he]
          rw [hgl]
          simp [List.lookup]
        · have hm := List.mem_map_of_mem GroupInfo.label he
          have hne : gi.label ≠ hd.label := fun e => hnd.1 (e ▸ hm)
          obtain ⟨ys, hFy, hlky⟩ := ih avail' hrec hnd.2 gi he
          refine ⟨ys, hFy, ?_⟩
          rw [← h]
          have hb : (gi.label == hd.label) = false := by simp [hne]
          simp only [List.lookup, hb]
          exact hlky

theorem pass_total {β : Type _} (infos : List GroupInfo) (bs : Nat) (dl : Bool)
    (sched : List Json) (F : GroupInfo → Option (List β))
    (hnd : (infos.map GroupInfo.label).Nodup)
    (hsched : sched.Perm (loaderSchedule infos bs dl))
    (hF : ∀ gi ∈ infos, ∃ ys, F (advanceInfo bs dl gi) = some ys ∧
      ys.length = dlLen gi.records.length bs dl) :
    ∃ avail ys,
      mapOpt (fun gi => (F gi).map (fun ys => (gi.label, ys)))
        (infos.map (advanceInfo bs dl)) = some avail ∧
      consumeSchedule avail sched = some ys ∧ ys.length = sched.length := by
  have hSome : ∀ gi2 ∈ infos.map (advanceInfo bs dl),
      ((fun gi => (F gi).map (fun ys => (gi.label, ys))) gi2).isSome := by
    intro gi2 hm
    obtain ⟨gi, hgi, rfl⟩ := List.mem_map.mp hm
    obtain ⟨ys, hys, _⟩ := hF gi hgi
    dsimp only
    rw [hys]
    rfl
  obtain ⟨avail, havail, _⟩ := mapOpt_isSome _ _ hSome
  have hlab : (infos.map (advanceInfo bs dl)).map GroupInfo.label
      = infos.map GroupInfo.label := by
    rw [List.map_map]
    refine List.map_congr_left ?_
    intro gi _
    exact (advanceInfo_label_records bs dl gi).1
  have hnd2 : ((infos.map (advanceInfo bs dl)).map GroupInfo.label).Nodup := by
    rw [hlab]; exact hnd
  have hcount : ∀ g : Json, sched.count g ≤ ((avail.lookup g).getD []).length := by
    intro g
    rw [hsched.count_eq]
    by_cases hmem : g ∈ infos.map GroupInfo.label
    · obtain ⟨gi, hgi, rfl⟩ := List.mem_map.mp hmem
      rw [count_schedule_mem bs dl infos gi hgi hnd]
      have hmem2 : advanceInfo bs dl gi ∈ infos.map (advanceInfo bs dl) :=
        List.mem_map_of_mem (advanceInfo bs dl) hgi
      obtain ⟨ys, hys, hlky⟩ := mapOpt_label_lookup F (infos.map (advanceInfo bs dl))
        avail havail hnd2 (advanceInfo bs dl gi) hmem2
      rw [(advanceInfo_label_records bs dl gi).1] at hlky
      obtain ⟨ys2, hys2, hlen2⟩ := hF gi hgi
      rw [hys2] at hys
      obtain rfl := Option.some.inj hys
      rw [hlky]
      simp [hlen2]
    · rw [count_schedule_not_mem infos bs dl g hmem]
      exact Nat.zero_le _
  obtain ⟨ys, hys⟩ := consumeSchedule_total sched avail hcount
  exact ⟨avail, ys, havail, hys, consumeSchedule_length sched avail ys hys⟩

theorem mem_of_mem_batchIndexLists (bs : Nat) (hbs : 0 < bs) (dl : Bool)
    (perm : List Nat) (c : List Nat) (hc : c ∈ batchIndexLists bs dl perm)
    (i : Nat) (hi : i ∈ c) : i ∈ perm := by
  have hfl : i ∈ (batchIndexLists bs dl perm).flatten := List.mem_flatten.mpr ⟨c, hc, hi⟩
  rw [batchIndexLists_flatten bs hbs dl perm] at hfl
  cases dl with
  | false => simpa using hfl
  | true =>
    simp only [if_true] at hfl
    exact List.mem_of_mem_take hfl

theorem itemOf_isSome (fk tk : String) (recs : List Json) (i : Nat) (hi : i < recs.length)
    (hkeys : ∀ r ∈ recs, (r.getKey fk).isSome ∧ (r.getKey tk).isSome) :
    (itemOf fk tk recs i).isSome := by
  obtain ⟨hf, ht⟩ := hkeys recs[i] (List.getElem_mem hi)
  obtain ⟨x, hx⟩ := Option.isSome_iff_exists.mp hf
  obtain ⟨y, hy⟩ := Option.isSome_iff_exists.mp ht
  unfold itemOf
  rw [List.getElem?_eq_getElem hi]
  dsimp only
  rw [hx, hy]
  rfl

theorem batchOf_isSome (fk tk : String) (recs : List Json) (c : List Nat)
    (hc : ∀ i ∈ c, i < recs.length)
    (hkeys : ∀ r ∈ recs, (r.getKey fk).isSome ∧ (r.getKey tk).isSome) :
    (batchOf fk tk recs c).isSome := by
  obtain ⟨items, hitems, _⟩ := mapOpt_isSome (itemOf fk tk recs) c
    (fun i hi => itemOf_isSome fk tk recs i (hc i hi) hkeys)
  unfold batchOf
  rw [hitems]
  rfl

theorem passPerm_perm (bs : Nat) (dl : Bool) (gi : GroupInfo)
    (hwf : ∀ p, gi.sampler = some p → p.1.Perm (List.range gi.records.length)) :
    (passPerm (advanceInfo bs dl gi)).Perm (List.range gi.records.length) := by
  have hwf2 := advanceInfo_wf bs dl gi hwf
  have hrec := (advanceInfo_label_records bs dl gi).2
  unfold passPerm
  match hs : (advanceInfo bs dl gi).sampler with
  | none => rw [hrec]
  | some p =>
    have := hwf2 p hs
    rwa [hrec] at this

theorem groupYieldBatches_total (bs : Nat) (dl : Bool) (fk tk : String) (gi : GroupInfo)
    (hbs : 0 < bs) (hne : gi.records ≠ [])
    (hpl : ∀ r ∈ gi.records, (r.getKey "pipeline").isSome)
    (hkeys : ∀ r ∈ gi.records, (r.getKey fk).isSome ∧ (r.getKey tk).isSome)
    (hperm : (passPerm gi).Perm (List.range gi.records.length)) :
    ∃ ys, groupYieldBatches bs dl fk tk gi = some ys ∧
      ys.length = dlLen gi.records.length bs dl := by
  have h0 : 0 < gi.records.length := List.length_pos.mpr hne
  have hr0 : gi.records[0]? = some gi.records[0] := List.getElem?_eq_getElem h0
  obtain ⟨pl, hpl0⟩ := Option.isSome_iff_exists.mp
    (hpl gi.records[0] (List.getElem_mem h0))
  have hbound : ∀ c ∈ groupIdxBatches bs dl gi, ∀ i ∈ c, i < gi.records.length := by
    intro c hc i hi
    have h1 : i ∈ passPerm gi :=
      mem_of_mem_batchIndexLists bs hbs dl (passPerm gi) c hc i hi
    have h2 := hperm.mem_iff.mp h1
    simpa using h2
  obtain ⟨bsl, hbsl, hlen⟩ := mapOpt_isSome (batchOf fk tk gi.records)
    (groupIdxBatches bs dl gi)
    (fun c hc => batchOf_isSome fk tk gi.records c (hbound c hc) hkeys)
  refine ⟨bsl.map (fun b => ⟨gi.label, pl, b.1, b.2⟩), ?_, ?_⟩
  · unfold groupYieldBatches
    rw [hr0]
    dsimp only
    rw [hpl0]
    dsimp only
    rw [hbsl]
    rfl
  · rw [List.length_map, hlen]
    unfold groupIdxBatches
    rw [batchIndexLists_length bs hbs dl (passPerm gi)]
    have hl : (passPerm gi).length = gi.records.length := by
      simpa using hperm.length_eq
    rw [hl]

theorem rnnGroupYieldBatches_total (bs : Nat) (dl : Bool) (fk tk : String)
    (p2e : List (String × Json)) (structs : List (Json × List Json)) (gi : GroupInfo)
    (hbs : 0 < bs)
    (hlk : (structs.lookup gi.label).isSome)
    (hkeys : ∀ r ∈ gi.records, (r.getKey fk).isSome ∧ (r.getKey tk).isSome)
    (henc : ∀ r ∈ gi.records, (encodePipeline p2e r).isSome)
    (hperm : (passPerm gi).Perm (List.range gi.records.length)) :
    ∃ ys, rnnGroupYieldBatches bs dl fk tk p2e structs gi = some ys ∧
      ys.length = dlLen gi.records.length bs dl := by
  obtain ⟨gs, hgs⟩ := Option.isSome_iff_exists.mp hlk
  have hbound : ∀ c ∈ groupIdxBatches bs dl gi, ∀ i ∈ c, i < gi.records.length := by
    intro c hc i hi
    have h1 : i ∈ passPerm gi :=
      mem_of_mem_batchIndexLists bs hbs dl (passPerm gi) c hc i hi
    have h2 := hperm.mem_iff.mp h1
    simpa using h2
  have hitem : ∀ i, i < gi.records.length →
      (rnnItemOf p2e fk tk gi.records i).isSome := by
    intro i hi
    obtain ⟨xy, hxy⟩ := Option.isSome_iff_exists.mp
      (itemOf_isSome fk tk gi.records i hi hkeys)
    obtain ⟨e, he⟩ := Option.isSome_iff_exists.mp
      (henc gi.records[i] (List.getElem_mem hi))
    unfold rnnItemOf
    rw [List.getElem?_eq_getElem hi, hxy]
    dsimp only
    rw [he]
    rfl
  obtain ⟨ys, hys, hlen⟩ := mapOpt_isSome (fun (c : List Nat) =>
      (mapOpt (rnnItemOf p2e fk tk gi.records) c).map (fun items =>
        (⟨gs, items.map (fun t => t.1), items.map (fun t => t.2.1),
          items.map (fun t => t.2.2)⟩ : RNNYield)))
    (groupIdxBatches bs dl gi)
    (fun c hc => by
      obtain ⟨items, hitems, _⟩ := mapOpt_isSome (rnnItemOf p2e fk tk gi.records) c
        (fun i hi => hitem i (hbound c hc i hi))
      dsimp only
      rw [hitems]
      rfl)
  refine ⟨ys, ?_, ?_⟩
  · unfold rnnGroupYieldBatches
    rw [hgs]
    dsimp only
    exact hys
  · rw [hlen]
    unfold groupIdxBatches
    rw [batchIndexLists_length bs hbs dl (passPerm gi)]
    have hl : (passPerm gi).length = gi.records.length := by
      simpa using hperm.length_eq
    rw [hl]

theorem runPass_total (L : Loader)
    (hnd : (L.infos.map GroupInfo.label).Nodup)
    (hsched : L.groupBatches.Perm (loaderSchedule L.infos L.batchSize L.dropLast))
    (hF : ∀ gi ∈ L.infos, ∃ ys,
      groupYieldBatches L.batchSize L.dropLast L.featuresKey L.targetKey
        (advanceInfo L.batchSize L.dropLast gi) = some ys ∧
      ys.length = dlLen gi.records.length L.batchSize L.dropLast) :
    ∃ ys, runPass L = some (ys, advanceLoader L) ∧ ys.length = loaderLen L := by
  obtain ⟨avail, ys, havail, hcons, hlen⟩ := pass_total L.infos L.batchSize L.dropLast
    L.groupBatches (groupYieldBatches L.batchSize L.dropLast L.featuresKey L.targetKey)
    hnd hsched hF
  refine ⟨ys, ?_, hlen⟩
  unfold runPass
  dsimp only
  rw [havail]
  dsimp only
  rw [hcons]
  rfl

theorem runRNNPass_total (R : RNNLoader)
    (hnd : (R.base.infos.map GroupInfo.label).Nodup)
    (hsched : R.base.groupBatches.Perm
      (loaderSchedule R.base.infos R.base.batchSize R.base.dropLast))
    (hF : ∀ gi ∈ R.base.infos, ∃ ys,
      rnnGroupYieldBatches R.base.batchSize R.base.dropLast R.base.featuresKey
        R.base.targetKey R.primToEnc R.structures
        (advanceInfo R.base.batchSize R.base.dropLast gi) = some ys ∧
      ys.length = dlLen gi.records.length R.base.batchSize R.base.dropLast) :
    ∃ ys, runRNNPass R = some (ys,
      ⟨advanceLoader R.base, R.structures, R.primToEnc⟩) ∧
      ys.length = loaderLen R.base := by
  obtain ⟨avail, ys, havail, hcons, hlen⟩ := pass_total R.base.infos R.base.batchSize
    R.base.dropLast R.base.groupBatches
    (rnnGroupYieldBatches R.base.batchSize R.base.dropLast R.base.featuresKey
      R.base.targetKey R.primToEnc R.structures)
    hnd hsched hF
  refine ⟨ys, ?_, hlen⟩
  unfold runRNNPass
  dsimp only
  rw [havail]
  dsimp only
  rw [hcons]
  rfl

theorem gjo_entry_ne_nil (data : List Json) (gk : String)
    (groups : List (Json × List Nat)) (h : group_json_objects data gk = some groups)
    (g : Json) (idxs : List Nat) (hmem : (g, idxs) ∈ groups) : idxs ≠ [] := by
  have hlook := groupLoop_lookup (splitDots gk) data 0 [] groups h g
  have hnodup := groupLoop_keys_nodup (splitDots gk) data 0 [] groups h (by simp)
  have hm := (mem_iff_lookup groups hnodup g idxs).mp hmem
  simp only [List.lookup] at hlook
  rw [hlook] at hm
  by_cases hs : slicePositions (splitDots gk) data 0 g = []
  · rw [if_pos hs] at hm
    simp at hm
  · rw [if_neg hs] at hm
    simp at hm
    rw [← hm]
    exact hs

theorem mkLoader_keys (data : List Json) (gk fk tk : String) (bs : Nat) (dl sh : Bool)
    (seed : Nat) (L : Loader) (h : mkLoader data gk fk tk bs dl sh seed = some L) :
    L.featuresKey = fk ∧ L.targetKey = tk := by
  unfold mkLoader at h
  match hg : group_json_objects data gk with
  | none => rw [hg] at h; simp at h
  | some grouped =>
    rw [hg] at h
    dsimp only at h
    simp only [Option.some.injEq] at h
    exact ⟨by rw [← h], by rw [← h]⟩

theorem mkLoader_anatomy (data : List Json) (gk fk tk : String) (bs : Nat) (dl sh : Bool)
    (seed : Nat) (L : Loader) (grouped : List (Json × List Nat))
    (hL : mkLoader data gk fk tk bs dl sh seed = some L)
    (hg : group_json_objects data gk = some grouped) :
    L.infos.map GroupInfo.label = grouped.map Prod.fst ∧
    L.groupBatches.Perm (loaderSchedule L.infos bs dl) ∧
    ∀ gi ∈ L.infos, gi.records ≠ [] ∧ ∀ r ∈ gi.records, r ∈ data := by
  unfold mkLoader at hL
  rw [hg] at hL
  dsimp only at hL
  simp only [Option.some.injEq] at hL
  have hinfos : L.infos = (buildInfos data sh grouped (PyRandom.seedInt seed)).1 := by
    rw [← hL]
  have hgb : L.groupBatches = (PyRandom.shuffle
      (loaderSchedule (buildInfos data sh grouped (PyRandom.seedInt seed)).1 bs dl)
      (buildInfos data sh grouped (PyRandom.seedInt seed)).2).1 := by
    rw [← hL]
  have hpair := buildInfos_label_records data sh grouped (PyRandom.seedInt seed)
  refine ⟨?_, ?_, ?_⟩
  · rw [hinfos]
    have h2 := congrArg (List.map Prod.fst) hpair
    rw [List.map_map, List.map_map] at h2
    exact h2
  · rw [hgb, hinfos]
    exact shuffle_perm _ _
  · intro gi hgi
    have hm := List.mem_map_of_mem (fun gi : GroupInfo => (gi.label, gi.records)) hgi
    rw [hinfos] at hm
    rw [hpair] at hm
    obtain ⟨p, hp, he⟩ := List.mem_map.mp hm
    have he2 : p.2.filterMap (fun i => data[i]?) = gi.records := congrArg Prod.snd he
    have hlt := gjo_indices_lt data gk grouped hg p hp
    have hnn : p.2 ≠ [] :=
      gjo_entry_ne_nil data gk grouped hg p.1 p.2 (by rwa [Prod.mk.eta])
    constructor
    · rw [← he2]
      intro hcon
      have h3 := filterMap_getElem_length data p.2 hlt
      rw [hcon] at h3
      simp only [List.length_nil] at h3
      exact hnn (List.length_eq_zero.mp h3.symm)
    · intro r hr
      rw [← he2] at hr
      obtain ⟨i, hi, hir⟩ := List.mem_filterMap.mp hr
      obtain ⟨hlen, hel⟩ := List.getElem?_eq_some.mp hir
      rw [← hel]
      exact List.getElem_mem hlen

theorem structEntry_fst (data : List Json) (p : Json × List Nat) (s : Json × List Json)
    (h : structEntry data p = some s) : s.1 = p.1 := by
  unfold structEntry at h
  match hp : p.2 with
  | [] => rw [hp] at h; simp at h
  | i0 :: rest =>
    rw [hp] at h
    dsimp only at h
    match hb : (data[i0]?).bind structureOf with
    | none => rw [hb] at h; simp at h
    | some st =>
      rw [hb] at h
      simp at h
      rw [← h]

theorem mapOpt_structs_fst (data : List Json) :
    ∀ (grouped : List (Json × List Nat)) (structs : List (Json × List Json)),
    mapOpt (structEntry data) grouped = some structs →
    structs.map Prod.fst = grouped.map Prod.fst := by
  intro grouped
  induction grouped with
  | nil =>
    intro structs h
    simp only [mapOpt, Option.some.injEq] at h
    rw [← h]
    rfl
  | cons p tl ih =>
    intro structs h
    unfold mapOpt at h
    match he : structEntry data p with
    | none => rw [he] at h; simp at h
    | some s =>
      rw [he] at h
      dsimp only at h
      match hrec : mapOpt (structEntry data) tl with
      | none => rw [hrec] at h; simp at h
      | some tl2 =>
        rw [hrec] at h
        simp at h
        rw [← h]
        simp only [List.map_cons]
        rw [structEntry_fst data p s he, ih tl2 hrec]

theorem lookup_isSome_of_mem_fst {β : Type _} :
    ∀ (l : List (Json × β)) (g : Json), g ∈ l.map Prod.fst → (l.lookup g).isSome := by
  intro l
  induction l with
  | nil => intro g hg; simp at hg
  | cons e tl ih =>
    intro g hg
    obtain ⟨gk, v⟩ := e
    by_cases hgg : g = gk
    · subst hgg
      simp [List.lookup]
    · have hb : (g == gk) = false := by simp [hgg]
      simp only [List.lookup, hb]
      apply ih
      rw [List.map_cons] at hg
      rcases List.mem_cons.mp hg with h | h
      · exact absurd h hgg
      · exact h

/-- C9: a full iteration of a constructed `GroupDataLoader` — and of a
constructed `RNNDataLoader` over the same collection — yields exactly
`len(loader)` batches and then executes the generator body's trailing
`raise StopIteration()`, which PEP 479 surfaces to the consumer as a
`RuntimeError` instead of a normal end of iteration. -/
theorem C9_stop_iteration_runtime_error (data : List Json) (gk fk tk : String)
    (bs : Nat) (dl sh : Bool) (seed : Nat) (p2e : List (String × Json))
    (L : Loader) (R : RNNLoader)
    (hbs : 0 < bs)
    (hkeys : ∀ r ∈ data, (r.getKey fk).isSome ∧ (r.getKey tk).isSome ∧
      (r.getKey "pipeline").isSome)
    (henc : ∀ r ∈ data, (encodePipeline p2e r).isSome)
    (hL : mkLoader data gk fk tk bs dl sh seed = some L)
    (hR : mkRNNLoader data gk fk tk bs dl sh seed p2e = some R) :
    (∃ ys, loaderIterRun L = some (ys, GenTermination.runtimeError) ∧
      ys.length = loaderLen L) ∧
    ∃ zs, rnnIterRun R = some (zs, GenTermination.runtimeError) ∧
      zs.length = loaderLen R.base := by
  match hg : group_json_objects data gk with
  | none =>
    exfalso
    unfold mkLoader at hL
    rw [hg] at hL
    simp at hL
  | some grouped =>
    obtain ⟨hlab, hsched0, hrecords⟩ :=
      mkLoader_anatomy data gk fk tk bs dl sh seed L grouped hL hg
    obtain ⟨hbsf, hdlf, hwf⟩ := mkLoader_fields data gk fk tk bs dl sh seed L hL
    obtain ⟨hfk, htk⟩ := mkLoader_keys data gk fk tk bs dl sh seed L hL
    have hndg : (grouped.map Prod.fst).Nodup :=
      groupLoop_keys_nodup (splitDots gk) data 0 [] grouped hg (by simp)
    have hnd : (L.infos.map GroupInfo.label).Nodup := by
      rw [hlab]; exact hndg
    have hsched : L.groupBatches.Perm
        (loaderSchedule L.infos L.batchSize L.dropLast) := by
      rw [hbsf, hdlf]; exact hsched0
    have hperm : ∀ gi ∈ L.infos,
        (passPerm (advanceInfo L.batchSize L.dropLast gi)).Perm
          (List.range gi.records.length) :=
      fun gi hgi => passPerm_perm L.batchSize L.dropLast gi (hwf gi hgi)
    have hbs2 : 0 < L.batchSize := by rw [hbsf]; exact hbs
    have hrec : ∀ gi : GroupInfo,
        (advanceInfo L.batchSize L.dropLast gi).records = gi.records :=
      fun gi => (advanceInfo_label_records L.batchSize L.dropLast gi).2
    constructor
    · have hF : ∀ gi ∈ L.infos, ∃ ys,
          groupYieldBatches L.batchSize L.dropLast L.featuresKey L.targetKey
            (advanceInfo L.batchSize L.dropLast gi) = some ys ∧
          ys.length = dlLen gi.records.length L.batchSize L.dropLast := by
        intro gi hgi
        obtain ⟨hne, hsub⟩ := hrecords gi hgi
        obtain ⟨ys, hys, hlen⟩ := groupYieldBatches_total L.batchSize L.dropLast
          L.featuresKey L.targetKey (advanceInfo L.batchSize L.dropLast gi) hbs2
          (by rw [hrec gi]; exact hne)
          (by rw [hrec gi]
              intro r hr
              exact (hkeys r (hsub r hr)).2.2)
          (by rw [hrec gi]
              intro r hr
              rw [hfk, htk]
              exact ⟨(hkeys r (hsub r hr)).1, (hkeys r (hsub r hr)).2.1⟩)
          (by rw [hrec gi]; exact hperm gi hgi)
        refine ⟨ys, hys, ?_⟩
        rw [hlen, hrec gi]
      obtain ⟨ys, hrun, hylen⟩ := runPass_total L hnd hsched hF
      refine ⟨ys, ?_, hylen⟩
      simp [loaderIterRun, hrun]
    · unfold mkRNNLoader at hR
      rw [hL, hg] at hR
      dsimp only at hR
      match hstr : mapOpt (structEntry data) grouped with
      | none => rw [hstr] at hR; simp at hR
      | some structs =>
        rw [hstr] at hR
        dsimp only at hR
        simp only [Option.some.injEq] at hR
        have hsf : structs.map Prod.fst = grouped.map Prod.fst :=
          mapOpt_structs_fst data grouped structs hstr
        have hlkS : ∀ gi ∈ L.infos, (structs.lookup gi.label).isSome := by
          intro gi hgi
          apply lookup_isSome_of_mem_fst
          rw [hsf, ← hlab]
          exact List.mem_map_of_mem GroupInfo.label hgi
        have hF : ∀ gi ∈ L.infos, ∃ ys,
            rnnGroupYieldBatches L.batchSize L.dropLast L.featuresKey L.targetKey
              p2e structs (advanceInfo L.batchSize L.dropLast gi) = some ys ∧
            ys.length = dlLen gi.records.length L.batchSize L.dropLast := by
          intro gi hgi
          obtain ⟨hne, hsub⟩ := hrecords gi hgi
          obtain ⟨ys, hys, hlen⟩ := rnnGroupYieldBatches_total L.batchSize L.dropLast
            L.featuresKey L.targetKey p2e structs
            (advanceInfo L.batchSize L.dropLast gi) hbs2
            (by rw [(advanceInfo_label_records L.batchSize L.dropLast gi).1]
                exact hlkS gi hgi)
            (by rw [hrec gi]
                intro r hr
                rw [hfk, htk]
                exact ⟨(hkeys r (hsub r hr)).1, (hkeys r (hsub r hr)).2.1⟩)
            (by rw [hrec gi]
                intro r hr
                exact henc r (hsub r hr))
            (by rw [hrec gi]; exact hperm gi hgi)
          refine ⟨ys, hys, ?_⟩
          rw [hlen, hrec gi]
        obtain ⟨zs, hruns, hzlen⟩ := runRNNPass_total ⟨L, structs, p2e⟩ hnd hsched hF
        rw [← hR]
        refine ⟨zs, ?_, hzlen⟩
        simp [rnnIterRun, hruns]

/-- C9 (witness): the two-record one-group collection with
`steps`-bearing pipelines, batch size 2, no shuffling: both loaders
yield their single scheduled batch and then surface `RuntimeError`. -/
theorem C9_stop_iteration_runtime_error_witness :
    0 < 2 ∧
    (∀ r ∈ rnnData, (r.getKey "metafeatures").isSome ∧
      (r.getKey "test_f1_macro").isSome ∧ (r.getKey "pipeline").isSome) ∧
    (∀ r ∈ rnnData, (encodePipeline p2eWit r).isSome) ∧
    mkLoader rnnData "pipeline.id" "metafeatures" "test_f1_macro" 2 false false 99
      = some rnsLoader ∧
    mkRNNLoader rnnData "pipeline.id" "metafeatures" "test_f1_macro" 2 false false 99 p2eWit
      = some rnsRNN ∧
    ((∃ ys, loaderIterRun rnsLoader = some (ys, GenTermination.runtimeError) ∧
        ys.length = loaderLen rnsLoader) ∧
      ∃ zs, rnnIterRun rnsRNN = some (zs, GenTermination.runtimeError) ∧
        zs.length = loaderLen rnsRNN.base) :=
  ⟨by norm_num, by decide, by decide, by decide, by decide,
   C9_stop_iteration_runtime_error rnnData "pipeline.id" "metafeatures" "test_f1_macro"
     2 false false 99 p2eWit rnsLoader rnsRNN (by norm_num) (by decide) (by decide)
     (by decide) (by decide)⟩

/-- C1: `encode_dag` is a separator-free concatenation and therefore
collides on exactly the DAG pairs the specification requires it to
distinguish: `[[1,2],[3]]` and `[[1],[2,3]]` both encode to `"123"`,
and `[[0],[1]]` and `[[0,1]]` both encode to `"01"`. -/
theorem encode_dag_collides :
    encode_dag [[1, 2], [3]] = encode_dag [[1], [2, 3]] ∧
    encode_dag [[1, 2], [3]] = "123" ∧
    encode_dag [[0], [1]] = encode_dag [[0, 1]] ∧
    encode_dag [[0], [1]] = "01" := by
  refine ⟨?_, ?_, ?_, ?_⟩ <;> rfl
